import Mathlib

/-!
# PurC interpreter: element operations, instance requests, system object

A shallow embedding of the element operations of the HVML interpreter
(`Source/PurC/interpreter/catch.c`, `exit.c`, `sleep.c`, `test.c`,
`elements/match.c`), of the request handling of an instance
(`interpreter/runners-pthread.c`), of methods of the system object
(`dvobjs/system.c`), of the wait of the headless renderer
(`pcrdr/headless.c`) and of the table of cached powers of ten
(`html/core/diyfp.c`).  Each C function becomes a Lean function that
passes the state it acts on explicitly.  Calls into collaborators whose
code lives outside these files (allocation, the atom registry, timers,
attribute evaluation, system calls) are either given by an explicit
outcome argument or by a small definition marked `Modelled from the spec`.
-/

namespace PurC

/-! ## Error codes (`purc-errors.h`) -/

def PURC_ERROR_OK : Nat := 0
def PURC_ERROR_BAD_SYSTEM_CALL : Nat := 1
def PURC_ERROR_BAD_STDC_CALL : Nat := 2
def PURC_ERROR_OUT_OF_MEMORY : Nat := 3
def PURC_ERROR_INVALID_VALUE : Nat := 4
def PURC_ERROR_DUPLICATED : Nat := 5
def PURC_ERROR_NOT_IMPLEMENTED : Nat := 6
def PURC_ERROR_NOT_EXISTS : Nat := 17
def PURC_ERROR_ARGUMENT_MISSED : Nat := 18
def PURC_ERROR_WRONG_DATA_TYPE : Nat := 19

/-! ## Values, atoms and the program tree -/

/-- A value of the variant system; `PURC_VARIANT_INVALID` is `none` of
`Option purc_variant`. -/
inductive purc_variant where
  | undefined
  | null
  | boolean (b : Bool)
  | longint (i : Int)
  | ulongint (u : Nat)
  | string (s : String)
  | bsequence (bytes : List Nat)
  deriving DecidableEq, Repr

/-- The type `purc_atom_t`: 0 is "no atom". -/
abbrev purc_atom_t := Nat

/-- The atom registry: the interned strings, the string at position `i`
having atom `i + 1`. -/
abbrev atom_table := List String

/-- Search of the registry from atom number `n` on. -/
def atom_lookup : atom_table → String → Nat → Nat
  | [], _, _ => 0
  | x :: xs, s, n => if x = s then n else atom_lookup xs s (n + 1)

/-- Modelled from the spec: `purc_atom_try_string` (declared in
`purc-utils.h`, which is outside the sources at hand) returns the
process-unique atom of an interned string and 0 for a string that has no
atom; `dvobjs/system.c` relies on the 0 result in the same way. -/
def purc_atom_try_string (tbl : atom_table) (s : String) : purc_atom_t :=
  atom_lookup tbl s 1

/-- Tags of the elements that matter here (`PCHVML_TAG_*`). -/
inductive pchvml_tag where
  | TEST
  | MATCH
  | CATCH
  | EXIT
  | SLEEP
  | OTHER (id : Nat)
  deriving DecidableEq, Repr

/-- An attribute of a vDOM element: its name and the value that
`pcintr_eval_vdom_attr` yields for it (`none` is `PURC_VARIANT_INVALID`,
the evaluation having failed). -/
structure pcvdom_attr where
  key : String
  val : Option purc_variant
  deriving DecidableEq, Repr

/-- A node of the program tree (`struct pcvdom_node`), with its
`PCVDOM_NODE_*` type as constructor. -/
inductive pcvdom_node where
  | document (children : List pcvdom_node)
  | element (tag_id : pchvml_tag) (attrs : List pcvdom_attr)
      (children : List pcvdom_node)
  | content (text : String)
  | comment (text : String)

namespace pcvdom_node

/-- The children of a node, in document order. -/
def children : pcvdom_node → List pcvdom_node
  | document cs => cs
  | element _ _ cs => cs
  | content _ => []
  | comment _ => []

/-- The attributes of an element node. -/
def attrs : pcvdom_node → List pcvdom_attr
  | element _ as _ => as
  | _ => []

/-- The tag of an element node. -/
def tag_id : pcvdom_node → Option pchvml_tag
  | element t _ _ => some t
  | _ => none

/-- Whether the node is of type `PCVDOM_NODE_ELEMENT`. -/
def is_element : pcvdom_node → Bool
  | element _ _ _ => true
  | _ => false

end pcvdom_node

/-! ## The execution stack -/

/-- What a child-selection loop tells its observers, and the other calls
into the interpreter whose order matters. -/
inductive intr_event where
  | set_exit
  | eval_attr (name : String)
  | on_element (idx : Nat)
  | on_content (idx : Nat)
  | on_comment (idx : Nat)
  | free_ctxt
  | destroy_timer (timer : Nat)
  deriving DecidableEq, Repr

/-- A timer of the timer collaborator (`pcintr_timer_t`). -/
structure pcintr_timer where
  for_yielded : Bool
  interval : Int
  started_oneshot : Bool
  destroyed : Bool
  deriving DecidableEq, Repr

/-- The continuation a frame registers when it yields. -/
inductive continuation where
  | on_continuation
  deriving DecidableEq, Repr

/-- A stack frame (`struct pcintr_stack_frame`); `κ` is the type of the
operation's context, `frame->ctxt`. -/
structure pcintr_stack_frame (κ : Type) where
  pos : Option pcvdom_node
  ctxt : Option κ
  ctxt_destroy : Bool
  attr_vars : List (String × purc_variant)
  question_var : Option purc_variant
  result_from_child : Option purc_variant

/-- The execution stack of a coroutine (`struct pcintr_stack`) together
with the state of the collaborators the element operations act on: the last
error of the instance, the timers, the yield registration and the record of
observable calls. -/
structure pcintr_stack (κ : Type) where
  bottom : pcintr_stack_frame κ
  parents : List (pcintr_stack_frame κ)
  except : Bool
  error_except : purc_atom_t
  exited : Bool
  last_error : Nat
  timers : List pcintr_timer
  yielded : Option continuation
  log : List intr_event

/-- A frame as `calloc` leaves it. -/
def pcintr_stack_frame.empty {κ : Type} : pcintr_stack_frame κ :=
  { pos := none, ctxt := none, ctxt_destroy := false, attr_vars := [],
    question_var := none, result_from_child := none }

/-- A stack with one fresh frame and nothing pending. -/
def pcintr_stack.fresh {κ : Type} : pcintr_stack κ :=
  { bottom := pcintr_stack_frame.empty, parents := [], except := false,
    error_except := 0, exited := false, last_error := 0, timers := [],
    yielded := none, log := [] }

/-- Modelled from the spec: `purc_set_error` (defined outside the sources
at hand) records the error code as the last error of the instance. -/
def purc_set_error {κ : Type} (stack : pcintr_stack κ) (err : Nat) :
    pcintr_stack κ :=
  { stack with last_error := err }

/-- Modelled from the spec: `purc_clr_error` resets the last error. -/
def purc_clr_error {κ : Type} (stack : pcintr_stack κ) : pcintr_stack κ :=
  { stack with last_error := PURC_ERROR_OK }

/-- Modelled from the spec: `pcintr_stack_frame_get_parent`, for the bottom
frame, gives the frame next above it, if there is one. -/
def pcintr_stack_frame_get_parent {κ : Type} (stack : pcintr_stack κ) :
    Option (pcintr_stack_frame κ) :=
  stack.parents.head?

/-- Modelled from the spec: `pcintr_element_eval_attrs` evaluates every
attribute of the element into the name to value mapping `frame->attr_vars`
and fails when one of them cannot be evaluated. -/
def pcintr_element_eval_attrs :
    List pcvdom_attr → Option (List (String × purc_variant))
  | [] => some []
  | a :: rest =>
    match a.val, pcintr_element_eval_attrs rest with
    | some v, some vars => some ((a.key, v) :: vars)
    | _, _ => none

/-- Modelled from the spec: `purc_variant_object_get_by_ckey` of the value
system looks the key up in the name to value mapping `frame->attr_vars`. -/
def purc_variant_object_get_by_ckey (obj : List (String × purc_variant))
    (key : String) : Option purc_variant :=
  obj.lookup key

/-- The tokens that successive `strtok_r (ctx, " ", &ctx)` calls return:
the maximal runs of characters other than the space.  `acc` is the token
being read, reversed. -/
def strtok_tokens : List Char → List Char → List String
  | [], acc => if acc.isEmpty then [] else [String.mk acc.reverse]
  | c :: cs, acc =>
    if c = ' ' then
      if acc.isEmpty then strtok_tokens cs []
      else String.mk acc.reverse :: strtok_tokens cs []
    else strtok_tokens cs (c :: acc)

/-- Modelled from the spec: `pcintr_vdom_walk_attrs` (defined outside the
sources at hand) hands the attributes of the element to the callback one
after the other, in order, and stops with the return value of the first
call that does not return 0. -/
def pcintr_vdom_walk_attrs {σ : Type} (cb : σ → pcvdom_attr → σ × Int) :
    σ → List pcvdom_attr → σ × Int
  | s, [] => (s, 0)
  | s, a :: rest =>
    match cb s a with
    | (s1, r) => if r ≠ 0 then (s1, r) else pcintr_vdom_walk_attrs cb s1 rest

/-- Modelled from the spec: `pcintr_set_exit` marks the stack of the
coroutine as exited. -/
def pcintr_set_exit {κ : Type} (stack : pcintr_stack κ) : pcintr_stack κ :=
  { stack with exited := true, log := stack.log ++ [intr_event.set_exit] }

/-- Modelled from the spec: the call `pcintr_eval_vdom_attr (stack, attr)`
yields the value of the attribute; the call is recorded. -/
def pcintr_eval_vdom_attr {κ : Type} (stack : pcintr_stack κ)
    (attr : pcvdom_attr) : pcintr_stack κ × Option purc_variant :=
  ({ stack with log := stack.log ++ [intr_event.eval_attr attr.key] }, attr.val)

/-- Two's complement wrap of an integer to the range of `int64_t`. -/
def wrap_int64 (x : Int) : Int :=
  (x + 2 ^ 63) % 2 ^ 64 - 2 ^ 63

/-- The timers with the one of the given handle changed by `f`. -/
def timer_modify (f : pcintr_timer → pcintr_timer) :
    Nat → List pcintr_timer → List pcintr_timer
  | _, [] => []
  | 0, t :: ts => f t :: ts
  | n + 1, t :: ts => t :: timer_modify f n ts

/-- Modelled from the spec: `pcintr_timer_create` of the timer
collaborator adds a timer that is not started and returns its handle, here
its position among the timers. -/
def pcintr_timer_create {κ : Type} (stack : pcintr_stack κ)
    (for_yielded : Bool) : pcintr_stack κ × Nat :=
  ({ stack with timers := stack.timers ++
      [{ for_yielded := for_yielded, interval := 0, started_oneshot := false,
         destroyed := false }] },
   stack.timers.length)

/-- Modelled from the spec: `pcintr_timer_set_interval` sets the interval,
in milliseconds, of the timer. -/
def pcintr_timer_set_interval {κ : Type} (stack : pcintr_stack κ)
    (timer : Nat) (interval : Int) : pcintr_stack κ :=
  let timers :=
    timer_modify (fun t => { t with interval := interval }) timer stack.timers
  { stack with timers := timers }

/-- Modelled from the spec: `pcintr_timer_start_oneshot` starts the timer
for a single expiry. -/
def pcintr_timer_start_oneshot {κ : Type} (stack : pcintr_stack κ)
    (timer : Nat) : pcintr_stack κ :=
  let timers :=
    timer_modify (fun t => { t with started_oneshot := true }) timer
      stack.timers
  { stack with timers := timers }

/-- Modelled from the spec: `pcintr_yield` suspends the frame and registers
the continuation to call on resumption. -/
def pcintr_yield {κ : Type} (stack : pcintr_stack κ) (k : continuation) :
    pcintr_stack κ :=
  { stack with yielded := some k }

/-- Modelled from the spec: `pcintr_get_question_var` reads the question
variable of a frame. -/
def pcintr_get_question_var {κ : Type} (frame : pcintr_stack_frame κ) :
    Option purc_variant :=
  frame.question_var

/-- Modelled from the spec: `pcintr_set_question_var` makes the value the
question variable of the bottom frame and returns 0. -/
def pcintr_set_question_var {κ : Type} (stack : pcintr_stack κ)
    (val : purc_variant) : pcintr_stack κ × Int :=
  ({ stack with bottom := { stack.bottom with question_var := some val } }, 0)

/-- Modelled from the spec: `purc_variant_make_boolean` of the value system
makes a boolean value. -/
def purc_variant_make_boolean (b : Bool) : Option purc_variant :=
  some (purc_variant.boolean b)

/-- Modelled from the spec: `purc_variant_get_string_const` of the value
system gives the text of a string value and `NULL`, here `none`, for any
other value. -/
def purc_variant_get_string_const : purc_variant → Option String
  | purc_variant.string s => some s
  | _ => none

/-- The result of a `select_child`: the next element to push, null, or a
failed `PC_ASSERT`. -/
inductive select_result where
  | assert_failed
  | ret (child : Option pcvdom_node)

/-! ## `interpreter/catch.c` -/

namespace Catch

/-- The context of a catch frame (`struct ctxt_for_catch`); `curr` is the
position among the children of `frame->pos` of the node last visited. -/
structure ctxt_for_catch where
  curr : Option Nat
  for_var : Option purc_variant
  «match» : Bool
  deriving DecidableEq, Repr

/-- The context as `calloc` returns it. -/
def ctxt_for_catch.zeroed : ctxt_for_catch :=
  { curr := none, for_var := none, «match» := false }

/-- Outcomes of the calls of `after_pushed` into collaborators that may
fail: the return value of `pcintr_set_symbol_var_at_sign`, and whether
`calloc` and `strdup` return memory. -/
structure collab where
  set_symbol_var_at_sign : Int
  calloc_ok : Bool
  strdup_ok : Bool
  deriving DecidableEq, Repr

/-- The loop of `post_process_data` over the tokens of the copy of `msg`:
each round looks up the atom of `msg` and compares it with the exception
of the stack. -/
def token_loop (tbl : atom_table) (msg : String) (error_except : purc_atom_t)
    (ctxt : ctxt_for_catch) : List String → ctxt_for_catch
  | [] => ctxt
  | _tok :: rest =>
    let t := purc_atom_try_string tbl msg
    if t = error_except then { ctxt with «match» := true }
    else token_loop tbl msg error_except ctxt rest

/-- The function `post_process_data`: the stack, the context and the
return value. -/
def post_process_data (c : collab) (tbl : atom_table)
    (stack : pcintr_stack ctxt_for_catch) (ctxt : ctxt_for_catch) :
    pcintr_stack ctxt_for_catch × ctxt_for_catch × Int :=
  if !stack.except then
    (stack, { ctxt with «match» := false }, 0)
  else
    match purc_variant_object_get_by_ckey stack.bottom.attr_vars "for" with
    | some (purc_variant.string msg) =>
      let ctxt := { ctxt with for_var := some (purc_variant.string msg) }
      if msg = "*" then
        (stack, { ctxt with «match» := true }, 0)
      else if !c.strdup_ok then
        (purc_set_error stack PURC_ERROR_OUT_OF_MEMORY,
          { ctxt with «match» := false }, -1)
      else
        (stack, token_loop tbl msg stack.error_except ctxt
          (strtok_tokens msg.data []), 0)
    | some _ => (stack, ctxt, -1)
    | none => (stack, { ctxt with «match» := true }, 0)

/-- The function `post_process`. -/
def post_process (c : collab) (tbl : atom_table)
    (stack : pcintr_stack ctxt_for_catch) (ctxt : ctxt_for_catch) :
    pcintr_stack ctxt_for_catch × ctxt_for_catch × Int :=
  post_process_data c tbl stack ctxt

/-- The function `after_pushed` of catch: the stack it leaves and the
context it returns (`none` for `NULL`). -/
def after_pushed (c : collab) (tbl : atom_table)
    (stack : pcintr_stack ctxt_for_catch) (pos : pcvdom_node) :
    pcintr_stack ctxt_for_catch × Option ctxt_for_catch :=
  let stack := { stack with bottom := { stack.bottom with pos := some pos } }
  if c.set_symbol_var_at_sign ≠ 0 then (stack, none)
  else
    match pcintr_element_eval_attrs pos.attrs with
    | none => (stack, none)
    | some vars =>
      let stack :=
        { stack with bottom := { stack.bottom with attr_vars := vars } }
      if !c.calloc_ok then
        (purc_set_error stack PURC_ERROR_OUT_OF_MEMORY, none)
      else
        let stack := { stack with bottom :=
          { stack.bottom with ctxt := some ctxt_for_catch.zeroed,
                              ctxt_destroy := true } }
        match post_process c tbl stack ctxt_for_catch.zeroed with
        | (stack, ctxt, r) =>
          let stack :=
            { stack with bottom := { stack.bottom with ctxt := some ctxt } }
          if r ≠ 0 then (stack, none) else (stack, some ctxt)

/-- The loop of `select_child` from the label `again` on, `rest` being the
siblings not yet visited and `idx` the position of the first of them. -/
def select_loop (stack : pcintr_stack ctxt_for_catch) (ctxt : ctxt_for_catch) :
    List pcvdom_node → Nat → pcintr_stack ctxt_for_catch × select_result
  | [], _ =>
    let ctxt := { ctxt with curr := none }
    (purc_clr_error
      { stack with bottom := { stack.bottom with ctxt := some ctxt } },
      select_result.ret none)
  | node :: rest, idx =>
    let ctxt := { ctxt with curr := some idx }
    let stack := { stack with bottom := { stack.bottom with ctxt := some ctxt } }
    match node with
    | pcvdom_node.document _ => (stack, select_result.assert_failed)
    | pcvdom_node.element _ _ _ =>
      let stack := { stack with log := stack.log ++ [intr_event.on_element idx] }
      if stack.except then (stack, select_result.assert_failed)
      else (stack, select_result.ret (some node))
    | pcvdom_node.content _ =>
      select_loop
        { stack with log := stack.log ++ [intr_event.on_content idx] }
        ctxt rest (idx + 1)
    | pcvdom_node.comment _ =>
      select_loop
        { stack with log := stack.log ++ [intr_event.on_comment idx] }
        ctxt rest (idx + 1)

/-- The children of the position of the bottom frame. -/
def frame_children (stack : pcintr_stack ctxt_for_catch) : List pcvdom_node :=
  match stack.bottom.pos with
  | some pos => pos.children
  | none => []

/-- The function `select_child` of catch.  A frame without context makes
the read of `ctxt->match` fail, which is given as a failed assertion. -/
def select_child (stack : pcintr_stack ctxt_for_catch) :
    pcintr_stack ctxt_for_catch × select_result :=
  match stack.bottom.ctxt with
  | none => (stack, select_result.assert_failed)
  | some ctxt =>
    if !ctxt.«match» then (stack, select_result.ret none)
    else
      let start := match ctxt.curr with
        | none => 0
        | some i => i + 1
      select_loop stack ctxt ((frame_children stack).drop start) start

end Catch

/-! ## `interpreter/exit.c` -/

namespace Exit

/-- The context of an exit frame (`struct ctxt_for_exit`). -/
structure ctxt_for_exit where
  curr : Option Nat
  «with» : Option purc_variant
  deriving DecidableEq, Repr

/-- The context as `calloc` returns it. -/
def ctxt_for_exit.zeroed : ctxt_for_exit :=
  { curr := none, «with» := none }

/-- Outcomes of the calls of `after_pushed` into collaborators that may
fail: the return value of
`pcintr_check_insertion_mode_for_normal_element` and whether `calloc`
returns memory. -/
structure collab where
  check_insertion_mode : Int
  calloc_ok : Bool
  deriving DecidableEq, Repr

/-- The state the attribute callbacks act on: the stack and the context of
the bottom frame. -/
abbrev walk_state := pcintr_stack ctxt_for_exit × ctxt_for_exit

/-- The function `process_attr_with`. -/
def process_attr_with (s : walk_state) (val : Option purc_variant) :
    walk_state × Int :=
  if s.2.«with» ≠ none then
    ((purc_set_error s.1 PURC_ERROR_DUPLICATED, s.2), -1)
  else
    match val with
    | none => ((purc_set_error s.1 PURC_ERROR_INVALID_VALUE, s.2), -1)
    | some v => ((s.1, { s.2 with «with» := some v }), 0)

/-- The function `attr_found_val`. -/
def attr_found_val (s : walk_state) (name : String)
    (val : Option purc_variant) : walk_state × Int :=
  if name = "with" then process_attr_with s val
  else ((purc_set_error s.1 PURC_ERROR_NOT_IMPLEMENTED, s.2), -1)

/-- The function `attr_found`. -/
def attr_found (s : walk_state) (attr : pcvdom_attr) : walk_state × Int :=
  match pcintr_eval_vdom_attr s.1 attr with
  | (stack, none) => ((stack, s.2), -1)
  | (stack, some v) =>
    match attr_found_val (stack, s.2) attr.key (some v) with
    | (s1, r) => (s1, if r ≠ 0 then -1 else 0)

/-- The function `after_pushed` of exit. -/
def after_pushed (c : collab) (stack : pcintr_stack ctxt_for_exit)
    (pos : pcvdom_node) :
    pcintr_stack ctxt_for_exit × Option ctxt_for_exit :=
  if stack.exited then (stack, none)
  else
    let stack := pcintr_set_exit stack
    if stack.except then (stack, none)
    else if c.check_insertion_mode ≠ 0 then (stack, none)
    else if !c.calloc_ok then
      (purc_set_error stack PURC_ERROR_OUT_OF_MEMORY, none)
    else
      let stack := { stack with bottom :=
        { stack.bottom with ctxt := some ctxt_for_exit.zeroed,
                            ctxt_destroy := true, pos := some pos } }
      match pcintr_vdom_walk_attrs attr_found
          (stack, ctxt_for_exit.zeroed) pos.attrs with
      | ((stack, ctxt), r) =>
        let stack :=
          { stack with bottom := { stack.bottom with ctxt := some ctxt } }
        if r ≠ 0 then (stack, none)
        else (purc_clr_error stack, some ctxt)

end Exit

/-! ## `interpreter/sleep.c` -/

namespace Sleep

/-- The context of a sleep frame (`struct ctxt_for_sleep`); `with_secs` is
an `int64_t` and `timer` the handle of the timer. -/
structure ctxt_for_sleep where
  curr : Option Nat
  «with» : Option purc_variant
  with_secs : Int
  timer : Option Nat
  deriving DecidableEq, Repr

/-- The context as `calloc` returns it. -/
def ctxt_for_sleep.zeroed : ctxt_for_sleep :=
  { curr := none, «with» := none, with_secs := 0, timer := none }

/-- Outcomes of the calls of `after_pushed` into collaborators that may
fail: the return value of
`pcintr_check_insertion_mode_for_normal_element`, and whether `calloc` and
`pcintr_timer_create` return an object. -/
structure collab where
  check_insertion_mode : Int
  calloc_ok : Bool
  timer_create_ok : Bool
  deriving DecidableEq, Repr

/-- The state the attribute callbacks act on. -/
abbrev walk_state := pcintr_stack ctxt_for_sleep × ctxt_for_sleep

/-- The function `process_attr_with`.  `cast` is
`purc_variant_cast_to_longint (val, &ctxt->with_secs, force)` of the value
system with `force` true: the `int64_t` it stores, or `none` when it
returns false. -/
def process_attr_with (cast : purc_variant → Option Int) (s : walk_state)
    (val : Option purc_variant) : walk_state × Int :=
  if s.2.«with» ≠ none then
    ((purc_set_error s.1 PURC_ERROR_DUPLICATED, s.2), -1)
  else
    match val with
    | none => ((purc_set_error s.1 PURC_ERROR_INVALID_VALUE, s.2), -1)
    | some v =>
      match cast v with
      | none => ((purc_set_error s.1 PURC_ERROR_INVALID_VALUE, s.2), -1)
      | some secs =>
        let ctxt := { s.2 with with_secs := secs }
        if secs ≤ 0 then
          ((purc_set_error s.1 PURC_ERROR_INVALID_VALUE, ctxt), -1)
        else ((s.1, { ctxt with «with» := some v }), 0)

/-- The function `attr_found_val`. -/
def attr_found_val (cast : purc_variant → Option Int) (s : walk_state)
    (name : String) (val : Option purc_variant) : walk_state × Int :=
  if name = "with" then process_attr_with cast s val
  else ((purc_set_error s.1 PURC_ERROR_NOT_IMPLEMENTED, s.2), -1)

/-- The function `attr_found`. -/
def attr_found (cast : purc_variant → Option Int) (s : walk_state)
    (attr : pcvdom_attr) : walk_state × Int :=
  match pcintr_eval_vdom_attr s.1 attr with
  | (stack, none) => ((stack, s.2), -1)
  | (stack, some v) =>
    match attr_found_val cast (stack, s.2) attr.key (some v) with
    | (s1, r) => (s1, if r ≠ 0 then -1 else 0)

/-- The function `after_pushed` of sleep.  The interval handed to the
timer is the value of the `int64_t` expression `ctxt->with_secs * 1000`. -/
def after_pushed (c : collab) (cast : purc_variant → Option Int)
    (stack : pcintr_stack ctxt_for_sleep) (pos : pcvdom_node) :
    pcintr_stack ctxt_for_sleep × Option ctxt_for_sleep :=
  if stack.except then (stack, none)
  else if c.check_insertion_mode ≠ 0 then (stack, none)
  else if !c.calloc_ok then
    (purc_set_error stack PURC_ERROR_OUT_OF_MEMORY, none)
  else
    let stack := { stack with bottom :=
      { stack.bottom with ctxt := some ctxt_for_sleep.zeroed,
                          ctxt_destroy := true, pos := some pos } }
    match pcintr_vdom_walk_attrs (attr_found cast)
        (stack, ctxt_for_sleep.zeroed) pos.attrs with
    | ((stack, ctxt), r) =>
      let stack :=
        { stack with bottom := { stack.bottom with ctxt := some ctxt } }
      if r ≠ 0 then (stack, none)
      else if !c.timer_create_ok then (stack, none)
      else
        match pcintr_timer_create stack true with
        | (stack, timer) =>
          let ctxt := { ctxt with timer := some timer }
          let stack :=
            { stack with bottom := { stack.bottom with ctxt := some ctxt } }
          let stack :=
            pcintr_timer_set_interval stack timer
              (wrap_int64 (ctxt.with_secs * 1000))
          let stack := pcintr_timer_start_oneshot stack timer
          let stack := pcintr_yield stack continuation.on_continuation
          (purc_clr_error stack, none)

end Sleep

/-! ## `interpreter/elements/match.c` -/

namespace Match

/-- The context of a match frame (`struct ctxt_for_match`); `param` holds
the rule that `match_for_parse` has read, if any. -/
structure ctxt_for_match where
  curr : Option Nat
  for_var : Option purc_variant
  exclusively : Option purc_variant
  param : Option String
  is_exclusively : Bool
  matched : Bool
  deriving DecidableEq, Repr

/-- The context as `calloc` returns it. -/
def ctxt_for_match.zeroed : ctxt_for_match :=
  { curr := none, for_var := none, exclusively := none, param := none,
    is_exclusively := false, matched := false }

/-- The collaborators of match: whether `calloc` returns memory, the code
`PURC_ERROR_ENTITY_NOT_FOUND` (which the `purc-errors.h` at hand does not
list), and the external matcher: `match_for_parse` tells whether the text
is a rule, `match_for_rule_eval` whether the rule matches a value (`none`
when it returns an error). -/
structure collab where
  calloc_ok : Bool
  PURC_ERROR_ENTITY_NOT_FOUND : Nat
  match_for_parse : String → Bool
  match_for_rule_eval : String → purc_variant → Option Bool

/-- The state the attribute callbacks act on. -/
abbrev walk_state := pcintr_stack ctxt_for_match × ctxt_for_match

/-- The function `post_process`; `none` is a failed `PC_ASSERT` (or the
`strlen` of a null string). -/
def post_process (c : collab) (stack : pcintr_stack ctxt_for_match)
    (ctxt : ctxt_for_match) :
    Option (pcintr_stack ctxt_for_match × ctxt_for_match × Int) :=
  let evaluated : Option (ctxt_for_match × Bool) :=
    match ctxt.for_var with
    | none => some (ctxt, true)
    | some for_var =>
      match purc_variant_get_string_const for_var with
      | none => none
      | some for_value =>
        if !c.match_for_parse for_value then none
        else
          let ctxt := { ctxt with param := some for_value }
          match pcintr_stack_frame_get_parent stack with
          | none => none
          | some parent =>
            match pcintr_get_question_var parent with
            | none => none
            | some parent_result =>
              match c.match_for_rule_eval for_value parent_result with
              | none => none
              | some matched => some (ctxt, matched)
  match evaluated with
  | none => none
  | some (ctxt, matched) =>
    let ctxt := { ctxt with matched := matched }
    let ctxt :=
      if ctxt.exclusively ≠ none then { ctxt with is_exclusively := true }
      else ctxt
    if matched then
      match pcintr_stack_frame_get_parent stack with
      | none => none
      | some parent =>
        match pcintr_get_question_var parent with
        | none => none
        | some parent_result =>
          match pcintr_set_question_var stack parent_result with
          | (stack, r) => some (stack, ctxt, if r ≠ 0 then -1 else 0)
    else some (stack, ctxt, 0)

/-- The function `process_attr_for`. -/
def process_attr_for (s : walk_state) (val : Option purc_variant) :
    walk_state × Int :=
  if s.2.for_var ≠ none then
    ((purc_set_error s.1 PURC_ERROR_DUPLICATED, s.2), -1)
  else
    match val with
    | none => ((purc_set_error s.1 PURC_ERROR_INVALID_VALUE, s.2), -1)
    | some v => ((s.1, { s.2 with for_var := some v }), 0)

/-- The function `process_attr_exclusively`. -/
def process_attr_exclusively (s : walk_state) (val : Option purc_variant) :
    walk_state × Int :=
  if s.2.exclusively ≠ none then
    ((purc_set_error s.1 PURC_ERROR_DUPLICATED, s.2), -1)
  else
    match val with
    | none => ((purc_set_error s.1 PURC_ERROR_INVALID_VALUE, s.2), -1)
    | some v => ((s.1, { s.2 with exclusively := some v }), 0)

/-- The function `attr_found_val`. -/
def attr_found_val (s : walk_state) (name : String)
    (val : Option purc_variant) : walk_state × Int :=
  if name = "for" then process_attr_for s val
  else if name = "exclusively" then process_attr_exclusively s val
  else if name = "excl" then process_attr_exclusively s val
  else ((purc_set_error s.1 PURC_ERROR_NOT_IMPLEMENTED, s.2), -1)

/-- The function `attr_found`. -/
def attr_found (s : walk_state) (attr : pcvdom_attr) : walk_state × Int :=
  match pcintr_eval_vdom_attr s.1 attr with
  | (stack, none) => ((stack, s.2), -1)
  | (stack, some v) =>
    match attr_found_val (stack, s.2) attr.key (some v) with
    | (s1, r) => (s1, if r ≠ 0 then -1 else 0)

/-- Whether the frame is one of a test element: the check
`parent->pos && parent->pos->tag_id == PCHVML_TAG_TEST`. -/
def is_test_frame (frame : pcintr_stack_frame ctxt_for_match) : Bool :=
  match frame.pos with
  | some pos => pos.tag_id = some pchvml_tag.TEST
  | none => false

/-- The function `after_pushed` of match; `none` is a failed
`PC_ASSERT`.  The calls of `pcintr_check_insertion_mode_for_normal_element`,
whose result is dropped, and of `pcintr_calc_and_set_caret_symbol` act on
parts of the stack that are not represented here. -/
def after_pushed (c : collab) (stack : pcintr_stack ctxt_for_match)
    (pos : pcvdom_node) :
    Option (pcintr_stack ctxt_for_match × Option ctxt_for_match) :=
  if stack.except then some (stack, none)
  else if !c.calloc_ok then
    some (purc_set_error stack PURC_ERROR_OUT_OF_MEMORY, none)
  else
    let ctxt := ctxt_for_match.zeroed
    let stack := { stack with bottom :=
      { stack.bottom with ctxt := some ctxt, ctxt_destroy := true,
                          pos := some pos } }
    let parent_is_test :=
      match pcintr_stack_frame_get_parent stack with
      | none => false
      | some parent => is_test_frame parent
    if !parent_is_test then
      some (purc_set_error stack c.PURC_ERROR_ENTITY_NOT_FOUND, some ctxt)
    else
      match pcintr_vdom_walk_attrs attr_found (stack, ctxt) pos.attrs with
      | ((stack, ctxt), r) =>
        let stack :=
          { stack with bottom := { stack.bottom with ctxt := some ctxt } }
        if r ≠ 0 then some (stack, some ctxt)
        else
          let stack := purc_clr_error stack
          match post_process c stack ctxt with
          | none => none
          | some (stack, ctxt, _) =>
            let stack :=
              { stack with bottom := { stack.bottom with ctxt := some ctxt } }
            some (stack, some ctxt)

/-- The stack with another frame as the parent of the bottom frame. -/
def set_parent (stack : pcintr_stack ctxt_for_match)
    (parent : pcintr_stack_frame ctxt_for_match) :
    pcintr_stack ctxt_for_match :=
  { stack with parents := parent :: stack.parents.tail }

/-- The function `on_popping` of match; `none` is a failed `PC_ASSERT`. -/
def on_popping (stack : pcintr_stack ctxt_for_match) :
    Option (pcintr_stack ctxt_for_match × Bool) :=
  match stack.bottom.ctxt with
  | none => some (stack, true)
  | some ctxt =>
    match stack.bottom.pos with
    | none => none
    | some _ =>
      let propagated : Option (pcintr_stack ctxt_for_match) :=
        if ctxt.is_exclusively && ctxt.matched then
          match pcintr_stack_frame_get_parent stack with
          | none => none
          | some parent =>
            if !is_test_frame parent then none
            else
              some (set_parent stack
                { parent with
                  result_from_child := purc_variant_make_boolean true })
        else some stack
      match propagated with
      | none => none
      | some stack =>
        some ({ stack with
                bottom := { stack.bottom with ctxt := none },
                log := stack.log ++ [intr_event.free_ctxt] }, true)

end Match

/-! ## `interpreter/test.c` -/

namespace Test

/-- The context of a test frame (`struct ctxt_for_test`). -/
structure ctxt_for_test where
  curr : Option Nat
  «on» : Option purc_variant
  «in» : Option purc_variant
  for_var : Option purc_variant
  deriving DecidableEq, Repr

/-- The context as `calloc` returns it. -/
def ctxt_for_test.zeroed : ctxt_for_test :=
  { curr := none, «on» := none, «in» := none, for_var := none }

/-- Outcomes of the calls of `after_pushed` into collaborators that may
fail: the return value of `pcintr_set_symbol_var_at_sign` and whether
`calloc` returns memory. -/
structure collab where
  set_symbol_var_at_sign : Int
  calloc_ok : Bool
  deriving DecidableEq, Repr

/-- The function `ctxt_for_test_destroy`: a context that is not null is
freed. -/
def ctxt_for_test_destroy (stack : pcintr_stack ctxt_for_test)
    (ctxt : Option ctxt_for_test) : pcintr_stack ctxt_for_test :=
  match ctxt with
  | none => stack
  | some _ => { stack with log := stack.log ++ [intr_event.free_ctxt] }

/-- The function `ctxt_destroy` registered as `frame->ctxt_destroy`. -/
def ctxt_destroy (stack : pcintr_stack ctxt_for_test)
    (ctxt : Option ctxt_for_test) : pcintr_stack ctxt_for_test :=
  ctxt_for_test_destroy stack ctxt

/-- The function `post_process` of test. -/
def post_process (stack : pcintr_stack ctxt_for_test) (ctxt : ctxt_for_test) :
    pcintr_stack ctxt_for_test × ctxt_for_test × Int :=
  match purc_variant_object_get_by_ckey stack.bottom.attr_vars "on" with
  | none => (stack, ctxt, -1)
  | some v =>
    let ctxt := { ctxt with «on» := some v }
    let ctxt :=
      match purc_variant_object_get_by_ckey stack.bottom.attr_vars "in" with
      | some v => { ctxt with «in» := some v }
      | none => ctxt
    let ctxt :=
      match purc_variant_object_get_by_ckey stack.bottom.attr_vars "for" with
      | some v => { ctxt with for_var := some v }
      | none => ctxt
    (stack, ctxt, 0)

/-- The function `after_pushed` of test. -/
def after_pushed (c : collab) (stack : pcintr_stack ctxt_for_test)
    (pos : pcvdom_node) :
    pcintr_stack ctxt_for_test × Option ctxt_for_test :=
  let stack := { stack with bottom := { stack.bottom with pos := some pos } }
  if c.set_symbol_var_at_sign ≠ 0 then (stack, none)
  else
    match pcintr_element_eval_attrs pos.attrs with
    | none => (stack, none)
    | some vars =>
      let stack :=
        { stack with bottom := { stack.bottom with attr_vars := vars } }
      if !c.calloc_ok then
        (purc_set_error stack PURC_ERROR_OUT_OF_MEMORY, none)
      else
        let stack := { stack with bottom :=
          { stack.bottom with ctxt := some ctxt_for_test.zeroed,
                              ctxt_destroy := true } }
        let stack := purc_clr_error stack
        match post_process stack ctxt_for_test.zeroed with
        | (stack, ctxt, r) =>
          let stack :=
            { stack with bottom := { stack.bottom with ctxt := some ctxt } }
          if r ≠ 0 then (stack, none) else (stack, some ctxt)

/-- The function `on_popping` of test; `none` is a failed `PC_ASSERT`. -/
def on_popping (stack : pcintr_stack ctxt_for_test) :
    Option (pcintr_stack ctxt_for_test × Bool) :=
  match stack.bottom.pos with
  | none => none
  | some _ =>
    match stack.bottom.ctxt with
    | none => some (stack, true)
    | some ctxt =>
      let stack := ctxt_for_test_destroy stack (some ctxt)
      some ({ stack with bottom := { stack.bottom with ctxt := none } }, true)

/-- The loop of `select_child` from the label `again` on, `rest` being the
siblings not yet visited and `idx` the position of the first of them. -/
def select_loop (stack : pcintr_stack ctxt_for_test) (ctxt : ctxt_for_test) :
    List pcvdom_node → Nat → pcintr_stack ctxt_for_test × select_result
  | [], _ =>
    let ctxt := { ctxt with curr := none }
    (purc_clr_error
      { stack with bottom := { stack.bottom with ctxt := some ctxt } },
      select_result.ret none)
  | node :: rest, idx =>
    let ctxt := { ctxt with curr := some idx }
    let stack := { stack with bottom := { stack.bottom with ctxt := some ctxt } }
    match node with
    | pcvdom_node.document _ => (stack, select_result.assert_failed)
    | pcvdom_node.element _ _ _ =>
      let stack := { stack with log := stack.log ++ [intr_event.on_element idx] }
      if stack.except then (stack, select_result.assert_failed)
      else (stack, select_result.ret (some node))
    | pcvdom_node.content _ =>
      select_loop
        { stack with log := stack.log ++ [intr_event.on_content idx] }
        ctxt rest (idx + 1)
    | pcvdom_node.comment _ =>
      select_loop
        { stack with log := stack.log ++ [intr_event.on_comment idx] }
        ctxt rest (idx + 1)

/-- The children of the position of the bottom frame. -/
def frame_children (stack : pcintr_stack ctxt_for_test) : List pcvdom_node :=
  match stack.bottom.pos with
  | some pos => pos.children
  | none => []

/-- The function `select_child` of test.  A frame without context makes
the read of `ctxt->curr` fail, which is given as a failed assertion. -/
def select_child (stack : pcintr_stack ctxt_for_test) :
    pcintr_stack ctxt_for_test × select_result :=
  match stack.bottom.ctxt with
  | none => (stack, select_result.assert_failed)
  | some ctxt =>
    let start := match ctxt.curr with
      | none => 0
      | some i => i + 1
    select_loop stack ctxt ((frame_children stack).drop start) start

/-- What follows a call of `select_child` in a run of successive calls:
a failed assertion ends the run without result, null ends it, and an
element is put in front of what the rest of the run, `k`, returns. -/
def collect_with
    (k : pcintr_stack ctxt_for_test →
      Option (List pcvdom_node × pcintr_stack ctxt_for_test)) :
    pcintr_stack ctxt_for_test × select_result →
    Option (List pcvdom_node × pcintr_stack ctxt_for_test)
  | (_, select_result.assert_failed) => none
  | (stack, select_result.ret none) => some ([], stack)
  | (stack, select_result.ret (some child)) =>
    match k stack with
    | none => none
    | some (more, stack) => some (child :: more, stack)

/-- Successive calls of `select_child`, at most `fuel` of them, up to the
first that returns null: the elements returned, in order, and the stack
left by the call that returned null.  `none` when an assertion fails or
the calls allowed do not reach null. -/
def select_children : Nat → pcintr_stack ctxt_for_test →
    Option (List pcvdom_node × pcintr_stack ctxt_for_test)
  | 0, _ => none
  | fuel + 1, stack => collect_with (select_children fuel) (select_child stack)

/-- The observer calls that a walk over the children makes, `idx` being
the position of the first child: `on_element`, `on_content` or
`on_comment` for each child in turn. -/
def child_events : List pcvdom_node → Nat → List intr_event
  | [], _ => []
  | pcvdom_node.element _ _ _ :: rest, idx =>
    intr_event.on_element idx :: child_events rest (idx + 1)
  | pcvdom_node.content _ :: rest, idx =>
    intr_event.on_content idx :: child_events rest (idx + 1)
  | pcvdom_node.comment _ :: rest, idx =>
    intr_event.on_comment idx :: child_events rest (idx + 1)
  | pcvdom_node.document _ :: rest, idx => child_events rest (idx + 1)

/-- Whether the node is of type `PCVDOM_NODE_DOCUMENT`. -/
def is_document : pcvdom_node → Bool
  | pcvdom_node.document _ => true
  | _ => false

end Test

/-! ## Popping a frame and destroying its context -/

/-- Modelled from the spec: `pcintr_timer_destroy` of the timer
collaborator destroys the timer of the given handle; the call is
recorded. -/
def pcintr_timer_destroy {κ : Type} (stack : pcintr_stack κ) (timer : Nat) :
    pcintr_stack κ :=
  let timers :=
    timer_modify (fun t => { t with destroyed := true }) timer stack.timers
  { stack with timers := timers,
               log := stack.log ++ [intr_event.destroy_timer timer] }

/-- Modelled from the spec: a timer of the timer collaborator fires its
completion callback, which resumes the yielded frame through its
continuation, only when it has been started and is not destroyed. -/
def pcintr_timer_may_fire (t : pcintr_timer) : Bool :=
  t.started_oneshot && !t.destroyed

namespace Catch

/-- The function `ctxt_for_catch_destroy`: a context that is not null is
freed. -/
def ctxt_for_catch_destroy (stack : pcintr_stack ctxt_for_catch)
    (ctxt : Option ctxt_for_catch) : pcintr_stack ctxt_for_catch :=
  match ctxt with
  | none => stack
  | some _ => { stack with log := stack.log ++ [intr_event.free_ctxt] }

/-- The function `ctxt_destroy` registered as `frame->ctxt_destroy`. -/
def ctxt_destroy (stack : pcintr_stack ctxt_for_catch)
    (ctxt : Option ctxt_for_catch) : pcintr_stack ctxt_for_catch :=
  ctxt_for_catch_destroy stack ctxt

/-- The function `on_popping` of catch; `none` is a failed `PC_ASSERT`. -/
def on_popping (stack : pcintr_stack ctxt_for_catch) :
    Option (pcintr_stack ctxt_for_catch × Bool) :=
  match stack.bottom.pos with
  | none => none
  | some _ =>
    match stack.bottom.ctxt with
    | none => some (stack, true)
    | some ctxt =>
      let stack := ctxt_for_catch_destroy stack (some ctxt)
      some ({ stack with bottom := { stack.bottom with ctxt := none } }, true)

end Catch

namespace Exit

/-- The function `ctxt_for_exit_destroy`: a context that is not null is
freed. -/
def ctxt_for_exit_destroy (stack : pcintr_stack ctxt_for_exit)
    (ctxt : Option ctxt_for_exit) : pcintr_stack ctxt_for_exit :=
  match ctxt with
  | none => stack
  | some _ => { stack with log := stack.log ++ [intr_event.free_ctxt] }

/-- The function `ctxt_destroy` registered as `frame->ctxt_destroy`. -/
def ctxt_destroy (stack : pcintr_stack ctxt_for_exit)
    (ctxt : Option ctxt_for_exit) : pcintr_stack ctxt_for_exit :=
  ctxt_for_exit_destroy stack ctxt

/-- The function `on_popping` of exit; `none` is a failed `PC_ASSERT`. -/
def on_popping (stack : pcintr_stack ctxt_for_exit) :
    Option (pcintr_stack ctxt_for_exit × Bool) :=
  match stack.bottom.ctxt with
  | none => some (stack, true)
  | some ctxt =>
    match stack.bottom.pos with
    | none => none
    | some _ =>
      let stack := ctxt_for_exit_destroy stack (some ctxt)
      some ({ stack with bottom := { stack.bottom with ctxt := none } }, true)

end Exit

namespace Sleep

/-- The function `ctxt_for_sleep_destroy`: the timer of a context that
is not null is destroyed, if there is one, and the context is freed. -/
def ctxt_for_sleep_destroy (stack : pcintr_stack ctxt_for_sleep)
    (ctxt : Option ctxt_for_sleep) : pcintr_stack ctxt_for_sleep :=
  match ctxt with
  | none => stack
  | some c =>
    let stack :=
      match c.timer with
      | some timer => pcintr_timer_destroy stack timer
      | none => stack
    { stack with log := stack.log ++ [intr_event.free_ctxt] }

/-- The function `ctxt_destroy` registered as `frame->ctxt_destroy`. -/
def ctxt_destroy (stack : pcintr_stack ctxt_for_sleep)
    (ctxt : Option ctxt_for_sleep) : pcintr_stack ctxt_for_sleep :=
  ctxt_for_sleep_destroy stack ctxt

/-- The function `on_popping` of sleep; `none` is a failed `PC_ASSERT`. -/
def on_popping (stack : pcintr_stack ctxt_for_sleep) :
    Option (pcintr_stack ctxt_for_sleep × Bool) :=
  match stack.bottom.ctxt with
  | none => some (stack, true)
  | some ctxt =>
    match stack.bottom.pos with
    | none => none
    | some _ =>
      let stack := ctxt_for_sleep_destroy stack (some ctxt)
      some ({ stack with bottom := { stack.bottom with ctxt := none } }, true)

end Sleep

namespace Match

/-- The function `ctxt_for_match_destroy`: a context that is not null is
freed. -/
def ctxt_for_match_destroy (stack : pcintr_stack ctxt_for_match)
    (ctxt : Option ctxt_for_match) : pcintr_stack ctxt_for_match :=
  match ctxt with
  | none => stack
  | some _ => { stack with log := stack.log ++ [intr_event.free_ctxt] }

/-- The function `ctxt_destroy` registered as `frame->ctxt_destroy`. -/
def ctxt_destroy (stack : pcintr_stack ctxt_for_match)
    (ctxt : Option ctxt_for_match) : pcintr_stack ctxt_for_match :=
  ctxt_for_match_destroy stack ctxt

end Match

/-! ## Pushing a child frame under a test frame -/

/-- A frame as the operation of another element sees it: everything but
the context, which only the operation of the frame itself reads. -/
def pcintr_stack_frame.as_parent {κ κ1 : Type} (f : pcintr_stack_frame κ) :
    pcintr_stack_frame κ1 :=
  { pos := f.pos, ctxt := none, ctxt_destroy := f.ctxt_destroy,
    attr_vars := f.attr_vars, question_var := f.question_var,
    result_from_child := f.result_from_child }

/-- Modelled from the spec: `push (node)` of the execution stack creates
a fresh frame for the child element, sets its position to the node, and
makes it the bottom frame, the frames so far being its parents; the
`after_pushed` of the element's operation is invoked on the result. -/
def push_frame {κ κ1 : Type} (stack : pcintr_stack κ) (node : pcvdom_node) :
    pcintr_stack κ1 :=
  { bottom :=
      { pos := some node, ctxt := none, ctxt_destroy := false,
        attr_vars := [], question_var := none, result_from_child := none }
    parents := stack.bottom.as_parent ::
      stack.parents.map pcintr_stack_frame.as_parent
    except := stack.except
    error_except := stack.error_except
    exited := stack.exited
    last_error := stack.last_error
    timers := stack.timers
    yielded := stack.yielded
    log := stack.log }

/-- Modelled from the spec: the `pop` of the execution stack removes the
bottom frame; the parent is the bottom frame again, keeping its context
and having the question variable and `result_from_child` that the child
left in it. -/
def pop_frame {κ κ1 : Type} (parent : pcintr_stack κ)
    (child : pcintr_stack κ1) : pcintr_stack κ :=
  let bottom :=
    match child.parents with
    | [] => parent.bottom
    | p :: _ =>
      { parent.bottom with question_var := p.question_var,
                           result_from_child := p.result_from_child }
  { bottom := bottom
    parents := parent.parents
    except := child.except
    error_except := child.error_except
    exited := child.exited
    last_error := child.last_error
    timers := child.timers
    yielded := child.yielded
    log := child.log }

/-- A match clause run under a test frame: the clause is pushed,
`after_pushed` of match runs, the frame is popped through `on_popping`.
The context that `after_pushed` returned and the stack of the test
afterwards; `none` when an assertion fails or no context is returned. -/
def run_match_clause (c : Match.collab)
    (test : pcintr_stack Test.ctxt_for_test) (clause : pcvdom_node) :
    Option (Match.ctxt_for_match × pcintr_stack Test.ctxt_for_test) :=
  match Match.after_pushed c (push_frame test clause) clause with
  | some (pushed, some ctxt) =>
    match Match.on_popping pushed with
    | some (popped, _) => some (ctxt, pop_frame test popped)
    | none => none
  | _ => none

/-! ## `interpreter/runners-pthread.c` -/

namespace Runners

/-- The type of a message (`PCRDR_MSG_TYPE_*`). -/
inductive pcrdr_msg_type where
  | VOID
  | REQUEST
  | RESPONSE
  | EVENT
  deriving DecidableEq, Repr

/-- The target of a message (`PCRDR_MSG_TARGET_*`). -/
inductive pcrdr_msg_target where
  | INSTANCE
  | COROUTINE
  | OTHER (id : Nat)
  deriving DecidableEq, Repr

/-- The type of the data of a message (`PCRDR_MSG_DATA_TYPE_*`). -/
inductive pcrdr_msg_data_type where
  | VOID
  | JSON
  | OTHER (id : Nat)
  deriving DecidableEq, Repr

/-- An object value used as the data of a message: its members by key. -/
abbrev object_data := List (String × purc_variant)

/-- A message of the instance transport (`pcrdr_msg`), with the fields
that the runners use. -/
structure pcrdr_msg where
  type : pcrdr_msg_type
  target : pcrdr_msg_target
  targetValue : Nat
  operation : Option purc_variant
  requestId : Option purc_variant
  sourceURI : Option purc_variant
  retCode : Nat
  resultValue : Nat
  dataType : pcrdr_msg_data_type
  data : Option object_data
  deriving DecidableEq, Repr

/-- Constants of the renderer protocol that are defined outside these
files: the status codes and the request identifier that asks for no
response. -/
structure pcrdr_defs where
  PCRDR_SC_OK : Nat
  PCRDR_SC_BAD_REQUEST : Nat
  PCRDR_REQUESTID_NORETURN : String
  deriving DecidableEq, Repr

/-- Modelled from the spec: the operation name `createCoroutine` of the
control surface (`PCRUN_OPERATION_createCoroutine`). -/
def PCRUN_OPERATION_createCoroutine : String := "createCoroutine"

/-- Modelled from the spec: the operation name `killCoroutine`. -/
def PCRUN_OPERATION_killCoroutine : String := "killCoroutine"

/-- Modelled from the spec: the operation name `pauseCoroutine`. -/
def PCRUN_OPERATION_pauseCoroutine : String := "pauseCoroutine"

/-- Modelled from the spec: the operation name `resumeCoroutine`. -/
def PCRUN_OPERATION_resumeCoroutine : String := "resumeCoroutine"

/-- Modelled from the spec: the operation name `shutdownInstance`. -/
def PCRUN_OPERATION_shutdownInstance : String := "shutdownInstance"

/-- Modelled from the spec: the operation name `callMethod`
(`PCRDR_OPERATION_CALLMETHOD`). -/
def PCRDR_OPERATION_CALLMETHOD : String := "callMethod"

/-- Modelled from the spec: `pcrdr_make_void_message` makes a message of
type void with nothing set. -/
def pcrdr_make_void_message : pcrdr_msg :=
  { type := pcrdr_msg_type.VOID, target := pcrdr_msg_target.OTHER 0,
    targetValue := 0, operation := none, requestId := none,
    sourceURI := none, retCode := 0, resultValue := 0,
    dataType := pcrdr_msg_data_type.VOID, data := none }

/-- The extra renderer information (`purc_renderer_extra_info` of
`purc.h`). -/
structure purc_renderer_extra_info where
  klass : Option String
  title : Option String
  layout_style : Option String
  toolkit_style : Option purc_variant
  page_groups : Option String
  deriving DecidableEq, Repr

/-- A local variable of type `const char *`: never assigned, null, or
pointing to a text. -/
inductive c_string where
  | indeterminate
  | null
  | str (s : String)
  deriving DecidableEq, Repr

/-- A `const char *` that has been assigned. -/
def c_string.assigned : Option String → c_string
  | none => c_string.null
  | some s => c_string.str s

/-- The arguments of a call of `purc_schedule_vdom` but the user data. -/
structure schedule_args where
  vdom : Nat
  curator : purc_atom_t
  request : Option purc_variant
  page_type : Nat
  target_workspace : c_string
  target_group : c_string
  page_name : c_string
  extra_info : purc_renderer_extra_info
  body_id : Option String
  deriving DecidableEq, Repr

/-- The value that `purc_variant_cast_to_ulongint` stores for a member
that is there and is an unsigned long integer, if the member is such. -/
def ulongint_member (data : object_data) (key : String) : Option Nat :=
  match purc_variant_object_get_by_ckey data key with
  | some (purc_variant.ulongint u) => some u
  | _ => none

/-- The text that `purc_variant_get_string_const` gives for a member
that is there; `none` when there is no such member. -/
def string_member (data : object_data) (key : String) :
    Option (Option String) :=
  match purc_variant_object_get_by_ckey data key with
  | some v => some (purc_variant_get_string_const v)
  | none => none

/-- A `const char *` local that is assigned only when the member is
there. -/
def c_string_member (data : object_data) (key : String) : c_string :=
  match string_member data key with
  | some s => c_string.assigned s
  | none => c_string.indeterminate

/-- A `const char *` that starts as null and is assigned when the member
is there. -/
def nullable_member (data : object_data) (key : String) : Option String :=
  match string_member data key with
  | some s => s
  | none => none

/-- The vDOM pointer that `create_coroutine` reads from the data: the
`vdom` member as a pointer, null (0) when the member is missing or is not
an unsigned long integer. -/
def decoded_vdom (data : object_data) : Nat :=
  match ulongint_member data "vdom" with
  | some u => u
  | none => 0

/-- The cast `(purc_atom_t)u64`, `purc_atom_t` being an `unsigned int` of
32 bits. -/
def purc_atom_of_uint64 (u : Nat) : purc_atom_t := u % 2 ^ 32

/-- The arguments that `create_coroutine` hands to `purc_schedule_vdom`
for the data of a request. -/
def decoded_args (data : object_data) : schedule_args :=
  { vdom := decoded_vdom data
    curator :=
      match ulongint_member data "curator" with
      | some u => purc_atom_of_uint64 u
      | none => 0
    page_type :=
      match ulongint_member data "pageType" with
      | some u => u % 2 ^ 32
      | none => 0
    request := purc_variant_object_get_by_ckey data "request"
    target_workspace := c_string_member data "targetWorkspace"
    target_group := c_string_member data "targetGroup"
    page_name := c_string_member data "pageName"
    extra_info :=
      { klass := nullable_member data "class"
        title := nullable_member data "title"
        layout_style := nullable_member data "layoutStyle"
        toolkit_style := purc_variant_object_get_by_ckey data "toolkitStyle"
        page_groups := nullable_member data "pageGroups" }
    body_id := nullable_member data "bodyId" }

/-- The function `create_coroutine`: the response and the arguments of
the call of `purc_schedule_vdom`, if it is reached.  `schedule` is that
call followed by `purc_coroutine_identifier`: the identifier of the new
coroutine, or `none` when none is created.  The result `none` is the
failed `assert (msg->data)`. -/
def create_coroutine (d : pcrdr_defs) (endpoint : String)
    (schedule : schedule_args → Option purc_atom_t)
    (msg : pcrdr_msg) (response : pcrdr_msg) :
    Option (pcrdr_msg × Option schedule_args) :=
  if msg.dataType ≠ pcrdr_msg_data_type.JSON then some (response, none)
  else
    match msg.data with
    | none => none
    | some data =>
      if decoded_vdom data = 0 then some (response, none)
      else
        let args := decoded_args data
        match schedule args with
        | some cor_atom =>
          some ({ response with
                  type := pcrdr_msg_type.RESPONSE
                  requestId := msg.requestId
                  sourceURI := some (purc_variant.string endpoint)
                  retCode := d.PCRDR_SC_OK
                  resultValue := cor_atom
                  dataType := pcrdr_msg_data_type.VOID
                  data := none }, some args)
        | none => some (response, some args)

/-- What a call of `inst_request_handler` comes to: a failed `assert` or
a null text handed to `strcmp`; a return before any response is made; or
a response, the requester it is moved to, if it is moved, and the
arguments of the call of `purc_schedule_vdom`, if there was one. -/
inductive handler_result where
  | crashed
  | dropped
  | answered (response : pcrdr_msg) (moved_to : Option purc_atom_t)
      (scheduled : Option schedule_args)
  deriving DecidableEq, Repr

/-- The response that the handler makes of a message still of type
void. -/
def bad_request_response (d : pcrdr_defs) (endpoint : String)
    (msg : pcrdr_msg) (response : pcrdr_msg) : pcrdr_msg :=
  { response with
    type := pcrdr_msg_type.RESPONSE
    requestId := msg.requestId
    sourceURI := some (purc_variant.string endpoint)
    retCode := d.PCRDR_SC_BAD_REQUEST
    resultValue := 0
    dataType := pcrdr_msg_data_type.VOID
    data := none }

/-- The dispatch of `inst_request_handler` on the target and the
operation name; every branch but `createCoroutine` only writes to the
log. -/
def dispatch (d : pcrdr_defs) (endpoint : String)
    (schedule : schedule_args → Option purc_atom_t)
    (msg : pcrdr_msg) (op : String) (response : pcrdr_msg) :
    Option (pcrdr_msg × Option schedule_args) :=
  if msg.target = pcrdr_msg_target.INSTANCE then
    if op = PCRUN_OPERATION_createCoroutine then
      create_coroutine d endpoint schedule msg response
    else if op = PCRUN_OPERATION_killCoroutine then some (response, none)
    else if op = PCRUN_OPERATION_pauseCoroutine then some (response, none)
    else if op = PCRUN_OPERATION_resumeCoroutine then some (response, none)
    else if op = PCRUN_OPERATION_shutdownInstance then some (response, none)
    else some (response, none)
  else if msg.target = pcrdr_msg_target.COROUTINE then
    if op = PCRDR_OPERATION_CALLMETHOD then some (response, none)
    else some (response, none)
  else some (response, none)

/-- The function `inst_request_handler`.  `user_atoms` is the registry of
the bucket `PURC_ATOM_BUCKET_USER` and `endpoint` the name that
`purc_get_endpoint` returns. -/
def inst_request_handler (d : pcrdr_defs) (user_atoms : atom_table)
    (endpoint : String) (schedule : schedule_args → Option purc_atom_t)
    (msg : pcrdr_msg) : handler_result :=
  match msg.sourceURI.bind purc_variant_get_string_const with
  | none => handler_result.dropped
  | some source_uri =>
    let requester := purc_atom_try_string user_atoms source_uri
    if requester = 0 then handler_result.dropped
    else
      let response := pcrdr_make_void_message
      match msg.operation.bind purc_variant_get_string_const with
      | none => handler_result.crashed
      | some op =>
        match dispatch d endpoint schedule msg op response with
        | none => handler_result.crashed
        | some (response, scheduled) =>
          let response :=
            if response.type = pcrdr_msg_type.VOID then
              bad_request_response d endpoint msg response
            else response
          match msg.requestId.bind purc_variant_get_string_const with
          | none => handler_result.crashed
          | some request_id =>
            if request_id ≠ d.PCRDR_REQUESTID_NORETURN then
              handler_result.answered response (some requester) scheduled
            else handler_result.answered response none scheduled

/-- The members that `purc_inst_schedule_vdom` adds for a text that may
be null. -/
def string_entry (key : String) (value : Option String) : object_data :=
  match value with
  | some s => [(key, purc_variant.string s)]
  | none => []

/-- The members that `purc_inst_schedule_vdom` adds for a value that may
be invalid. -/
def variant_entry (key : String) (value : Option purc_variant) :
    object_data :=
  match value with
  | some v => [(key, v)]
  | none => []

/-- The data object that `purc_inst_schedule_vdom` builds for its request
message, the members in the order in which they are set;
`extra_rdr_info` may be a null pointer. -/
def schedule_vdom_data (vdom : Nat) (curator : purc_atom_t)
    (request : Option purc_variant) (page_type : Nat)
    (target_workspace target_group page_name : Option String)
    (extra_rdr_info : Option purc_renderer_extra_info)
    (body_id : Option String) : object_data :=
  [("vdom", purc_variant.ulongint vdom),
   ("curator", purc_variant.ulongint curator)] ++
  variant_entry "request" request ++
  [("pageType", purc_variant.ulongint page_type)] ++
  string_entry "targetWorkspace" target_workspace ++
  string_entry "targetGroup" target_group ++
  string_entry "pageName" page_name ++
  (match extra_rdr_info with
   | some info =>
     string_entry "class" info.klass ++
     string_entry "title" info.title ++
     string_entry "layoutStyle" info.layout_style ++
     variant_entry "toolkitStyle" info.toolkit_style
   | none => []) ++
  string_entry "bodyId" body_id

/-- The request message that `purc_inst_schedule_vdom` moves to the
instance `inst`; `request_id` is the identifier that
`pcrdr_make_request_message` generates. -/
def schedule_vdom_request (endpoint request_id : String)
    (inst : purc_atom_t) (data : object_data) : pcrdr_msg :=
  { type := pcrdr_msg_type.REQUEST
    target := pcrdr_msg_target.INSTANCE
    targetValue := inst
    operation := some (purc_variant.string PCRUN_OPERATION_createCoroutine)
    requestId := some (purc_variant.string request_id)
    sourceURI := some (purc_variant.string endpoint)
    retCode := 0
    resultValue := 0
    dataType := pcrdr_msg_data_type.JSON
    data := some data }

/-- Outcomes of the calls of `purc_inst_create_or_get` and
`start_instance` into collaborators: the validity checks of the names,
`purc_assemble_endpoint_name_ex` for the local host, and whether
`sem_open`, `pthread_create`, `purc_init_ex` in the new thread and
`purc_inst_create_move_buffer` succeed. -/
structure inst_collab where
  purc_is_valid_app_name : String → Bool
  purc_is_valid_runner_name : String → Bool
  purc_assemble_endpoint_name : String → String → String
  sem_open_ok : Bool
  pthread_create_ok : Bool
  purc_init_ok : Bool
  move_buffer_ok : Bool

/-- The state that the instance manager acts on: the registry of the
bucket `PURC_ATOM_BUCKET_USER`, the instances started so far, as the
app and runner names of their threads, and the last error. -/
structure inst_state where
  user_atoms : atom_table
  started : List (String × String)
  last_error : Nat
  deriving DecidableEq, Repr

/-- Modelled from the spec: `purc_atom_from_string` registers a string
that has no atom yet and returns the atom of the string. -/
def purc_atom_from_string (tbl : atom_table) (s : String) :
    atom_table × purc_atom_t :=
  if purc_atom_try_string tbl s ≠ 0 then (tbl, purc_atom_try_string tbl s)
  else (tbl ++ [s], purc_atom_try_string (tbl ++ [s]) s)

/-- The function `general_instance_entry` up to the report of the atom:
the state and the atom left in `inst_arg->atom`.  Modelled from the spec:
`purc_init_ex` registers the endpoint name of the instance, and
`purc_inst_create_move_buffer` returns the atom of that name. -/
def general_instance_entry (c : inst_collab) (st : inst_state)
    (app run : String) : inst_state × purc_atom_t :=
  if !c.purc_init_ok then (st, 0)
  else
    match purc_atom_from_string st.user_atoms
        (c.purc_assemble_endpoint_name app run) with
    | (tbl, atom) =>
      ({ st with user_atoms := tbl }, if c.move_buffer_ok then atom else 0)

/-- The function `start_instance`. -/
def start_instance (c : inst_collab) (st : inst_state) (app run : String) :
    inst_state × purc_atom_t :=
  if !c.sem_open_ok then
    ({ st with last_error := PURC_ERROR_BAD_SYSTEM_CALL }, 0)
  else if !c.pthread_create_ok then (st, 0)
  else
    general_instance_entry c { st with started := st.started ++ [(app, run)] }
      app run

/-- The function `purc_inst_create_or_get`. -/
def purc_inst_create_or_get (c : inst_collab) (st : inst_state)
    (app_name runner_name : String) : inst_state × purc_atom_t :=
  if !c.purc_is_valid_app_name app_name ||
      !c.purc_is_valid_runner_name runner_name then
    ({ st with last_error := PURC_ERROR_INVALID_VALUE }, 0)
  else
    let atom := purc_atom_try_string st.user_atoms
      (c.purc_assemble_endpoint_name app_name runner_name)
    if atom = 0 then start_instance c st app_name runner_name
    else (st, atom)

end Runners

/-! ## `dvobjs/system.c` -/

namespace System

/-- The keywords of the table `keywords2atoms`, in the order of the
enumeration `K_KW_*`. -/
def keywords : List String :=
  ["HVML_SPEC_VERSION",
   "HVML_SPEC_RELEASE",
   "HVML_PREDEF_VARS_SPEC_VERSION",
   "HVML_PREDEF_VARS_SPEC_RELEASE",
   "HVML_INTRPR_NAME",
   "HVML_INTRPR_VERSION",
   "HVML_INTRPR_RELEASE",
   "all",
   "default",
   "kernel-name",
   "kernel-release",
   "kernel-version",
   "nodename",
   "machine",
   "processor",
   "hardware-platform",
   "operating-system",
   "ctype",
   "numeric",
   "time",
   "collate",
   "monetary",
   "messages",
   "paper",
   "name",
   "address",
   "telephone",
   "measurement",
   "identification"]

def K_KW_HVML_SPEC_VERSION : Nat := 0
def K_KW_HVML_SPEC_RELEASE : Nat := 1
def K_KW_HVML_PREDEF_VARS_SPEC_VERSION : Nat := 2
def K_KW_HVML_PREDEF_VARS_SPEC_RELEASE : Nat := 3
def K_KW_HVML_INTRPR_NAME : Nat := 4
def K_KW_HVML_INTRPR_VERSION : Nat := 5
def K_KW_HVML_INTRPR_RELEASE : Nat := 6
def K_KW_all : Nat := 7

/-- The member `keywords2atoms[k].atom`, `atoms` being the atoms of the
entries of the table in order. -/
def keywords2atoms (atoms : List purc_atom_t) (k : Nat) : purc_atom_t :=
  atoms.getD k 0

/-- The table as the program starts: no entry has an atom. -/
def keywords2atoms_static : List purc_atom_t := keywords.map (fun _ => 0)

/-- The loop of `purc_dvobj_system_new` over the entries of the table:
each keyword is interned in the registry of the bucket `ATOM_BUCKET_DVOBJ`
and its atom is stored. -/
def intern_keywords : atom_table → List String → atom_table × List purc_atom_t
  | tbl, [] => (tbl, [])
  | tbl, k :: ks =>
    let r := Runners.purc_atom_from_string tbl k
    let rest := intern_keywords r.1 ks
    (rest.1, r.2 :: rest.2)

/-- The part of `purc_dvobj_system_new` that initialises the keyword
atoms: the loop runs when the first entry has no atom yet. -/
def purc_dvobj_system_new (tbl : atom_table) (atoms : List purc_atom_t) :
    atom_table × List purc_atom_t :=
  if keywords2atoms atoms 0 = 0 then intern_keywords tbl keywords
  else (tbl, atoms)

/-- The string constants of `purc-version.h`, a generated header. -/
structure version_defs where
  HVML_SPEC_VERSION : String
  HVML_SPEC_RELEASE : String
  HVML_PREDEF_VARS_SPEC_VERSION : String
  HVML_PREDEF_VARS_SPEC_RELEASE : String
  HVML_INTRPR_NAME : String
  HVML_INTRPR_VERSION : String
  HVML_INTRPR_RELEASE : String
  deriving DecidableEq, Repr

/-- What a getter or a setter of the object leaves: the value it returns
(`none` for `PURC_VARIANT_INVALID`) and the error it set, if it set one. -/
structure dvobj_result where
  retv : Option purc_variant
  error : Option Nat
  deriving DecidableEq, Repr

/-- The label `failed` of a method after `purc_set_error (err)`: the value
`quiet` when `silently`, `PURC_VARIANT_INVALID` otherwise. -/
def failed (silently : Bool) (err : Nat) (quiet : purc_variant) :
    dvobj_result :=
  { retv := if silently then some quiet else none, error := some err }

/-- A value returned without an error. -/
def returned (v : purc_variant) : dvobj_result :=
  { retv := some v, error := none }

/-- The function `const_getter`.  `tbl` is the registry of the bucket
`ATOM_BUCKET_DVOBJ`, `atoms` the atoms of `keywords2atoms`, `argv` the
arguments (`nr_args` is their number).  The last condition of the chain
is `keywords2atoms[K_KW_HVML_INTRPR_RELEASE].atom`, as it stands in the
source.  The static strings are taken to be made. -/
def const_getter (v : version_defs) (tbl : atom_table)
    (atoms : List purc_atom_t) (argv : List purc_variant) (silently : Bool) :
    dvobj_result :=
  match argv with
  | [] => failed silently PURC_ERROR_ARGUMENT_MISSED purc_variant.undefined
  | arg :: _ =>
    match purc_variant_get_string_const arg with
    | none => failed silently PURC_ERROR_WRONG_DATA_TYPE purc_variant.undefined
    | some name =>
      let atom := purc_atom_try_string tbl name
      if atom = 0 then
        failed silently PURC_ERROR_INVALID_VALUE purc_variant.undefined
      else if atom = keywords2atoms atoms K_KW_HVML_SPEC_VERSION then
        returned (purc_variant.string v.HVML_SPEC_VERSION)
      else if atom = keywords2atoms atoms K_KW_HVML_SPEC_RELEASE then
        returned (purc_variant.string v.HVML_SPEC_RELEASE)
      else if atom = keywords2atoms atoms K_KW_HVML_PREDEF_VARS_SPEC_VERSION then
        returned (purc_variant.string v.HVML_PREDEF_VARS_SPEC_VERSION)
      else if atom = keywords2atoms atoms K_KW_HVML_PREDEF_VARS_SPEC_RELEASE then
        returned (purc_variant.string v.HVML_PREDEF_VARS_SPEC_RELEASE)
      else if atom = keywords2atoms atoms K_KW_HVML_INTRPR_NAME then
        returned (purc_variant.string v.HVML_INTRPR_NAME)
      else if atom = keywords2atoms atoms K_KW_HVML_INTRPR_VERSION then
        returned (purc_variant.string v.HVML_INTRPR_VERSION)
      else if keywords2atoms atoms K_KW_HVML_INTRPR_RELEASE ≠ 0 then
        returned (purc_variant.string v.HVML_INTRPR_RELEASE)
      else failed silently PURC_ERROR_INVALID_VALUE purc_variant.undefined

/-- The type `struct timeval`. -/
structure timeval where
  tv_sec : Int
  tv_usec : Int
  deriving DecidableEq, Repr

/-- The function `cast_to_timeval` on the values represented here (the
cases of a number and of a long double, which compute in floating point,
are not): the time value left in `*timeval` and the error set, `none` when
the function returns true.  `cast` is `purc_variant_cast_to_longint`
without force.  Both assignments of the integer case write `tv_usec`, as
they stand in the source. -/
def cast_to_timeval (cast : purc_variant → Option Int) (tv : timeval)
    (t : purc_variant) : timeval × Option Nat :=
  match t with
  | purc_variant.longint _ | purc_variant.ulongint _ =>
    match cast t with
    | none => (tv, some PURC_ERROR_INVALID_VALUE)
    | some sec =>
      let tv := { tv with tv_usec := sec }
      let tv := { tv with tv_usec := 0 }
      (tv, none)
  | _ => (tv, some PURC_ERROR_WRONG_DATA_TYPE)

/-- The values of `errno` that `time_setter` tells apart. -/
inductive sys_errno where
  | EINVAL
  | EPERM
  | other
  deriving DecidableEq, Repr

/-- The system clock and the events broadcast so far. -/
structure sys_state where
  clock : timeval
  events : List String
  deriving DecidableEq, Repr

/-- The function `time_setter`.  `settimeofday` gives the outcome of the
system call for a time value, `none` for success, in which case the clock
holds that value; `access_denied` is the code `PURC_ERROR_ACCESS_DENIED`,
which the header at hand does not list. -/
def time_setter (access_denied : Nat) (cast : purc_variant → Option Int)
    (settimeofday : timeval → Option sys_errno) (st : sys_state)
    (argv : List purc_variant) (silently : Bool) : sys_state × dvobj_result :=
  let tv : timeval := { tv_sec := 0, tv_usec := 0 }
  match argv with
  | [] =>
    (st, failed silently PURC_ERROR_ARGUMENT_MISSED (purc_variant.boolean false))
  | arg :: _ =>
    match cast_to_timeval cast tv arg with
    | (_, some err) => (st, failed silently err (purc_variant.boolean false))
    | (tv, none) =>
      match settimeofday tv with
      | some sys_errno.EINVAL =>
        (st, failed silently PURC_ERROR_INVALID_VALUE (purc_variant.boolean false))
      | some sys_errno.EPERM =>
        (st, failed silently access_denied (purc_variant.boolean false))
      | some sys_errno.other =>
        (st, failed silently PURC_ERROR_BAD_SYSTEM_CALL
          (purc_variant.boolean false))
      | none =>
        ({ clock := tv, events := st.events ++ ["change:time"] },
          returned (purc_variant.boolean true))

/-- The outcome of `getrandom (buf, buflen, GRND_NONBLOCK)`: the value
returned and the buffer afterwards. -/
structure getrandom_result where
  ret : Int
  buf : List Nat
  deriving DecidableEq, Repr

/-- The function `random_sequence_getter` of the Linux build.  `cast` is
`purc_variant_cast_to_ulongint` without force and `getrandom` the system
call, given the length it is asked for, which is `sizeof (buf)`, 256, as
it stands in the source.  `purc_variant_make_byte_sequence (buf, ret)`
makes a sequence of the first `ret` bytes of the buffer; with a negative
`ret` no sequence is made. -/
def random_sequence_getter (cast : purc_variant → Option Nat)
    (getrandom : Nat → getrandom_result) (argv : List purc_variant)
    (silently : Bool) : dvobj_result :=
  match argv with
  | [] =>
    failed silently PURC_ERROR_ARGUMENT_MISSED (purc_variant.boolean false)
  | arg :: _ =>
    match cast arg with
    | none =>
      failed silently PURC_ERROR_WRONG_DATA_TYPE (purc_variant.boolean false)
    | some length =>
      if length = 0 ∨ length > 256 then
        failed silently PURC_ERROR_INVALID_VALUE (purc_variant.boolean false)
      else
        let r := getrandom 256
        if r.ret < 0 then
          { retv := none, error := some PURC_ERROR_BAD_SYSTEM_CALL }
        else
          returned (purc_variant.bsequence (r.buf.take r.ret.toNat))

end System

/-! ## `pcrdr/headless.c` -/

namespace Headless

/-- A call of one of the sleep functions of `private/ports.h`. -/
inductive sleep_call where
  | pcutils_sleep (seconds : Nat)
  | pcutils_usleep (usec : Nat)
  deriving DecidableEq, Repr

/-- The function `my_wait_message`: the value returned and the calls of
the sleep functions, in order.  `pending_empty` is
`list_empty (&conn->pending_requests)`; `timeout_ms` is an `int`, and `/`
and `%` of C round towards zero. -/
def my_wait_message (pending_empty : Bool) (timeout_ms : Int) :
    Int × List sleep_call :=
  if pending_empty then
    let whole :=
      if timeout_ms > 1000 then
        [sleep_call.pcutils_sleep (Int.tdiv timeout_ms 1000).toNat]
      else []
    let part :=
      if timeout_ms > 0 then
        let ms := (Int.tmod timeout_ms 1000).toNat
        if ms ≠ 0 then [sleep_call.pcutils_usleep (ms * 1000)] else []
      else []
    (0, whole ++ part)
  else (1, [])

/-- The time that a list of sleep calls asks for, in microseconds. -/
def slept_usec : List sleep_call → Nat
  | [] => 0
  | sleep_call.pcutils_sleep s :: rest => s * 1000000 + slept_usec rest
  | sleep_call.pcutils_usleep u :: rest => u + slept_usec rest

end Headless

/-! ## `html/core/diyfp.c` -/

namespace Diyfp

/-- The type `pchtml_diyfp_cpe_t`: a 64-bit significand with a binary and
a decimal exponent. -/
structure pchtml_diyfp_cpe_t where
  significand : Nat
  bin_exp : Int
  dec_exp : Int
  deriving DecidableEq, Repr

/-- Modelled from the spec: the macro `pchtml_uint64_hl` of
`html/core/diyfp.h`, a header outside the sources at hand, makes the
64-bit value of a high and a low half of 32 bits each. -/
def pchtml_uint64_hl (h l : Nat) : Nat := (h * 2 ^ 32 + l) % 2 ^ 64

/-- An entry of the table as it is written in the source:
`{ pchtml_uint64_hl (h, l), bin_exp, dec_exp }`. -/
def entry (h l : Nat) (bin_exp dec_exp : Int) : pchtml_diyfp_cpe_t :=
  { significand := pchtml_uint64_hl h l, bin_exp := bin_exp,
    dec_exp := dec_exp }

/-- The table `pchtml_cached_powers`. -/
def pchtml_cached_powers : List pchtml_diyfp_cpe_t := [
  entry 0xfa8fd5a0 0x081c0288 (-1220) (-348),
  entry 0xbaaee17f 0xa23ebf76 (-1193) (-340),
  entry 0x8b16fb20 0x3055ac76 (-1166) (-332),
  entry 0xcf42894a 0x5dce35ea (-1140) (-324),
  entry 0x9a6bb0aa 0x55653b2d (-1113) (-316),
  entry 0xe61acf03 0x3d1a45df (-1087) (-308),
  entry 0xab70fe17 0xc79ac6ca (-1060) (-300),
  entry 0xff77b1fc 0xbebcdc4f (-1034) (-292),
  entry 0xbe5691ef 0x416bd60c (-1007) (-284),
  entry 0x8dd01fad 0x907ffc3c (-980) (-276),
  entry 0xd3515c28 0x31559a83 (-954) (-268),
  entry 0x9d71ac8f 0xada6c9b5 (-927) (-260),
  entry 0xea9c2277 0x23ee8bcb (-901) (-252),
  entry 0xaecc4991 0x4078536d (-874) (-244),
  entry 0x823c1279 0x5db6ce57 (-847) (-236),
  entry 0xc2109436 0x4dfb5637 (-821) (-228),
  entry 0x9096ea6f 0x3848984f (-794) (-220),
  entry 0xd77485cb 0x25823ac7 (-768) (-212),
  entry 0xa086cfcd 0x97bf97f4 (-741) (-204),
  entry 0xef340a98 0x172aace5 (-715) (-196),
  entry 0xb23867fb 0x2a35b28e (-688) (-188),
  entry 0x84c8d4df 0xd2c63f3b (-661) (-180),
  entry 0xc5dd4427 0x1ad3cdba (-635) (-172),
  entry 0x936b9fce 0xbb25c996 (-608) (-164),
  entry 0xdbac6c24 0x7d62a584 (-582) (-156),
  entry 0xa3ab6658 0x0d5fdaf6 (-555) (-148),
  entry 0xf3e2f893 0xdec3f126 (-529) (-140),
  entry 0xb5b5ada8 0xaaff80b8 (-502) (-132),
  entry 0x87625f05 0x6c7c4a8b (-475) (-124),
  entry 0xc9bcff60 0x34c13053 (-449) (-116),
  entry 0x964e858c 0x91ba2655 (-422) (-108),
  entry 0xdff97724 0x70297ebd (-396) (-100),
  entry 0xa6dfbd9f 0xb8e5b88f (-369) (-92),
  entry 0xf8a95fcf 0x88747d94 (-343) (-84),
  entry 0xb9447093 0x8fa89bcf (-316) (-76),
  entry 0x8a08f0f8 0xbf0f156b (-289) (-68),
  entry 0xcdb02555 0x653131b6 (-263) (-60),
  entry 0x993fe2c6 0xd07b7fac (-236) (-52),
  entry 0xe45c10c4 0x2a2b3b06 (-210) (-44),
  entry 0xaa242499 0x697392d3 (-183) (-36),
  entry 0xfd87b5f2 0x8300ca0e (-157) (-28),
  entry 0xbce50864 0x92111aeb (-130) (-20),
  entry 0x8cbccc09 0x6f5088cc (-103) (-12),
  entry 0xd1b71758 0xe219652c (-77) (-4),
  entry 0x9c400000 0x00000000 (-50) 4,
  entry 0xe8d4a510 0x00000000 (-24) 12,
  entry 0xad78ebc5 0xac620000 3 20,
  entry 0x813f3978 0xf8940984 30 28,
  entry 0xc097ce7b 0xc90715b3 56 36,
  entry 0x8f7e32ce 0x7bea5c70 83 44,
  entry 0xd5d238a4 0xabe98068 109 52,
  entry 0x9f4f2726 0x179a2245 136 60,
  entry 0xed63a231 0xd4c4fb27 162 68,
  entry 0xb0de6538 0x8cc8ada8 189 76,
  entry 0x83c7088e 0x1aab65db 216 84,
  entry 0xc45d1df9 0x42711d9a 242 92,
  entry 0x924d692c 0xa61be758 269 100,
  entry 0xda01ee64 0x1a708dea 295 108,
  entry 0xa26da399 0x9aef774a 322 116,
  entry 0xf209787b 0xb47d6b85 348 124,
  entry 0xb454e4a1 0x79dd1877 375 132,
  entry 0x865b8692 0x5b9bc5c2 402 140,
  entry 0xc83553c5 0xc8965d3d 428 148,
  entry 0x952ab45c 0xfa97a0b3 455 156,
  entry 0xde469fbd 0x99a05fe3 481 164,
  entry 0xa59bc234 0xdb398c25 508 172,
  entry 0xf6c69a72 0xa3989f5c 534 180,
  entry 0xb7dcbf53 0x54e9bece 561 188,
  entry 0x88fcf317 0xf22241e2 588 196,
  entry 0xcc20ce9b 0xd35c78a5 614 204,
  entry 0x98165af3 0x7b2153df 641 212,
  entry 0xe2a0b5dc 0x971f303a 667 220,
  entry 0xa8d9d153 0x5ce3b396 694 228,
  entry 0xfb9b7cd9 0xa4a7443c 720 236,
  entry 0xbb764c4c 0xa7a44410 747 244,
  entry 0x8bab8eef 0xb6409c1a 774 252,
  entry 0xd01fef10 0xa657842c 800 260,
  entry 0x9b10a4e5 0xe9913129 827 268,
  entry 0xe7109bfb 0xa19c0c9d 853 276,
  entry 0xac2820d9 0x623bf429 880 284,
  entry 0x80444b5e 0x7aa7cf85 907 292,
  entry 0xbf21e440 0x03acdd2d 933 300,
  entry 0x8e679c2f 0x5e44ff8f 960 308,
  entry 0xd433179d 0x9c8cb841 986 316,
  entry 0x9e19db92 0xb4e31ba9 1013 324,
  entry 0xeb96bf6e 0xbadf77d9 1039 332,
  entry 0xaf87023b 0x9bf0ee6b 1066 340]

/-- Whether an entry is a power of ten rounded to the nearest significand,
in natural numbers: with `2 ^ bin_exp = 2 ^ pb / 2 ^ nb` and
`10 ^ dec_exp = 10 ^ pd / 10 ^ nd`, the inequality
`|significand * 2 ^ bin_exp - 10 ^ dec_exp| ≤ 2 ^ (bin_exp - 1)` multiplied
by `2 * 2 ^ nb * 10 ^ nd`. -/
def nearest_power_of_ten (e : pchtml_diyfp_cpe_t) : Bool :=
  let pb := e.bin_exp.toNat
  let nb := (-e.bin_exp).toNat
  let pd := e.dec_exp.toNat
  let nd := (-e.dec_exp).toNat
  let lhs := 2 * e.significand * 2 ^ pb * 10 ^ nd
  let rhs := 2 * 2 ^ nb * 10 ^ pd
  decide (lhs ≤ rhs + 2 ^ pb * 10 ^ nd) && decide (rhs ≤ lhs + 2 ^ pb * 10 ^ nd)

/-- Whether the entry at index `i` has the decimal exponent of its index,
a normalised significand, and is the nearest power of ten. -/
def entry_checked (i : Nat) (e : pchtml_diyfp_cpe_t) : Bool :=
  decide (e.dec_exp = -348 + 8 * (i : Int)) &&
  decide (2 ^ 63 ≤ e.significand) && decide (e.significand < 2 ^ 64) &&
  nearest_power_of_ten e

/-- The check of the entries of a table from index `i` on. -/
def entries_checked : List pchtml_diyfp_cpe_t → Nat → Bool
  | [], _ => true
  | e :: rest, i => entry_checked i e && entries_checked rest (i + 1)

end Diyfp

/-! ## The frames of an execution stack over a run of pushes and pops -/

namespace Frames

/-- An operation on the execution stack. -/
inductive stack_op where
  | push
  | pop
  deriving DecidableEq, Repr

/-- What happens to a frame, named by the number of frames created before
it: it is created, its `on_popping` is called with its context, it is
destroyed. -/
inductive frame_event where
  | created (frame : Nat)
  | on_popping (frame : Nat)
  | destroyed (frame : Nat)
  deriving DecidableEq, Repr

/-- The frames of an execution stack, the bottom frame first, the number
of frames created so far, and the events so far, in order. -/
structure execution_stack where
  frames : List Nat
  nr_created : Nat
  trace : List frame_event
  deriving DecidableEq, Repr

/-- An execution stack without frames. -/
def execution_stack.empty : execution_stack :=
  { frames := [], nr_created := 0, trace := [] }

/-- Modelled from the spec: `push` creates a frame, which becomes the
bottom frame. -/
def push (s : execution_stack) : execution_stack :=
  { frames := s.nr_created :: s.frames
    nr_created := s.nr_created + 1
    trace := s.trace ++ [frame_event.created s.nr_created] }

/-- Modelled from the spec: `pop` invokes `on_popping` with the context of
the bottom frame, destroys the context and removes the frame.  On a stack
without frames there is nothing to pop. -/
def pop (s : execution_stack) : execution_stack :=
  match s.frames with
  | [] => s
  | f :: rest =>
    { frames := rest
      nr_created := s.nr_created
      trace := s.trace ++
        [frame_event.on_popping f, frame_event.destroyed f] }

/-- One operation. -/
def step (s : execution_stack) : stack_op → execution_stack
  | stack_op.push => push s
  | stack_op.pop => pop s

/-- A sequence of operations, from the left. -/
def run (s : execution_stack) : List stack_op → execution_stack
  | [] => s
  | op :: ops => run (step s op) ops

/-- What holds of an execution stack after any run from the empty stack:
the frames are in the order of their creation, the newest at the bottom;
every frame created is on the stack or destroyed, never both; a frame
created while an older frame was on the stack is destroyed before that
frame; and no `on_popping` of a frame comes after its destruction. -/
structure well_nested (s : execution_stack) : Prop where
  sorted : s.frames.Pairwise (fun a b => b < a)
  bound : ∀ f ∈ s.frames, f < s.nr_created
  accounted : ∀ f, f < s.nr_created →
    f ∈ s.frames ∨ frame_event.destroyed f ∈ s.trace
  created_bound : ∀ f, frame_event.created f ∈ s.trace → f < s.nr_created
  destroyed_bound : ∀ f, frame_event.destroyed f ∈ s.trace →
    f < s.nr_created
  destroyed_gone : ∀ f, frame_event.destroyed f ∈ s.trace → f ∉ s.frames
  nested : ∀ a b, a < b →
    [frame_event.created b, frame_event.destroyed a].Sublist s.trace →
    [frame_event.destroyed b, frame_event.destroyed a].Sublist s.trace
  no_use_after : ∀ a,
    ¬ [frame_event.destroyed a, frame_event.on_popping a].Sublist s.trace

end Frames

namespace Frames

/-- The frames destroyed, in the order of their destruction. -/
def destroyed_frames : List frame_event → List Nat
  | [] => []
  | frame_event.destroyed f :: rest => f :: destroyed_frames rest
  | _ :: rest => destroyed_frames rest

/-- The frames `n - 1`, ..., 0: the first `n` frames created, the newest
first. -/
def newest_first : Nat → List Nat
  | 0 => []
  | n + 1 => n :: newest_first n

end Frames

/-! ## The references that a test frame holds -/

/-- Modelled from the spec: the value system counts the references to each
value. -/
abbrev refcounts := purc_variant → Nat

/-- Modelled from the spec: `purc_variant_ref` takes one more reference to
the value. -/
def purc_variant_ref (rc : refcounts) (v : purc_variant) : refcounts :=
  fun x => if x = v then rc x + 1 else rc x

/-- Modelled from the spec: `purc_variant_unref` releases one reference to
the value. -/
def purc_variant_unref (rc : refcounts) (v : purc_variant) : refcounts :=
  fun x => if x = v then rc x - 1 else rc x

/-- Modelled from the spec: the macro `PURC_VARIANT_SAFE_CLEAR` releases
the reference of a member that holds a value, and does nothing for a
member that is `PURC_VARIANT_INVALID`. -/
def PURC_VARIANT_SAFE_CLEAR (rc : refcounts) (v : Option purc_variant) :
    refcounts :=
  match v with
  | none => rc
  | some v => purc_variant_unref rc v

namespace Test

/-- The reference counts that `post_process` of test leaves: each of
`on`, `in` and `for` found among the attribute values is stored in the
context, after a `PURC_VARIANT_SAFE_CLEAR` of the member, and one
reference to it is taken. -/
def post_process_refs (rc : refcounts) (stack : pcintr_stack ctxt_for_test)
    (ctxt : ctxt_for_test) : refcounts :=
  match purc_variant_object_get_by_ckey stack.bottom.attr_vars "on" with
  | none => rc
  | some v =>
    let rc := purc_variant_ref (PURC_VARIANT_SAFE_CLEAR rc ctxt.«on») v
    let rc :=
      match purc_variant_object_get_by_ckey stack.bottom.attr_vars "in" with
      | some v => purc_variant_ref (PURC_VARIANT_SAFE_CLEAR rc ctxt.«in») v
      | none => rc
    match purc_variant_object_get_by_ckey stack.bottom.attr_vars "for" with
    | some v => purc_variant_ref (PURC_VARIANT_SAFE_CLEAR rc ctxt.for_var) v
    | none => rc

/-- The reference counts that `after_pushed` of test leaves; the
references that `frame->attr_vars` itself holds are taken and released
outside the operation and are not counted. -/
def after_pushed_refs (c : collab) (rc : refcounts)
    (stack : pcintr_stack ctxt_for_test) (pos : pcvdom_node) : refcounts :=
  if c.set_symbol_var_at_sign ≠ 0 then rc
  else
    match pcintr_element_eval_attrs pos.attrs with
    | none => rc
    | some vars =>
      if !c.calloc_ok then rc
      else
        post_process_refs rc
          { stack with bottom :=
            { stack.bottom with pos := some pos, attr_vars := vars } }
          ctxt_for_test.zeroed

/-- The reference counts that `ctxt_for_test_destroy` leaves: the
function frees the context and releases no reference. -/
def ctxt_for_test_destroy_refs (rc : refcounts)
    (_ctxt : Option ctxt_for_test) : refcounts :=
  rc

/-- The reference counts that `on_popping` of test leaves. -/
def on_popping_refs (rc : refcounts) (stack : pcintr_stack ctxt_for_test) :
    refcounts :=
  match stack.bottom.ctxt with
  | none => rc
  | some ctxt => ctxt_for_test_destroy_refs rc (some ctxt)

/-- The reference counts after a test frame is pushed on the element and
popped again. -/
def push_pop_refs (c : collab) (rc : refcounts)
    (stack : pcintr_stack ctxt_for_test) (pos : pcvdom_node) : refcounts :=
  on_popping_refs (after_pushed_refs c rc stack pos)
    (after_pushed c stack pos).1

end Test

/-! ## Sample inputs -/

/-- A registry in which the names `A`, `B` and `X` have the atoms 1, 2
and 3. -/
def sample_atoms : atom_table := ["A", "B", "X"]

namespace Catch

/-- All collaborator calls succeed. -/
def collab.all_ok : collab :=
  { set_symbol_var_at_sign := 0, calloc_ok := true, strdup_ok := true }

/-- A stack with a fresh catch frame and a pending exception of the given
category. -/
def pending (category : purc_atom_t) : pcintr_stack ctxt_for_catch :=
  { (pcintr_stack.fresh : pcintr_stack ctxt_for_catch) with
    except := true, error_except := category }

/-- The children of the sample catch elements: a text, an element, a
comment and another element. -/
def sample_children : List pcvdom_node :=
  [pcvdom_node.content "text",
   pcvdom_node.element (pchvml_tag.OTHER 1) [] [],
   pcvdom_node.comment "note",
   pcvdom_node.element (pchvml_tag.OTHER 2) [] []]

/-- The element `<catch for="...">` with the sample children. -/
def catch_element (for_value : String) : pcvdom_node :=
  pcvdom_node.element pchvml_tag.CATCH
    [{ key := "for", val := some (purc_variant.string for_value) }]
    sample_children

/-- The element `<catch>` without attributes. -/
def catch_element_no_for : pcvdom_node :=
  pcvdom_node.element pchvml_tag.CATCH [] sample_children

end Catch

namespace Exit

/-- The exited mark is kept and the record of calls only grows. -/
def keeps_exit (s t : walk_state) : Prop :=
  t.1.exited = s.1.exited ∧ ∃ rest, t.1.log = s.1.log ++ rest

/-- All collaborator calls succeed. -/
def collab.all_ok : collab :=
  { check_insertion_mode := 0, calloc_ok := true }

/-- The element `<exit with="..." with="...">` whose second attribute is
a duplicate. -/
def exit_element_duplicated : pcvdom_node :=
  pcvdom_node.element pchvml_tag.EXIT
    [{ key := "with", val := some (purc_variant.longint 1) },
     { key := "with", val := some (purc_variant.longint 2) }] []

end Exit

namespace Sleep

/-- All collaborator calls succeed. -/
def collab.all_ok : collab :=
  { check_insertion_mode := 0, calloc_ok := true, timer_create_ok := true }

/-- A cast to `int64_t` that succeeds on the longint values in the range
of `int64_t`, with their own value, and on nothing else. -/
def cast_longint : purc_variant → Option Int
  | purc_variant.longint i =>
    if -(2 ^ 63) ≤ i ∧ i < 2 ^ 63 then some i else none
  | _ => none

/-- The element `<sleep with=...>` whose attribute has the given value. -/
def sleep_element (v : purc_variant) : pcvdom_node :=
  pcvdom_node.element pchvml_tag.SLEEP [{ key := "with", val := some v }] []

/-- The element `<sleep>` without attributes. -/
def sleep_element_no_with : pcvdom_node :=
  pcvdom_node.element pchvml_tag.SLEEP [] []

end Sleep

namespace Match

/-- A matcher for the samples: every text is a rule, and a rule matches
the long integer of which it is the decimal numeral. -/
def sample_collab : collab :=
  { calloc_ok := true
    PURC_ERROR_ENTITY_NOT_FOUND := 100
    match_for_parse := fun _ => true
    match_for_rule_eval := fun rule v =>
      match v with
      | purc_variant.longint i => some (decide (toString i = rule))
      | _ => some false }

/-- The frame of a `<test>` element whose question variable is `q`. -/
def test_frame (q : purc_variant) : pcintr_stack_frame ctxt_for_match :=
  { (pcintr_stack_frame.empty : pcintr_stack_frame ctxt_for_match) with
    pos := some (pcvdom_node.element pchvml_tag.TEST [] []),
    question_var := some q }

/-- A stack whose bottom frame is fresh and whose parent is the frame of
a `<test>` with question variable `q`. -/
def under_test (q : purc_variant) : pcintr_stack ctxt_for_match :=
  { (pcintr_stack.fresh : pcintr_stack ctxt_for_match) with
    parents := [test_frame q] }

/-- The attribute list of `<match for=... exclusively>`, the second
attribute being present when `excl` is. -/
def match_attrs (rule : String) (excl : Option purc_variant) :
    List pcvdom_attr :=
  { key := "for", val := some (purc_variant.string rule) } ::
    match excl with
    | none => []
    | some e => [{ key := "exclusively", val := some e }]

/-- A stack whose bottom frame is a match frame with the given context,
under a `<test>` frame with question variable `q`. -/
def popping (ctxt : ctxt_for_match) (q : purc_variant) :
    pcintr_stack ctxt_for_match :=
  { under_test q with
    bottom := { (pcintr_stack_frame.empty :
                  pcintr_stack_frame ctxt_for_match) with
      pos := some (pcvdom_node.element pchvml_tag.MATCH [] []),
      ctxt := some ctxt, ctxt_destroy := true } }

end Match

namespace Test

/-- All collaborator calls succeed. -/
def collab.all_ok : collab :=
  { set_symbol_var_at_sign := 0, calloc_ok := true }

/-- The clause `<match for="1" exclusively>first</match>`. -/
def first_clause : pcvdom_node :=
  pcvdom_node.element pchvml_tag.MATCH
    (Match.match_attrs "1" (some (purc_variant.boolean true)))
    [pcvdom_node.content "first"]

/-- The clause `<match for="1" exclusively>second</match>`. -/
def second_clause : pcvdom_node :=
  pcvdom_node.element pchvml_tag.MATCH
    (Match.match_attrs "1" (some (purc_variant.boolean true)))
    [pcvdom_node.content "second"]

/-- The element `<test on=1>` with the two exclusive clauses, both of
which match 1. -/
def two_clause_test : pcvdom_node :=
  pcvdom_node.element pchvml_tag.TEST
    [{ key := "on", val := some (purc_variant.longint 1) }]
    [first_clause, second_clause]

/-- The stack after `after_pushed` of test on `two_clause_test`, the
question variable of the test frame being the long integer 1. -/
def two_clause_start : pcintr_stack ctxt_for_test :=
  (after_pushed collab.all_ok
    { (pcintr_stack.fresh : pcintr_stack ctxt_for_test) with
      bottom := { (pcintr_stack_frame.empty :
                    pcintr_stack_frame ctxt_for_test) with
        question_var := some (purc_variant.longint 1) } }
    two_clause_test).1

/-- The stack of the test once the first clause, selected by
`select_child`, has run and has been popped. -/
def after_first_clause : Option (pcintr_stack ctxt_for_test) :=
  match run_match_clause Match.sample_collab
      (select_child two_clause_start).1 first_clause with
  | some (_, stack) => some stack
  | none => none

end Test

namespace Test

/-- The element `<test on=1>` with the sample children of the catch
samples: a text, an element, a comment and another element. -/
def four_children_test : pcvdom_node :=
  pcvdom_node.element pchvml_tag.TEST
    [{ key := "on", val := some (purc_variant.longint 1) }]
    Catch.sample_children

/-- The stack after `after_pushed` of test on `four_children_test`. -/
def four_children_start : pcintr_stack ctxt_for_test :=
  (after_pushed collab.all_ok pcintr_stack.fresh four_children_test).1

end Test

namespace Sleep

/-- A timer of 2000 ms for a yielded frame, started, and destroyed or
not. -/
def two_second_timer (destroyed : Bool) : pcintr_timer :=
  { for_yielded := true, interval := 2000, started_oneshot := true,
    destroyed := destroyed }

/-- The stack of a sleep frame that has yielded: `after_pushed` has run
on `<sleep with="2">`. -/
def yielded_sleep : pcintr_stack ctxt_for_sleep :=
  (after_pushed collab.all_ok cast_longint pcintr_stack.fresh
    (sleep_element (purc_variant.longint 2))).1

end Sleep

namespace Runners

/-- Values of the protocol constants for the samples. -/
def sample_defs : pcrdr_defs :=
  { PCRDR_SC_OK := 200, PCRDR_SC_BAD_REQUEST := 400,
    PCRDR_REQUESTID_NORETURN := "-" }

/-- The name of the instance that sends the sample requests. -/
def sample_requester : String := "edpt://localhost/app/main"

/-- The name of the instance that handles the sample requests. -/
def sample_endpoint : String := "edpt://localhost/app/worker"

/-- A registry in which the requester has the atom 1. -/
def sample_user_atoms : atom_table := [sample_requester]

/-- A `purc_schedule_vdom` that creates the coroutine 7 whatever it is
given. -/
def schedule_ok : schedule_args → Option purc_atom_t := fun _ => some 7

/-- A request with an operation name that is not of the surface. -/
def unknown_operation_request : pcrdr_msg :=
  { type := pcrdr_msg_type.REQUEST
    target := pcrdr_msg_target.INSTANCE
    targetValue := 2
    operation := some (purc_variant.string "frobnicate")
    requestId := some (purc_variant.string "req-1")
    sourceURI := some (purc_variant.string sample_requester)
    retCode := 0
    resultValue := 0
    dataType := pcrdr_msg_data_type.VOID
    data := none }

/-- The same request without its `sourceURI`. -/
def no_source_request : pcrdr_msg :=
  { unknown_operation_request with sourceURI := none }

/-- The same request from a requester that is not registered. -/
def unregistered_requester_request : pcrdr_msg :=
  { unknown_operation_request with
    sourceURI := some (purc_variant.string "edpt://localhost/app/gone") }

/-- Extra renderer information with every member set. -/
def sample_extra_info : purc_renderer_extra_info :=
  { klass := some "main", title := some "Hello",
    layout_style := some "tabbed",
    toolkit_style := some (purc_variant.string "dark"),
    page_groups := some "group-1" }

/-- The data of the request that `purc_inst_schedule_vdom` builds for
the vDOM at address 4096, the curator 5, a widget page, a workspace and a
page name but no group, `sample_extra_info` and no body identifier. -/
def sample_payload : object_data :=
  schedule_vdom_data 4096 5 (some (purc_variant.string "go")) 2
    (some "ws") none (some "page") (some sample_extra_info) none

/-- A collaborator record for the instance manager: every name is valid
but the empty one, the endpoint name is assembled with slashes, and
every call succeeds. -/
def sample_inst_collab : inst_collab :=
  { purc_is_valid_app_name := fun s => decide (s ≠ "")
    purc_is_valid_runner_name := fun s => decide (s ≠ "")
    purc_assemble_endpoint_name := fun app run =>
      "edpt://localhost/" ++ app ++ "/" ++ run
    sem_open_ok := true
    pthread_create_ok := true
    purc_init_ok := true
    move_buffer_ok := true }

/-- The state in which only the requester instance is registered and no
instance has been started. -/
def sample_inst_state : inst_state :=
  { user_atoms := sample_user_atoms, started := [], last_error := 0 }

end Runners

namespace System

/-- Version strings to run the const getter with. -/
def sample_versions : version_defs :=
  { HVML_SPEC_VERSION := "1.0", HVML_SPEC_RELEASE := "硕鼠",
    HVML_PREDEF_VARS_SPEC_VERSION := "1.0",
    HVML_PREDEF_VARS_SPEC_RELEASE := "硕鼠",
    HVML_INTRPR_NAME := "PurC", HVML_INTRPR_VERSION := "0.8.0",
    HVML_INTRPR_RELEASE := "立春" }

/-- The registry of the bucket and the keyword atoms after
`purc_dvobj_system_new` ran on an empty registry. -/
def initialised : atom_table × List purc_atom_t :=
  purc_dvobj_system_new [] keywords2atoms_static

/-- A system call `getrandom` that fills the whole buffer it is given,
with zeros. -/
def getrandom_full (buflen : Nat) : getrandom_result :=
  { ret := buflen, buf := List.replicate buflen 0 }

/-- A clock before the setter runs. -/
def sample_sys_state : sys_state :=
  { clock := { tv_sec := 1600000000, tv_usec := 250000 }, events := [] }

end System

namespace Runners

/-- A request to the instance for the operation `killCoroutine`. -/
def kill_coroutine_request : pcrdr_msg :=
  { unknown_operation_request with
    operation := some (purc_variant.string PCRUN_OPERATION_killCoroutine) }

/-- A request to a coroutine for the operation `callMethod`. -/
def call_method_request : pcrdr_msg :=
  { unknown_operation_request with
    target := pcrdr_msg_target.COROUTINE
    operation := some (purc_variant.string PCRDR_OPERATION_CALLMETHOD) }

end Runners

namespace Test

/-- The stack after `n` successive calls of `select_child` on the test
frame of `four_children_test`. -/
def after_calls : Nat → pcintr_stack ctxt_for_test
  | 0 => four_children_start
  | n + 1 => (select_child (after_calls n)).1

end Test

namespace Catch

/-- A catch frame that matched, at the start of its children. -/
def matched_start : pcintr_stack ctxt_for_catch :=
  { (pcintr_stack.fresh : pcintr_stack ctxt_for_catch) with
    bottom :=
      { pos := some catch_element_no_for,
        ctxt := some { curr := none, for_var := none, «match» := true },
        ctxt_destroy := true, attr_vars := [], question_var := none,
        result_from_child := none } }

end Catch

namespace Catch

/-- The stack after `n` successive calls of `select_child` on the catch
frame `matched_start`. -/
def after_calls : Nat → pcintr_stack ctxt_for_catch
  | 0 => matched_start
  | n + 1 => (select_child (after_calls n)).1

end Catch

namespace Test

/-- The element `<test on=1 in=2 for="x">`. -/
def three_attr_test : pcvdom_node :=
  pcvdom_node.element pchvml_tag.TEST
    [{ key := "on", val := some (purc_variant.longint 1) },
     { key := "in", val := some (purc_variant.longint 2) },
     { key := "for", val := some (purc_variant.string "x") }]
    []

/-- Every value is referenced once. -/
def one_reference : refcounts := fun _ => 1

end Test

theorem atom_lookup_zero_or_ge (tbl : atom_table) (s : String) (n : Nat) :
    atom_lookup tbl s n = 0 ∨ n ≤ atom_lookup tbl s n := by
  induction tbl generalizing n with
  | nil => left; rfl
  | cons x xs ih =>
    unfold atom_lookup
    split
    · right; exact le_rfl
    · rcases ih (n + 1) with h | h
      · left; exact h
      · right; omega

theorem atom_lookup_inj (tbl : atom_table) (a b : String) (n : Nat)
    (hn : 0 < n) (hab : atom_lookup tbl a n = atom_lookup tbl b n)
    (hne : atom_lookup tbl a n ≠ 0) : a = b := by
  induction tbl generalizing n with
  | nil => exact absurd rfl hne
  | cons x xs ih =>
    unfold atom_lookup at hab hne
    by_cases hxa : x = a
    · by_cases hxb : x = b
      · exact hxa.symm.trans hxb
      · rw [if_pos hxa, if_neg hxb] at hab
        rcases atom_lookup_zero_or_ge xs b (n + 1) with h | h <;> omega
    · by_cases hxb : x = b
      · rw [if_neg hxa, if_pos hxb] at hab
        rcases atom_lookup_zero_or_ge xs a (n + 1) with h | h <;> omega
      · rw [if_neg hxa, if_neg hxb] at hab
        rw [if_neg hxa] at hne
        exact ih (n + 1) (Nat.succ_pos n) hab hne

/-- Two strings with the same atom, other than 0, are the same string. -/
theorem purc_atom_try_string_inj (tbl : atom_table) (a b : String)
    (hab : purc_atom_try_string tbl a = purc_atom_try_string tbl b)
    (hne : purc_atom_try_string tbl a ≠ 0) : a = b :=
  atom_lookup_inj tbl a b 1 Nat.one_pos hab hne

theorem strtok_tokens_no_space (cs acc : List Char) (h : ' ' ∉ cs) :
    strtok_tokens cs acc =
      if (acc.reverse ++ cs).isEmpty then []
      else [String.mk (acc.reverse ++ cs)] := by
  induction cs generalizing acc with
  | nil => simp [strtok_tokens]
  | cons c cs ih =>
    have hc : c ≠ ' ' := fun e => h (by simp [e])
    have hcs : ' ' ∉ cs := fun e => h (by simp [e])
    unfold strtok_tokens
    rw [if_neg hc, ih (c :: acc) hcs]
    simp

/-- A word without a space is its own single token, the empty word has
none. -/
theorem strtok_tokens_word (name : String) (h : ' ' ∉ name.data) :
    strtok_tokens name.data [] = if name.data.isEmpty then [] else [name] := by
  rw [strtok_tokens_no_space name.data [] h]
  simp

/-- A relation that every call of the callback respects, and that is
reflexive and transitive, holds between the state before and after the
walk over the attributes. -/
theorem pcintr_vdom_walk_attrs_rel {σ : Type} (cb : σ → pcvdom_attr → σ × Int)
    (R : σ → σ → Prop) (hrefl : ∀ s, R s s)
    (htrans : ∀ a b c, R a b → R b c → R a c)
    (hcb : ∀ s a, R s (cb s a).1) (s : σ) (attrs : List pcvdom_attr) :
    R s (pcintr_vdom_walk_attrs cb s attrs).1 := by
  induction attrs generalizing s with
  | nil => exact hrefl s
  | cons a rest ih =>
    unfold pcintr_vdom_walk_attrs
    split
    rename_i s1 r heq
    have h1 : R s s1 := by
      have := hcb s a
      rw [heq] at this
      exact this
    split
    · exact h1
    · exact htrans _ _ _ h1 (ih s1)

namespace Catch

theorem token_loop_of_ne (tbl : atom_table) (msg : String)
    (x : purc_atom_t) (ctxt : ctxt_for_catch) (toks : List String)
    (h : purc_atom_try_string tbl msg ≠ x) :
    token_loop tbl msg x ctxt toks = ctxt := by
  induction toks with
  | nil => rfl
  | cons t rest ih =>
    unfold token_loop
    simp only [if_neg h]
    exact ih

/-- What the token loop computes: the match flag is set exactly when it
was set before, or there is a token and the atom of the whole text `msg`
is the pending category. -/
theorem token_loop_match_iff (tbl : atom_table) (msg : String)
    (x : purc_atom_t) (ctxt : ctxt_for_catch) (toks : List String) :
    (token_loop tbl msg x ctxt toks).«match» = true ↔
      ctxt.«match» = true ∨
        (toks ≠ [] ∧ purc_atom_try_string tbl msg = x) := by
  cases toks with
  | nil => simp [token_loop]
  | cons t rest =>
    by_cases h : purc_atom_try_string tbl msg = x
    · simp [token_loop, h]
    · rw [token_loop_of_ne tbl msg x ctxt (t :: rest) h]
      simp [h]

/-- The loop leaves the context alone when the category is the atom of a
word that is not among the tokens of `msg`. -/
theorem token_loop_unlisted (tbl : atom_table) (msg name : String)
    (ctxt : ctxt_for_catch)
    (hne : purc_atom_try_string tbl name ≠ 0)
    (hname : ' ' ∉ name.data)
    (hnotin : name ∉ strtok_tokens msg.data []) :
    token_loop tbl msg (purc_atom_try_string tbl name) ctxt
      (strtok_tokens msg.data []) = ctxt := by
  by_cases h : purc_atom_try_string tbl msg = purc_atom_try_string tbl name
  · have hmsg : name = msg := purc_atom_try_string_inj tbl name msg h.symm hne
    subst hmsg
    rw [strtok_tokens_word name hname] at hnotin ⊢
    by_cases he : name.data.isEmpty
    · simp only [he, if_true]; rfl
    · simp [he] at hnotin
  · exact token_loop_of_ne tbl msg _ ctxt _ h

/-- C1, as the code behaves: the category `X` (atom 3) is pending and the
catch has `for="A B X"`, whose tokens include `X`, yet `after_pushed`
returns a context whose match flag is false, because every round of the
token loop looks up the atom of the whole attribute text and not of the
token. -/
theorem catch_listed_category_not_matched :
    purc_atom_try_string sample_atoms "X" = 3 ∧
    "X" ∈ strtok_tokens "A B X".data [] ∧
    (after_pushed collab.all_ok sample_atoms (pending 3)
        (catch_element "A B X")).2 =
      some { curr := none, for_var := some (purc_variant.string "A B X"),
             «match» := false } := by
  decide

/-- C2: a pending exception whose category is the atom of the word `name`,
and a catch whose `for` attribute is a list `msg` other than `*` in which
`name` is no token: `after_pushed` leaves the match flag false and the
exception flag and atom of the stack as they were, and `select_child`
returns null with the stack, cursor and observers untouched. -/
theorem catch_unlisted_category_repropagates
    (c : collab) (tbl : atom_table) (stack : pcintr_stack ctxt_for_catch)
    (pos : pcvdom_node) (vars : List (String × purc_variant))
    (name msg : String)
    (hexc : stack.except = true)
    (hX : stack.error_except = purc_atom_try_string tbl name)
    (hXne : stack.error_except ≠ 0)
    (hname : ' ' ∉ name.data)
    (hsym : c.set_symbol_var_at_sign = 0)
    (hcalloc : c.calloc_ok = true)
    (hattrs : pcintr_element_eval_attrs pos.attrs = some vars)
    (hfor : purc_variant_object_get_by_ckey vars "for" =
      some (purc_variant.string msg))
    (hstar : msg ≠ "*")
    (hnotin : name ∉ strtok_tokens msg.data []) :
    (∃ ctxt, (after_pushed c tbl stack pos).1.bottom.ctxt = some ctxt ∧
      ctxt.«match» = false) ∧
    (after_pushed c tbl stack pos).1.except = stack.except ∧
    (after_pushed c tbl stack pos).1.error_except = stack.error_except ∧
    select_child (after_pushed c tbl stack pos).1 =
      ((after_pushed c tbl stack pos).1, select_result.ret none) := by
  rw [hX] at hXne
  have hloop := token_loop_unlisted tbl msg name
    { curr := none, for_var := some (purc_variant.string msg),
      «match» := false }
    hXne hname hnotin
  cases hs : c.strdup_ok <;>
    simp [after_pushed, post_process, post_process_data, select_child,
      purc_set_error, hsym, hcalloc, hattrs, hexc, hfor, hstar, hs, hX,
      hloop, ctxt_for_catch.zeroed]

/-- C2 at `for="A B"` with the category `X` pending. -/
theorem catch_unlisted_category_repropagates_witness :
    (∃ ctxt, (after_pushed collab.all_ok sample_atoms (pending 3)
        (catch_element "A B")).1.bottom.ctxt = some ctxt ∧
      ctxt.«match» = false) ∧
    (after_pushed collab.all_ok sample_atoms (pending 3)
      (catch_element "A B")).1.except = (pending 3).except ∧
    (after_pushed collab.all_ok sample_atoms (pending 3)
      (catch_element "A B")).1.error_except = (pending 3).error_except ∧
    select_child (after_pushed collab.all_ok sample_atoms (pending 3)
        (catch_element "A B")).1 =
      ((after_pushed collab.all_ok sample_atoms (pending 3)
        (catch_element "A B")).1, select_result.ret none) :=
  catch_unlisted_category_repropagates collab.all_ok sample_atoms (pending 3)
    (catch_element "A B") [("for", purc_variant.string "A B")] "X" "A B"
    rfl (by decide) (by decide) (by decide) rfl rfl rfl rfl (by decide)
    (by decide)

theorem post_process_data_except (c : collab) (tbl : atom_table)
    (stack : pcintr_stack ctxt_for_catch) (ctxt : ctxt_for_catch) :
    (post_process_data c tbl stack ctxt).1.except = stack.except := by
  unfold post_process_data
  split
  · rfl
  · split
    · split
      · rfl
      · split <;> rfl
    · rfl
    · rfl

theorem post_process_data_no_exception (c : collab) (tbl : atom_table)
    (stack : pcintr_stack ctxt_for_catch) (ctxt : ctxt_for_catch)
    (h : stack.except = false) :
    (post_process_data c tbl stack ctxt).2.1.«match» = false := by
  simp [post_process_data, h]

/-- The function `after_pushed` of catch never changes the exception flag
of the stack. -/
theorem catch_after_pushed_except (c : collab) (tbl : atom_table)
    (stack : pcintr_stack ctxt_for_catch) (pos : pcvdom_node) :
    (after_pushed c tbl stack pos).1.except = stack.except := by
  unfold after_pushed
  simp only []
  split
  · rfl
  · split
    · rfl
    · split
      · rfl
      · split <;> simp [post_process, post_process_data_except]

/-- Whenever `after_pushed` of catch returns a context with the match flag
set, the exception flag of the stack is still set: nothing in it consumes
the exception. -/
theorem catch_match_keeps_exception (c : collab) (tbl : atom_table)
    (stack : pcintr_stack ctxt_for_catch) (pos : pcvdom_node)
    (ctxt : ctxt_for_catch)
    (hret : (after_pushed c tbl stack pos).2 = some ctxt)
    (hm : ctxt.«match» = true) :
    (after_pushed c tbl stack pos).1.except = true := by
  rw [catch_after_pushed_except]
  cases hexc : stack.except
  · exfalso
    unfold after_pushed at hret
    simp only [] at hret
    split at hret
    · simp at hret
    · split at hret
      · simp at hret
      · split at hret
        · simp at hret
        · split at hret
          · simp at hret
          · simp only [Option.some.injEq] at hret
            rw [← hret] at hm
            simp [post_process, post_process_data_no_exception, hexc] at hm
  · rfl

/-- C3, as the code behaves: the category `X` is pending and the catch has
`for="*"`; `after_pushed` returns a context with the match flag set, the
exception flag of the stack is still set, and `select_child`, having
skipped the text child and reached the first Element child, fails the
assertion `stack->except == 0` instead of returning the child. -/
theorem catch_matched_exception_still_pending :
    (after_pushed collab.all_ok sample_atoms (pending 3)
        (catch_element "*")).2 =
      some { curr := none, for_var := some (purc_variant.string "*"),
             «match» := true } ∧
    (after_pushed collab.all_ok sample_atoms (pending 3)
        (catch_element "*")).1.except = true ∧
    (after_pushed collab.all_ok sample_atoms (pending 3)
        (catch_element "*")).1.error_except = 3 ∧
    (select_child (after_pushed collab.all_ok sample_atoms (pending 3)
        (catch_element "*")).1).2 = select_result.assert_failed ∧
    (select_child (after_pushed collab.all_ok sample_atoms (pending 3)
        (catch_element "*")).1).1.log =
      [intr_event.on_content 0, intr_event.on_element 1] :=
  ⟨rfl, rfl, rfl, rfl, rfl⟩

/-- C4: with an exception pending, whatever its category, a catch whose
`for` attribute is exactly `*`, or which has no `for` attribute, matches:
`after_pushed` returns the context of the frame with the match flag
set. -/
theorem catch_wildcard_or_no_for_matches
    (c : collab) (tbl : atom_table) (stack : pcintr_stack ctxt_for_catch)
    (pos : pcvdom_node) (vars : List (String × purc_variant))
    (hexc : stack.except = true)
    (hsym : c.set_symbol_var_at_sign = 0)
    (hcalloc : c.calloc_ok = true)
    (hattrs : pcintr_element_eval_attrs pos.attrs = some vars)
    (hfor : purc_variant_object_get_by_ckey vars "for" = none ∨
      purc_variant_object_get_by_ckey vars "for" =
        some (purc_variant.string "*")) :
    ∃ ctxt, (after_pushed c tbl stack pos).2 = some ctxt ∧
      (after_pushed c tbl stack pos).1.bottom.ctxt = some ctxt ∧
      ctxt.«match» = true := by
  rcases hfor with hfor | hfor <;>
    simp [after_pushed, post_process, post_process_data, hsym, hcalloc,
      hattrs, hexc, hfor, ctxt_for_catch.zeroed]

/-- C4 at `<catch>` without attributes, with the category `A` pending. -/
theorem catch_wildcard_or_no_for_matches_witness :
    ∃ ctxt, (after_pushed collab.all_ok sample_atoms (pending 1)
        catch_element_no_for).2 = some ctxt ∧
      (after_pushed collab.all_ok sample_atoms (pending 1)
        catch_element_no_for).1.bottom.ctxt = some ctxt ∧
      ctxt.«match» = true :=
  catch_wildcard_or_no_for_matches collab.all_ok sample_atoms (pending 1)
    catch_element_no_for [] rfl rfl rfl rfl (Or.inl rfl)

end Catch

namespace Exit

theorem attr_found_keeps_exit (s : walk_state) (a : pcvdom_attr) :
    keeps_exit s (attr_found s a).1 := by
  unfold attr_found pcintr_eval_vdom_attr
  cases a.val with
  | none => exact ⟨rfl, _, rfl⟩
  | some v =>
    simp only [attr_found_val, process_attr_with]
    split
    · split
      · exact ⟨rfl, _, rfl⟩
      · exact ⟨rfl, _, rfl⟩
    · exact ⟨rfl, _, rfl⟩

theorem walk_keeps_exit (s : walk_state) (attrs : List pcvdom_attr) :
    keeps_exit s (pcintr_vdom_walk_attrs attr_found s attrs).1 :=
  pcintr_vdom_walk_attrs_rel attr_found keeps_exit
    (fun _ => ⟨rfl, [], (List.append_nil _).symm⟩)
    (fun a b c hab hbc => by
      obtain ⟨h1, r1, h2⟩ := hab
      obtain ⟨h3, r2, h4⟩ := hbc
      exact ⟨h3.trans h1, r1 ++ r2, by rw [h4, h2, List.append_assoc]⟩)
    attr_found_keeps_exit s attrs

/-- C5: on a stack that is not yet exited, `after_pushed` of exit leaves
the stack marked as exited whatever the outcome of the later steps
(pending exception, insertion mode, allocation, attributes), and the call
of `pcintr_set_exit` is the first call it records: every attribute
evaluation comes after it. -/
theorem exit_marks_exited_first (c : collab)
    (stack : pcintr_stack ctxt_for_exit) (pos : pcvdom_node)
    (h : stack.exited = false) :
    (after_pushed c stack pos).1.exited = true ∧
    ∃ rest, (after_pushed c stack pos).1.log =
      stack.log ++ intr_event.set_exit :: rest := by
  unfold after_pushed
  simp only [h, pcintr_set_exit, Bool.false_eq_true, if_false]
  split
  · exact ⟨rfl, [], rfl⟩
  · split
    · exact ⟨rfl, [], rfl⟩
    · split
      · exact ⟨rfl, [], rfl⟩
      · obtain ⟨h1, rest, h2⟩ := walk_keeps_exit
          ({ stack with
              exited := true, log := stack.log ++ [intr_event.set_exit],
              bottom := { stack.bottom with
                ctxt := some ctxt_for_exit.zeroed, ctxt_destroy := true,
                pos := some pos } }, ctxt_for_exit.zeroed) pos.attrs
        simp only [] at h1 h2
        split
        · exact ⟨h1, rest, by simp [h2]⟩
        · exact ⟨h1, rest, by simp [purc_clr_error, h2]⟩

/-- C5 at an exit element whose second attribute is a duplicate, on a
fresh stack. -/
theorem exit_marks_exited_first_witness :
    (after_pushed collab.all_ok pcintr_stack.fresh
      exit_element_duplicated).1.exited = true ∧
    ∃ rest, (after_pushed collab.all_ok pcintr_stack.fresh
        exit_element_duplicated).1.log =
      (pcintr_stack.fresh : pcintr_stack ctxt_for_exit).log ++
        intr_event.set_exit :: rest :=
  exit_marks_exited_first collab.all_ok pcintr_stack.fresh
    exit_element_duplicated rfl

end Exit

theorem timer_modify_last (f : pcintr_timer → pcintr_timer)
    (ts : List pcintr_timer) (t : pcintr_timer) :
    timer_modify f ts.length (ts ++ [t]) = ts ++ [f t] := by
  induction ts with
  | nil => rfl
  | cons a rest ih => simp [timer_modify, ih]

namespace Sleep

/-- C6: a sleep element whose `with` attribute evaluates to a value that
does not cast to a long integer, or casts to an integer that is not
positive: `after_pushed` records `PURC_ERROR_INVALID_VALUE`, returns null,
creates no timer and does not yield. -/
theorem sleep_invalid_duration_rejected (c : collab)
    (cast : purc_variant → Option Int)
    (stack : pcintr_stack ctxt_for_sleep) (tag : pchvml_tag)
    (v : purc_variant) (others : List pcvdom_attr)
    (children : List pcvdom_node)
    (hexc : stack.except = false)
    (hins : c.check_insertion_mode = 0)
    (hcalloc : c.calloc_ok = true)
    (hbad : cast v = none ∨ ∃ i, cast v = some i ∧ i ≤ 0) :
    (after_pushed c cast stack (pcvdom_node.element tag
      ({ key := "with", val := some v } :: others) children)).2 = none ∧
    (after_pushed c cast stack (pcvdom_node.element tag
      ({ key := "with", val := some v } :: others) children)).1.last_error =
        PURC_ERROR_INVALID_VALUE ∧
    (after_pushed c cast stack (pcvdom_node.element tag
      ({ key := "with", val := some v } :: others) children)).1.timers =
        stack.timers ∧
    (after_pushed c cast stack (pcvdom_node.element tag
      ({ key := "with", val := some v } :: others) children)).1.yielded =
        stack.yielded := by
  rcases hbad with hbad | ⟨i, hbad, hi⟩
  · simp [after_pushed, pcintr_vdom_walk_attrs, attr_found, attr_found_val,
      process_attr_with, pcintr_eval_vdom_attr, purc_set_error,
      pcvdom_node.attrs, ctxt_for_sleep.zeroed, hexc, hins, hcalloc, hbad]
  · simp [after_pushed, pcintr_vdom_walk_attrs, attr_found, attr_found_val,
      process_attr_with, pcintr_eval_vdom_attr, purc_set_error,
      pcvdom_node.attrs, ctxt_for_sleep.zeroed, hexc, hins, hcalloc, hbad, hi]

/-- C6 at `<sleep with="0">` and at a `with` that is a string. -/
theorem sleep_invalid_duration_rejected_witness :
    ((after_pushed collab.all_ok cast_longint pcintr_stack.fresh
      (pcvdom_node.element pchvml_tag.SLEEP
        ({ key := "with", val := some (purc_variant.longint 0) } :: [])
        [])).1.last_error = PURC_ERROR_INVALID_VALUE) ∧
    ((after_pushed collab.all_ok cast_longint pcintr_stack.fresh
      (pcvdom_node.element pchvml_tag.SLEEP
        ({ key := "with", val := some (purc_variant.string "soon") } :: [])
        [])).1.timers = []) :=
  ⟨(sleep_invalid_duration_rejected collab.all_ok cast_longint
      pcintr_stack.fresh pchvml_tag.SLEEP (purc_variant.longint 0) [] []
      rfl rfl rfl (Or.inr ⟨0, rfl, le_refl 0⟩)).2.1,
   (sleep_invalid_duration_rejected collab.all_ok cast_longint
      pcintr_stack.fresh pchvml_tag.SLEEP (purc_variant.string "soon") [] []
      rfl rfl rfl (Or.inl rfl)).2.2.1⟩

theorem wrap_int64_of_fits (x : Int) (hlo : -(2 ^ 63) ≤ x) (hhi : x < 2 ^ 63) :
    wrap_int64 x = x := by
  unfold wrap_int64
  omega

/-- C7, as the code behaves: the duration 9223372036854776 is a positive
`int64_t`, yet the interval handed to the timer is not the duration times
1000: the `int64_t` product `with_secs * 1000` has wrapped. -/
theorem sleep_interval_wraps_for_large_duration :
    cast_longint (purc_variant.longint 9223372036854776) =
      some 9223372036854776 ∧
    (0 : Int) < 9223372036854776 ∧
    (after_pushed collab.all_ok cast_longint pcintr_stack.fresh
      (sleep_element (purc_variant.longint 9223372036854776))).1.timers =
      [{ for_yielded := true, interval := -9223372036854775616,
         started_oneshot := true, destroyed := false }] ∧
    (-9223372036854775616 : Int) ≠ 9223372036854776 * 1000 := by
  decide

/-- C7, amended: a sleep element whose only attribute is a `with` that
casts to a positive integer `d` of at most 9223372036854775, so that
`d * 1000` is an `int64_t`, with no exception pending: `after_pushed`
creates exactly one timer, for a yielded frame, sets its interval to
`d * 1000`, starts it as a one-shot timer, stores its handle in the
context, registers `on_continuation` as the continuation of the yielded
frame and returns null. -/
theorem sleep_starts_timer_for_duration (c : collab)
    (cast : purc_variant → Option Int)
    (stack : pcintr_stack ctxt_for_sleep) (tag : pchvml_tag)
    (v : purc_variant) (children : List pcvdom_node) (d : Int)
    (hexc : stack.except = false)
    (hins : c.check_insertion_mode = 0)
    (hcalloc : c.calloc_ok = true)
    (htimer : c.timer_create_ok = true)
    (hcast : cast v = some d)
    (hpos : 0 < d)
    (hfit : d ≤ 9223372036854775) :
    (after_pushed c cast stack (pcvdom_node.element tag
      [{ key := "with", val := some v }] children)).2 = none ∧
    (after_pushed c cast stack (pcvdom_node.element tag
      [{ key := "with", val := some v }] children)).1.timers =
      stack.timers ++ [{ for_yielded := true, interval := d * 1000,
                         started_oneshot := true, destroyed := false }] ∧
    (after_pushed c cast stack (pcvdom_node.element tag
      [{ key := "with", val := some v }] children)).1.yielded =
      some continuation.on_continuation ∧
    (after_pushed c cast stack (pcvdom_node.element tag
      [{ key := "with", val := some v }] children)).1.bottom.ctxt =
      some { curr := none, «with» := some v, with_secs := d,
             timer := some stack.timers.length } := by
  have hw : wrap_int64 (d * 1000) = d * 1000 :=
    wrap_int64_of_fits _ (by omega) (by omega)
  have hnp : ¬ d ≤ 0 := by omega
  simp [after_pushed, pcintr_vdom_walk_attrs, attr_found, attr_found_val,
    process_attr_with, pcintr_eval_vdom_attr, purc_set_error, purc_clr_error,
    pcintr_timer_create, pcintr_timer_set_interval,
    pcintr_timer_start_oneshot, pcintr_yield, timer_modify_last,
    pcvdom_node.attrs, ctxt_for_sleep.zeroed, hexc, hins, hcalloc, htimer,
    hcast, hnp, hw]

/-- C7, amended, at `<sleep with="2">`: one timer of 2000 ms. -/
theorem sleep_starts_timer_for_duration_witness :
    (after_pushed collab.all_ok cast_longint pcintr_stack.fresh
      (pcvdom_node.element pchvml_tag.SLEEP
        [{ key := "with", val := some (purc_variant.longint 2) }] [])).1.timers
      = [] ++ [{ for_yielded := true, interval := 2 * 1000,
                 started_oneshot := true, destroyed := false }] :=
  (sleep_starts_timer_for_duration collab.all_ok cast_longint
    pcintr_stack.fresh pchvml_tag.SLEEP (purc_variant.longint 2) [] 2
    rfl rfl rfl rfl (by decide) (by decide) (by decide)).2.1

/-- C8, as the code behaves: on `<sleep>` without a `with` attribute
`after_pushed` creates a timer, sets its interval to 0, starts it and
yields the frame, the duration `with_secs` of the context being 0 and its
`with` unset. -/
theorem sleep_without_with_yields :
    (after_pushed collab.all_ok cast_longint pcintr_stack.fresh
      sleep_element_no_with).1.timers =
      [{ for_yielded := true, interval := 0, started_oneshot := true,
         destroyed := false }] ∧
    (after_pushed collab.all_ok cast_longint pcintr_stack.fresh
      sleep_element_no_with).1.yielded = some continuation.on_continuation ∧
    (after_pushed collab.all_ok cast_longint pcintr_stack.fresh
      sleep_element_no_with).1.bottom.ctxt =
      some { curr := none, «with» := none, with_secs := 0,
             timer := some 0 } := by
  decide

end Sleep

namespace Match

/-- C9: a match element with a `for` rule (and possibly `exclusively`)
pushed under the frame of a test element whose question variable `q` the
rule matches: `after_pushed` returns the context of the frame with
`matched` set, the question variable of the match frame is `q`, and the
parent frame, its question variable included, is as before. -/
theorem match_rule_matching_takes_parent_result (c : collab)
    (stack : pcintr_stack ctxt_for_match) (tag : pchvml_tag)
    (rule : String) (excl : Option purc_variant)
    (children : List pcvdom_node)
    (parent : pcintr_stack_frame ctxt_for_match)
    (ancestors : List (pcintr_stack_frame ctxt_for_match))
    (q : purc_variant)
    (hexc : stack.except = false)
    (hcalloc : c.calloc_ok = true)
    (hparents : stack.parents = parent :: ancestors)
    (htest : is_test_frame parent = true)
    (hq : parent.question_var = some q)
    (hparse : c.match_for_parse rule = true)
    (heval : c.match_for_rule_eval rule q = some true) :
    ∃ st ctxt,
      after_pushed c stack
        (pcvdom_node.element tag (match_attrs rule excl) children) =
        some (st, some ctxt) ∧
      st.bottom.ctxt = some ctxt ∧
      ctxt.matched = true ∧
      ctxt.is_exclusively = excl.isSome ∧
      st.bottom.question_var = some q ∧
      st.parents = parent :: ancestors ∧
      pcintr_get_question_var parent = some q := by
  cases excl with
  | none =>
    simp [after_pushed, post_process, pcintr_vdom_walk_attrs, attr_found,
      attr_found_val, process_attr_for, process_attr_exclusively,
      pcintr_eval_vdom_attr, purc_set_error, purc_clr_error,
      pcintr_stack_frame_get_parent, pcintr_get_question_var,
      pcintr_set_question_var, purc_variant_get_string_const,
      pcvdom_node.attrs, match_attrs, ctxt_for_match.zeroed,
      hexc, hcalloc, hparents, htest, hq, hparse, heval]
    exact ⟨_, _, ⟨rfl, rfl⟩, rfl, rfl, rfl, rfl, rfl⟩
  | some e =>
    simp [after_pushed, post_process, pcintr_vdom_walk_attrs, attr_found,
      attr_found_val, process_attr_for, process_attr_exclusively,
      pcintr_eval_vdom_attr, purc_set_error, purc_clr_error,
      pcintr_stack_frame_get_parent, pcintr_get_question_var,
      pcintr_set_question_var, purc_variant_get_string_const,
      pcvdom_node.attrs, match_attrs, ctxt_for_match.zeroed,
      hexc, hcalloc, hparents, htest, hq, hparse, heval]
    exact ⟨_, _, ⟨rfl, rfl⟩, rfl, rfl, rfl, rfl, rfl⟩

/-- C9 at `<match for="1">` under a test whose question variable is the
long integer 1. -/
theorem match_rule_matching_takes_parent_result_witness :
    ∃ st ctxt,
      after_pushed sample_collab (under_test (purc_variant.longint 1))
        (pcvdom_node.element pchvml_tag.MATCH (match_attrs "1" none) []) =
        some (st, some ctxt) ∧
      st.bottom.ctxt = some ctxt ∧
      ctxt.matched = true ∧
      ctxt.is_exclusively = (none : Option purc_variant).isSome ∧
      st.bottom.question_var = some (purc_variant.longint 1) ∧
      st.parents = test_frame (purc_variant.longint 1) :: [] ∧
      pcintr_get_question_var (test_frame (purc_variant.longint 1)) =
        some (purc_variant.longint 1) :=
  match_rule_matching_takes_parent_result sample_collab
    (under_test (purc_variant.longint 1)) pchvml_tag.MATCH "1" none []
    (test_frame (purc_variant.longint 1)) [] (purc_variant.longint 1)
    rfl rfl rfl rfl rfl rfl (by decide)

/-- C10: popping a match frame under the frame of a test element.  When
the context is exclusive and matched, the `result_from_child` of the test
frame becomes the boolean true; otherwise the frames above the match
frame are left as they were.  In both cases `on_popping` returns true. -/
theorem match_on_popping_forces_result
    (stack : pcintr_stack ctxt_for_match) (ctxt : ctxt_for_match)
    (pos : pcvdom_node) (parent : pcintr_stack_frame ctxt_for_match)
    (ancestors : List (pcintr_stack_frame ctxt_for_match))
    (hctxt : stack.bottom.ctxt = some ctxt)
    (hpos : stack.bottom.pos = some pos)
    (hparents : stack.parents = parent :: ancestors)
    (htest : is_test_frame parent = true) :
    ∃ st, on_popping stack = some (st, true) ∧
      (ctxt.is_exclusively = true ∧ ctxt.matched = true →
        st.parents =
          { parent with
            result_from_child := some (purc_variant.boolean true) } ::
            ancestors) ∧
      (¬ (ctxt.is_exclusively = true ∧ ctxt.matched = true) →
        st.parents = parent :: ancestors) := by
  by_cases h : ctxt.is_exclusively = true ∧ ctxt.matched = true
  · simp [on_popping, set_parent, pcintr_stack_frame_get_parent,
      purc_variant_make_boolean, hctxt, hpos, hparents, htest, h]
  · have h2 : (ctxt.is_exclusively && ctxt.matched) = false := by
      cases h1 : ctxt.is_exclusively <;> cases h3 : ctxt.matched <;>
        simp_all
    simp [on_popping, hctxt, hpos, hparents, h, h2]

/-- C10 at an exclusive, matched frame under a test whose
`result_from_child` is unset. -/
theorem match_on_popping_forces_result_witness :
    ∃ st, on_popping (popping
        { ctxt_for_match.zeroed with is_exclusively := true, matched := true }
        purc_variant.null) = some (st, true) ∧
      (true = true ∧ true = true →
        st.parents =
          { test_frame purc_variant.null with
            result_from_child := some (purc_variant.boolean true) } :: []) ∧
      (¬ (true = true ∧ true = true) →
        st.parents = test_frame purc_variant.null :: []) :=
  match_on_popping_forces_result
    (popping
      { ctxt_for_match.zeroed with is_exclusively := true, matched := true }
      purc_variant.null)
    { ctxt_for_match.zeroed with is_exclusively := true, matched := true }
    (pcvdom_node.element pchvml_tag.MATCH [] []) (test_frame purc_variant.null)
    [] rfl rfl rfl rfl

end Match

namespace Test

theorem select_loop_result_of_except (s1 s2 : pcintr_stack ctxt_for_test)
    (ctxt : ctxt_for_test) (rest : List pcvdom_node) (idx : Nat)
    (h : s1.except = s2.except) :
    (select_loop s1 ctxt rest idx).2 = (select_loop s2 ctxt rest idx).2 := by
  induction rest generalizing s1 s2 ctxt idx with
  | nil => rfl
  | cons node rest ih =>
    cases node with
    | document cs => rfl
    | element t a cs =>
      simp only [select_loop, h]
      split <;> rfl
    | content t =>
      simp only [select_loop]
      exact ih _ _ _ _ h
    | comment t =>
      simp only [select_loop]
      exact ih _ _ _ _ h

/-- What `select_child` of test returns does not depend on the
`result_from_child` of the test frame. -/
theorem test_select_child_ignores_result
    (stack : pcintr_stack ctxt_for_test) (r : Option purc_variant) :
    (select_child { stack with
      bottom := { stack.bottom with result_from_child := r } }).2 =
      (select_child stack).2 := by
  unfold select_child
  cases stack.bottom.ctxt with
  | none => rfl
  | some ctxt => exact select_loop_result_of_except _ _ _ _ _ rfl

/-- A run of `select_child` calls that starts inside the loop, at the
child of position `done.length`: it returns the elements among the
remaining children, in order, and its observers are called for each of
them. -/
theorem collect_select_loop (pos : pcvdom_node) (rest : List pcvdom_node) :
    ∀ (done : List pcvdom_node) (s : pcintr_stack ctxt_for_test)
      (c : ctxt_for_test) (fuel : Nat),
      s.bottom.pos = some pos → pos.children = done ++ rest →
      s.except = false → (∀ n ∈ rest, is_document n = false) →
      rest.length ≤ fuel →
      ∃ st, collect_with (select_children fuel)
          (select_loop s c rest done.length) =
          some (rest.filter pcvdom_node.is_element, st) ∧
        st.log = s.log ++ child_events rest done.length ∧
        st.bottom.ctxt = some { c with curr := none } ∧
        st.except = false := by
  induction rest with
  | nil =>
    intro done s c fuel _ _ hexc _ _
    exact ⟨_, rfl, by simp [purc_clr_error, child_events], rfl, hexc⟩
  | cons node rest ih =>
    intro done s c fuel hpos hch hexc hdoc hlen
    have hch1 : pos.children = (done ++ [node]) ++ rest := by
      rw [hch, List.append_assoc]; rfl
    have hdoc1 : ∀ n ∈ rest, is_document n = false :=
      fun n hn => hdoc n (List.mem_cons_of_mem _ hn)
    have hlen1 : (done ++ [node]).length = done.length + 1 := by simp
    cases node with
    | document cs =>
      have := hdoc (pcvdom_node.document cs) (List.mem_cons_self _ _)
      simp [is_document] at this
    | content t =>
      have hlen2 : rest.length ≤ fuel := by
        simp only [List.length_cons] at hlen; omega
      obtain ⟨st, h1, h2, h3, h4⟩ := ih (done ++ [pcvdom_node.content t])
        { s with
          bottom := { s.bottom with ctxt := some { c with curr := some done.length } },
          log := s.log ++ [intr_event.on_content done.length] }
        { c with curr := some done.length } fuel hpos hch1 hexc hdoc1 hlen2
      rw [hlen1] at h1 h2
      refine ⟨st, ?_, ?_, h3, h4⟩
      · simpa [select_loop, pcvdom_node.is_element] using h1
      · simpa [child_events] using h2
    | comment t =>
      have hlen2 : rest.length ≤ fuel := by
        simp only [List.length_cons] at hlen; omega
      obtain ⟨st, h1, h2, h3, h4⟩ := ih (done ++ [pcvdom_node.comment t])
        { s with
          bottom := { s.bottom with ctxt := some { c with curr := some done.length } },
          log := s.log ++ [intr_event.on_comment done.length] }
        { c with curr := some done.length } fuel hpos hch1 hexc hdoc1 hlen2
      rw [hlen1] at h1 h2
      refine ⟨st, ?_, ?_, h3, h4⟩
      · simpa [select_loop, pcvdom_node.is_element] using h1
      · simpa [child_events] using h2
    | element tag attrs cs =>
      obtain ⟨f, hf⟩ : ∃ f, fuel = f + 1 := by
        simp only [List.length_cons] at hlen
        exact ⟨fuel - 1, by omega⟩
      subst hf
      have hlen2 : rest.length ≤ f := by
        simp only [List.length_cons] at hlen; omega
      obtain ⟨st, h1, h2, h3, h4⟩ :=
        ih (done ++ [pcvdom_node.element tag attrs cs])
        { s with
          bottom := { s.bottom with ctxt := some { c with curr := some done.length } },
          log := s.log ++ [intr_event.on_element done.length] }
        { c with curr := some done.length } f hpos hch1 hexc hdoc1 hlen2
      rw [hlen1] at h1 h2
      have hdrop : List.drop (done.length + 1) pos.children = rest := by
        rw [hch1, ← hlen1, List.drop_left]
      refine ⟨st, ?_, ?_, h3, h4⟩
      · simp only [select_loop, hexc, Bool.false_eq_true, if_false,
          collect_with, select_children, select_child, frame_children, hpos,
          hdrop, List.filter_cons, pcvdom_node.is_element, if_true] at h1 ⊢
        rw [h1]
      · simpa [child_events] using h2

/-- C12: a test frame without pending exception whose cursor is at the
start and whose position has Element, Content and Comment children.
Successive `select_child` calls return exactly the Element children, in
document order, and then null; `on_element`, `on_content` or `on_comment`
is called for each child in turn; the run ends within as many calls as
there are children plus one; and nothing but the children decides the
result, whatever `on`, `in` and `for` hold. -/
theorem test_select_children_document_order
    (stack : pcintr_stack ctxt_for_test) (ctxt : ctxt_for_test)
    (pos : pcvdom_node)
    (hctxt : stack.bottom.ctxt = some ctxt)
    (hcurr : ctxt.curr = none)
    (hpos : stack.bottom.pos = some pos)
    (hexc : stack.except = false)
    (hdoc : ∀ n ∈ pos.children, is_document n = false) :
    ∃ st, select_children (pos.children.length + 1) stack =
        some (pos.children.filter pcvdom_node.is_element, st) ∧
      st.log = stack.log ++ child_events pos.children 0 ∧
      st.bottom.ctxt = some { ctxt with curr := none } := by
  obtain ⟨st, h1, h2, h3, _⟩ := collect_select_loop pos pos.children []
    stack ctxt pos.children.length hpos rfl hexc hdoc le_rfl
  refine ⟨st, ?_, h2, h3⟩
  simpa [select_children, select_child, hctxt, hcurr, frame_children, hpos]
    using h1

/-- C12 at `<test on=1>` with a text, an element, a comment and another
element as children: the two elements are returned, in order, and the
four observers are called in turn. -/
theorem test_select_children_document_order_witness :
    (∃ st, select_children (four_children_test.children.length + 1)
        four_children_start =
        some (four_children_test.children.filter pcvdom_node.is_element,
          st) ∧
      st.log = four_children_start.log ++
        child_events four_children_test.children 0 ∧
      st.bottom.ctxt =
        some { curr := none, «on» := some (purc_variant.longint 1),
               «in» := none, for_var := none }) ∧
    four_children_test.children.filter pcvdom_node.is_element =
      [pcvdom_node.element (pchvml_tag.OTHER 1) [] [],
       pcvdom_node.element (pchvml_tag.OTHER 2) [] []] ∧
    child_events four_children_test.children 0 =
      [intr_event.on_content 0, intr_event.on_element 1,
       intr_event.on_comment 2, intr_event.on_element 3] :=
  ⟨test_select_children_document_order four_children_start
      { curr := none, «on» := some (purc_variant.longint 1), «in» := none,
        for_var := none }
      four_children_test rfl rfl rfl rfl (by decide),
    rfl, rfl⟩

/-- C11, as the code behaves: a test whose two clauses are exclusive and
both match.  The first clause matches and, popped, sets the
`result_from_child` of the test frame to true; the next `select_child` of
the test nevertheless returns the second clause, and `after_pushed` of
that clause evaluates its rule and finds it matched. -/
theorem test_selects_clause_after_exclusive_match :
    (select_child two_clause_start).2 =
      select_result.ret (some first_clause) ∧
    (run_match_clause Match.sample_collab (select_child two_clause_start).1
        first_clause).map
      (fun r => (r.1.is_exclusively, r.1.matched,
        r.2.bottom.result_from_child)) =
      some (true, true, some (purc_variant.boolean true)) ∧
    after_first_clause.map (fun t => (select_child t).2) =
      some (select_result.ret (some second_clause)) ∧
    after_first_clause.bind (fun t =>
      (run_match_clause Match.sample_collab (select_child t).1
        second_clause).map (fun r => (r.1.is_exclusively, r.1.matched))) =
      some (true, true) :=
  ⟨rfl, rfl, rfl, rfl⟩

end Test

/-! ## Allocation failure and destruction of the context -/

/-- C13: when the allocation of the context fails, `after_pushed` of
test, catch, match, exit and sleep records `PURC_ERROR_OUT_OF_MEMORY` and
returns null, the context of the frame stays unset, and no assertion
fails (the call returns). -/
theorem after_pushed_out_of_memory :
    (∀ (c : Test.collab) (stack : pcintr_stack Test.ctxt_for_test)
        (pos : pcvdom_node) (vars : List (String × purc_variant)),
      c.set_symbol_var_at_sign = 0 →
      pcintr_element_eval_attrs pos.attrs = some vars →
      c.calloc_ok = false → stack.bottom.ctxt = none →
      (Test.after_pushed c stack pos).2 = none ∧
      (Test.after_pushed c stack pos).1.last_error =
        PURC_ERROR_OUT_OF_MEMORY ∧
      (Test.after_pushed c stack pos).1.bottom.ctxt = none) ∧
    (∀ (c : Catch.collab) (tbl : atom_table)
        (stack : pcintr_stack Catch.ctxt_for_catch)
        (pos : pcvdom_node) (vars : List (String × purc_variant)),
      c.set_symbol_var_at_sign = 0 →
      pcintr_element_eval_attrs pos.attrs = some vars →
      c.calloc_ok = false → stack.bottom.ctxt = none →
      (Catch.after_pushed c tbl stack pos).2 = none ∧
      (Catch.after_pushed c tbl stack pos).1.last_error =
        PURC_ERROR_OUT_OF_MEMORY ∧
      (Catch.after_pushed c tbl stack pos).1.bottom.ctxt = none) ∧
    (∀ (c : Match.collab) (stack : pcintr_stack Match.ctxt_for_match)
        (pos : pcvdom_node),
      stack.except = false →
      c.calloc_ok = false → stack.bottom.ctxt = none →
      ∃ st, Match.after_pushed c stack pos = some (st, none) ∧
        st.last_error = PURC_ERROR_OUT_OF_MEMORY ∧
        st.bottom.ctxt = none) ∧
    (∀ (c : Exit.collab) (stack : pcintr_stack Exit.ctxt_for_exit)
        (pos : pcvdom_node),
      stack.exited = false → stack.except = false →
      c.check_insertion_mode = 0 →
      c.calloc_ok = false → stack.bottom.ctxt = none →
      (Exit.after_pushed c stack pos).2 = none ∧
      (Exit.after_pushed c stack pos).1.last_error =
        PURC_ERROR_OUT_OF_MEMORY ∧
      (Exit.after_pushed c stack pos).1.bottom.ctxt = none) ∧
    (∀ (c : Sleep.collab) (cast : purc_variant → Option Int)
        (stack : pcintr_stack Sleep.ctxt_for_sleep) (pos : pcvdom_node),
      stack.except = false →
      c.check_insertion_mode = 0 →
      c.calloc_ok = false → stack.bottom.ctxt = none →
      (Sleep.after_pushed c cast stack pos).2 = none ∧
      (Sleep.after_pushed c cast stack pos).1.last_error =
        PURC_ERROR_OUT_OF_MEMORY ∧
      (Sleep.after_pushed c cast stack pos).1.bottom.ctxt = none) := by
  refine ⟨?_, ?_, ?_, ?_, ?_⟩
  · intro c stack pos vars h1 h2 h3 h4
    simp [Test.after_pushed, purc_set_error, h1, h2, h3, h4]
  · intro c tbl stack pos vars h1 h2 h3 h4
    simp [Catch.after_pushed, purc_set_error, h1, h2, h3, h4]
  · intro c stack pos h1 h2 h3
    simp [Match.after_pushed, purc_set_error, h1, h2, h3]
  · intro c stack pos h0 h1 h2 h3 h4
    simp [Exit.after_pushed, pcintr_set_exit, purc_set_error, h0, h1, h2,
      h3, h4]
  · intro c cast stack pos h1 h2 h3 h4
    simp [Sleep.after_pushed, purc_set_error, h1, h2, h3, h4]

/-- C13 at a fresh stack and an element without attributes, for catch
and for sleep. -/
theorem after_pushed_out_of_memory_witness :
    (Catch.after_pushed
      { set_symbol_var_at_sign := 0, calloc_ok := false, strdup_ok := true }
      sample_atoms pcintr_stack.fresh Catch.catch_element_no_for).1.last_error
      = PURC_ERROR_OUT_OF_MEMORY ∧
    (Sleep.after_pushed
      { check_insertion_mode := 0, calloc_ok := false,
        timer_create_ok := true }
      Sleep.cast_longint pcintr_stack.fresh
      Sleep.sleep_element_no_with).2 = none :=
  ⟨(after_pushed_out_of_memory.2.1
      { set_symbol_var_at_sign := 0, calloc_ok := false, strdup_ok := true }
      sample_atoms pcintr_stack.fresh Catch.catch_element_no_for []
      rfl rfl rfl rfl).2.1,
   (after_pushed_out_of_memory.2.2.2.2
      { check_insertion_mode := 0, calloc_ok := false,
        timer_create_ok := true }
      Sleep.cast_longint pcintr_stack.fresh Sleep.sleep_element_no_with
      rfl rfl rfl rfl).1⟩

/-- C14: for a frame of test, catch, match, exit or sleep with a context
attached (and its position set, as `after_pushed` leaves it), `on_popping`
returns true, frees the context exactly once and clears `frame->ctxt`; a
second `on_popping`, and the registered `ctxt_destroy` called on the
cleared `frame->ctxt`, change nothing and free nothing.  For a match
frame that is exclusive and matched the parent is the frame of a test, as
its assertions require. -/
theorem on_popping_destroys_context_once :
    (∀ (stack : pcintr_stack Test.ctxt_for_test) (ctxt : Test.ctxt_for_test)
        (pos : pcvdom_node),
      stack.bottom.ctxt = some ctxt → stack.bottom.pos = some pos →
      ∃ st, Test.on_popping stack = some (st, true) ∧
        st.bottom.ctxt = none ∧
        st.log.count intr_event.free_ctxt =
          stack.log.count intr_event.free_ctxt + 1 ∧
        Test.on_popping st = some (st, true) ∧
        Test.ctxt_destroy st st.bottom.ctxt = st) ∧
    (∀ (stack : pcintr_stack Catch.ctxt_for_catch)
        (ctxt : Catch.ctxt_for_catch) (pos : pcvdom_node),
      stack.bottom.ctxt = some ctxt → stack.bottom.pos = some pos →
      ∃ st, Catch.on_popping stack = some (st, true) ∧
        st.bottom.ctxt = none ∧
        st.log.count intr_event.free_ctxt =
          stack.log.count intr_event.free_ctxt + 1 ∧
        Catch.on_popping st = some (st, true) ∧
        Catch.ctxt_destroy st st.bottom.ctxt = st) ∧
    (∀ (stack : pcintr_stack Match.ctxt_for_match)
        (ctxt : Match.ctxt_for_match) (pos : pcvdom_node)
        (parent : pcintr_stack_frame Match.ctxt_for_match)
        (ancestors : List (pcintr_stack_frame Match.ctxt_for_match)),
      stack.bottom.ctxt = some ctxt → stack.bottom.pos = some pos →
      stack.parents = parent :: ancestors →
      Match.is_test_frame parent = true →
      ∃ st, Match.on_popping stack = some (st, true) ∧
        st.bottom.ctxt = none ∧
        st.log.count intr_event.free_ctxt =
          stack.log.count intr_event.free_ctxt + 1 ∧
        Match.on_popping st = some (st, true) ∧
        Match.ctxt_destroy st st.bottom.ctxt = st) ∧
    (∀ (stack : pcintr_stack Exit.ctxt_for_exit) (ctxt : Exit.ctxt_for_exit)
        (pos : pcvdom_node),
      stack.bottom.ctxt = some ctxt → stack.bottom.pos = some pos →
      ∃ st, Exit.on_popping stack = some (st, true) ∧
        st.bottom.ctxt = none ∧
        st.log.count intr_event.free_ctxt =
          stack.log.count intr_event.free_ctxt + 1 ∧
        Exit.on_popping st = some (st, true) ∧
        Exit.ctxt_destroy st st.bottom.ctxt = st) ∧
    (∀ (stack : pcintr_stack Sleep.ctxt_for_sleep)
        (ctxt : Sleep.ctxt_for_sleep) (pos : pcvdom_node),
      stack.bottom.ctxt = some ctxt → stack.bottom.pos = some pos →
      ∃ st, Sleep.on_popping stack = some (st, true) ∧
        st.bottom.ctxt = none ∧
        st.log.count intr_event.free_ctxt =
          stack.log.count intr_event.free_ctxt + 1 ∧
        Sleep.on_popping st = some (st, true) ∧
        Sleep.ctxt_destroy st st.bottom.ctxt = st) := by
  refine ⟨?_, ?_, ?_, ?_, ?_⟩
  · intro stack ctxt pos h1 h2
    simp [Test.on_popping, Test.ctxt_destroy, Test.ctxt_for_test_destroy,
      h1, h2]
  · intro stack ctxt pos h1 h2
    simp [Catch.on_popping, Catch.ctxt_destroy, Catch.ctxt_for_catch_destroy,
      h1, h2]
  · intro stack ctxt pos parent ancestors h1 h2 h3 h4
    by_cases h : (ctxt.is_exclusively && ctxt.matched) = true
    · simp [Match.on_popping, Match.ctxt_destroy,
        Match.ctxt_for_match_destroy, Match.set_parent,
        pcintr_stack_frame_get_parent, h1, h2, h3, h4, h]
    · simp [Match.on_popping, Match.ctxt_destroy,
        Match.ctxt_for_match_destroy, h1, h2, h]
  · intro stack ctxt pos h1 h2
    simp [Exit.on_popping, Exit.ctxt_destroy, Exit.ctxt_for_exit_destroy,
      h1, h2]
  · intro stack ctxt pos h1 h2
    cases ht : ctxt.timer <;>
      simp [Sleep.on_popping, Sleep.ctxt_destroy,
        Sleep.ctxt_for_sleep_destroy, pcintr_timer_destroy, h1, h2, ht]

/-- C14 at the sleep frame that has yielded on `<sleep with="2">`. -/
theorem on_popping_destroys_context_once_witness :
    ∃ st, Sleep.on_popping Sleep.yielded_sleep = some (st, true) ∧
      st.bottom.ctxt = none ∧
      st.log.count intr_event.free_ctxt =
        Sleep.yielded_sleep.log.count intr_event.free_ctxt + 1 ∧
      Sleep.on_popping st = some (st, true) ∧
      Sleep.ctxt_destroy st st.bottom.ctxt = st :=
  on_popping_destroys_context_once.2.2.2.2 Sleep.yielded_sleep
    { curr := none, «with» := some (purc_variant.longint 2), with_secs := 2,
      timer := some 0 }
    (Sleep.sleep_element (purc_variant.longint 2)) rfl rfl

theorem timer_modify_get (f : pcintr_timer → pcintr_timer) (n : Nat)
    (ts : List pcintr_timer) :
    (timer_modify f n ts)[n]? = (ts[n]?).map f := by
  induction ts generalizing n with
  | nil => cases n <;> rfl
  | cons t rest ih =>
    cases n with
    | zero => simp [timer_modify]
    | succ m => simpa [timer_modify] using ih m

namespace Sleep

/-- C15: a sleep frame whose context holds the handle `h` of a timer `t`
(it has yielded) is popped, or its context destroyed, before the timer
has fired.  `on_popping` destroys the timer with one call of
`pcintr_timer_destroy`, frees the context and clears `frame->ctxt`, with
the handle in it, so that a second `on_popping` or `ctxt_destroy` does
nothing; the destroyed timer cannot fire the continuation.  The
registered `ctxt_destroy` alone destroys the timer in the same way. -/
theorem sleep_pop_destroys_timer_once
    (stack : pcintr_stack ctxt_for_sleep) (ctxt : ctxt_for_sleep)
    (pos : pcvdom_node) (h : Nat) (t : pcintr_timer)
    (hctxt : stack.bottom.ctxt = some ctxt)
    (hpos : stack.bottom.pos = some pos)
    (htimer : ctxt.timer = some h)
    (hget : stack.timers[h]? = some t) :
    ∃ st, on_popping stack = some (st, true) ∧
      st.bottom.ctxt = none ∧
      st.log = stack.log ++
        [intr_event.destroy_timer h, intr_event.free_ctxt] ∧
      st.timers[h]? = some { t with destroyed := true } ∧
      pcintr_timer_may_fire { t with destroyed := true } = false ∧
      on_popping st = some (st, true) ∧
      ctxt_destroy st st.bottom.ctxt = st ∧
      (ctxt_destroy stack (some ctxt)).log = stack.log ++
        [intr_event.destroy_timer h, intr_event.free_ctxt] ∧
      (ctxt_destroy stack (some ctxt)).timers[h]? =
        some { t with destroyed := true } := by
  simp [on_popping, ctxt_destroy, ctxt_for_sleep_destroy,
    pcintr_timer_destroy, pcintr_timer_may_fire, timer_modify_get, hctxt,
    hpos, htimer, hget]

/-- C15 at the sleep frame that has yielded on `<sleep with="2">`, whose
timer of 2000 ms is started. -/
theorem sleep_pop_destroys_timer_once_witness :
    pcintr_timer_may_fire (two_second_timer false) = true ∧
    ∃ st, on_popping yielded_sleep = some (st, true) ∧
      st.bottom.ctxt = none ∧
      st.log = yielded_sleep.log ++
        [intr_event.destroy_timer 0, intr_event.free_ctxt] ∧
      st.timers[0]? = some (two_second_timer true) :=
  ⟨rfl, by
    obtain ⟨st, h1, h2, h3, h4, _⟩ := sleep_pop_destroys_timer_once
      yielded_sleep
      { curr := none, «with» := some (purc_variant.longint 2),
        with_secs := 2, timer := some 0 }
      (sleep_element (purc_variant.longint 2)) 0
      (two_second_timer false) rfl rfl rfl rfl
    exact ⟨st, h1, h2, h3, h4⟩⟩

end Sleep

namespace Runners

/-- A message that is not a `createCoroutine` request to the instance
with JSON data and a vDOM in it leaves the response void, and
`purc_schedule_vdom` is not called. -/
theorem dispatch_unserved (d : pcrdr_defs) (endpoint : String)
    (schedule : schedule_args → Option purc_atom_t) (msg : pcrdr_msg)
    (op : String) (response : pcrdr_msg)
    (hbad : msg.target ≠ pcrdr_msg_target.INSTANCE ∨
      op ≠ PCRUN_OPERATION_createCoroutine ∨
      msg.dataType ≠ pcrdr_msg_data_type.JSON ∨
      ∃ data, msg.data = some data ∧ decoded_vdom data = 0) :
    dispatch d endpoint schedule msg op response = some (response, none) := by
  unfold dispatch
  split
  · split
    · rename_i ht ho
      rcases hbad with h | h | h | ⟨data, h1, h2⟩
      · exact absurd ht h
      · exact absurd ho h
      · simp [create_coroutine, h]
      · by_cases hj : msg.dataType = pcrdr_msg_data_type.JSON
        · simp [create_coroutine, hj, h1, h2]
        · simp [create_coroutine, hj]
    · split <;> (try split) <;> (try split) <;> (try split) <;> rfl
  · split <;> (try split) <;> rfl

/-- The dispatch fails no assertion when a message with JSON data has
data, and the response it leaves is still void or is the response of a
created coroutine, with the request identifier of the message. -/
theorem dispatch_response (d : pcrdr_defs) (endpoint : String)
    (schedule : schedule_args → Option purc_atom_t) (msg : pcrdr_msg)
    (op : String)
    (hdata : msg.dataType = pcrdr_msg_data_type.JSON → msg.data ≠ none) :
    ∃ response scheduled,
      dispatch d endpoint schedule msg op pcrdr_make_void_message =
        some (response, scheduled) ∧
      (response = pcrdr_make_void_message ∨
        (response.type = pcrdr_msg_type.RESPONSE ∧
          response.requestId = msg.requestId ∧
          response.retCode = d.PCRDR_SC_OK ∧
          ∃ data cor, msg.target = pcrdr_msg_target.INSTANCE ∧
            op = PCRUN_OPERATION_createCoroutine ∧
            msg.data = some data ∧
            schedule (decoded_args data) = some cor ∧
            response.resultValue = cor ∧
            scheduled = some (decoded_args data))) := by
  by_cases hserve : msg.target = pcrdr_msg_target.INSTANCE ∧
      op = PCRUN_OPERATION_createCoroutine ∧
      msg.dataType = pcrdr_msg_data_type.JSON ∧
      ∃ data, msg.data = some data ∧ decoded_vdom data ≠ 0
  · obtain ⟨ht, ho, hj, data, hd, hv⟩ := hserve
    cases hs : schedule (decoded_args data) with
    | none =>
      exact ⟨_, some (decoded_args data),
        by simp [dispatch, create_coroutine, ht, ho, hj, hd, hv, hs],
        Or.inl rfl⟩
    | some cor =>
      refine ⟨{ pcrdr_make_void_message with
                type := pcrdr_msg_type.RESPONSE
                requestId := msg.requestId
                sourceURI := some (purc_variant.string endpoint)
                retCode := d.PCRDR_SC_OK
                resultValue := cor
                dataType := pcrdr_msg_data_type.VOID
                data := none }, some (decoded_args data),
        by simp [dispatch, create_coroutine, ht, ho, hj, hd, hv, hs],
        Or.inr ⟨rfl, rfl, rfl, data, cor, ht, ho, hd, hs, rfl, rfl⟩⟩
  · refine ⟨_, none, dispatch_unserved d endpoint schedule msg op _ ?_,
      Or.inl rfl⟩
    by_cases ht : msg.target = pcrdr_msg_target.INSTANCE
    · by_cases ho : op = PCRUN_OPERATION_createCoroutine
      · by_cases hj : msg.dataType = pcrdr_msg_data_type.JSON
        · right; right; right
          cases hd : msg.data with
          | none => exact absurd hd (hdata hj)
          | some data =>
            refine ⟨data, rfl, ?_⟩
            by_contra hv
            exact hserve ⟨ht, ho, hj, data, hd, hv⟩
        · exact Or.inr (Or.inr (Or.inl hj))
      · exact Or.inr (Or.inl ho)
    · exact Or.inl ht

/-- What the handler comes to for a request with a registered requester,
an operation and a request identifier, once the dispatch has left a
response: the response, made a bad-request response if it is still void,
is moved to the requester unless the identifier is the no-return one. -/
theorem inst_request_handler_answered (d : pcrdr_defs)
    (user_atoms : atom_table) (endpoint : String)
    (schedule : schedule_args → Option purc_atom_t) (msg : pcrdr_msg)
    (source_uri op rid : String) (response : pcrdr_msg)
    (scheduled : Option schedule_args)
    (hsrc : msg.sourceURI = some (purc_variant.string source_uri))
    (hreq : purc_atom_try_string user_atoms source_uri ≠ 0)
    (hop : msg.operation = some (purc_variant.string op))
    (hrid : msg.requestId = some (purc_variant.string rid))
    (hd : dispatch d endpoint schedule msg op pcrdr_make_void_message =
      some (response, scheduled)) :
    inst_request_handler d user_atoms endpoint schedule msg =
      handler_result.answered
        (if response.type = pcrdr_msg_type.VOID then
          bad_request_response d endpoint msg response else response)
        (if rid ≠ d.PCRDR_REQUESTID_NORETURN then
          some (purc_atom_try_string user_atoms source_uri) else none)
        scheduled := by
  simp only [inst_request_handler, hsrc, hop, hrid, Option.some_bind,
    purc_variant_get_string_const, hreq, if_false, hd]
  split <;> rfl

/-- C16, as the code behaves: a request without `sourceURI` gets no
response at all; the handler returns before it makes one. -/
theorem request_without_source_gets_no_response :
    inst_request_handler sample_defs sample_user_atoms sample_endpoint
      schedule_ok no_source_request = handler_result.dropped := by
  decide

/-- A request whose `sourceURI` is missing or is no text, or names no
registered requester, is dropped: the handler returns before it makes a
response, whatever the rest of the request is. -/
theorem inst_request_handler_dropped (d : pcrdr_defs)
    (user_atoms : atom_table) (endpoint : String)
    (schedule : schedule_args → Option purc_atom_t) (msg : pcrdr_msg)
    (h : msg.sourceURI.bind purc_variant_get_string_const = none ∨
      ∃ source_uri,
        msg.sourceURI.bind purc_variant_get_string_const = some source_uri ∧
        purc_atom_try_string user_atoms source_uri = 0) :
    inst_request_handler d user_atoms endpoint schedule msg =
      handler_result.dropped := by
  rcases h with h | ⟨source_uri, h1, h2⟩
  · simp only [inst_request_handler, h]
  · simp only [inst_request_handler, h1, h2, if_true]

/-- A `createCoroutine` request to the instance that is announced as JSON
and has no data fails `assert (msg->data)`: the handler makes no
response. -/
theorem create_coroutine_without_data_fails_assertion (d : pcrdr_defs)
    (user_atoms : atom_table) (endpoint : String)
    (schedule : schedule_args → Option purc_atom_t) (msg : pcrdr_msg)
    (source_uri : String)
    (hsrc : msg.sourceURI = some (purc_variant.string source_uri))
    (hreq : purc_atom_try_string user_atoms source_uri ≠ 0)
    (hop : msg.operation =
      some (purc_variant.string PCRUN_OPERATION_createCoroutine))
    (ht : msg.target = pcrdr_msg_target.INSTANCE)
    (hj : msg.dataType = pcrdr_msg_data_type.JSON)
    (hd : msg.data = none) :
    inst_request_handler d user_atoms endpoint schedule msg =
      handler_result.crashed := by
  simp [inst_request_handler, dispatch, create_coroutine, hsrc, hreq, hop,
    ht, hj, hd, purc_variant_get_string_const]

/-- C16, amended.  First, a request whose `sourceURI` names a registered
requester and whose operation and request identifier are texts, and that
cannot be served: its target is not the instance, or its operation is not
`createCoroutine`, or its data is not announced as JSON, or its JSON data
is there and holds no valid vDOM.  The handler makes a response with the
bad-request code, result value 0, void data and the request identifier of
the request, calls no `purc_schedule_vdom`, and moves the response to the
requester unless the identifier is the no-return one.  Second, a request
whose `sourceURI` is missing or is no text, or names no registered
requester: the handler drops it and makes no response. -/
theorem request_handler_answers_bad_request :
    (∀ (d : pcrdr_defs) (user_atoms : atom_table) (endpoint : String)
        (schedule : schedule_args → Option purc_atom_t) (msg : pcrdr_msg)
        (source_uri op rid : String),
      msg.sourceURI = some (purc_variant.string source_uri) →
      purc_atom_try_string user_atoms source_uri ≠ 0 →
      msg.operation = some (purc_variant.string op) →
      msg.requestId = some (purc_variant.string rid) →
      (msg.target ≠ pcrdr_msg_target.INSTANCE ∨
        op ≠ PCRUN_OPERATION_createCoroutine ∨
        msg.dataType ≠ pcrdr_msg_data_type.JSON ∨
        ∃ data, msg.data = some data ∧ decoded_vdom data = 0) →
      ∃ response,
        inst_request_handler d user_atoms endpoint schedule msg =
          handler_result.answered response
            (if rid ≠ d.PCRDR_REQUESTID_NORETURN then
              some (purc_atom_try_string user_atoms source_uri) else none)
            none ∧
        response.type = pcrdr_msg_type.RESPONSE ∧
        response.retCode = d.PCRDR_SC_BAD_REQUEST ∧
        response.resultValue = 0 ∧
        response.dataType = pcrdr_msg_data_type.VOID ∧
        response.data = none ∧
        response.requestId = msg.requestId) ∧
    (∀ (d : pcrdr_defs) (user_atoms : atom_table) (endpoint : String)
        (schedule : schedule_args → Option purc_atom_t) (msg : pcrdr_msg),
      (msg.sourceURI.bind purc_variant_get_string_const = none ∨
        ∃ source_uri,
          msg.sourceURI.bind purc_variant_get_string_const =
            some source_uri ∧
          purc_atom_try_string user_atoms source_uri = 0) →
      inst_request_handler d user_atoms endpoint schedule msg =
        handler_result.dropped) := by
  refine ⟨?_, inst_request_handler_dropped⟩
  intro d user_atoms endpoint schedule msg source_uri op rid hsrc hreq hop
    hrid hbad
  have hd := dispatch_unserved d endpoint schedule msg op
    pcrdr_make_void_message hbad
  refine ⟨bad_request_response d endpoint msg pcrdr_make_void_message,
    ?_, rfl, rfl, rfl, rfl, rfl, rfl⟩
  rw [inst_request_handler_answered d user_atoms endpoint schedule msg
    source_uri op rid _ _ hsrc hreq hop hrid hd]
  rfl

/-- C16, amended, at the request with the unknown operation
`frobnicate`, which is answered, and at the same request sent by a
requester that is not registered, which is dropped. -/
theorem request_handler_answers_bad_request_witness :
    (∃ response,
      inst_request_handler sample_defs sample_user_atoms sample_endpoint
        schedule_ok unknown_operation_request =
        handler_result.answered response
          (if "req-1" ≠ sample_defs.PCRDR_REQUESTID_NORETURN then
            some (purc_atom_try_string sample_user_atoms sample_requester)
            else none)
          none ∧
      response.type = pcrdr_msg_type.RESPONSE ∧
      response.retCode = sample_defs.PCRDR_SC_BAD_REQUEST ∧
      response.resultValue = 0 ∧
      response.dataType = pcrdr_msg_data_type.VOID ∧
      response.data = none ∧
      response.requestId = unknown_operation_request.requestId) ∧
    inst_request_handler sample_defs sample_user_atoms sample_endpoint
      schedule_ok unregistered_requester_request = handler_result.dropped :=
  ⟨request_handler_answers_bad_request.1 sample_defs sample_user_atoms
      sample_endpoint schedule_ok unknown_operation_request sample_requester
      "frobnicate" "req-1" rfl (by decide) rfl rfl
      (Or.inr (Or.inl (by decide))),
    request_handler_answers_bad_request.2 sample_defs sample_user_atoms
      sample_endpoint schedule_ok unregistered_requester_request
      (Or.inr ⟨"edpt://localhost/app/gone", rfl, by decide⟩)⟩

/-- C17: for a request that the handler answers (its `sourceURI` names a
registered requester, its operation and request identifier are texts, and
JSON data is there when announced), the response is moved to the
requester if and only if the request identifier is not the no-return
one; with the no-return identifier it is moved to nobody. -/
theorem request_handler_moves_unless_noreturn (d : pcrdr_defs)
    (user_atoms : atom_table) (endpoint : String)
    (schedule : schedule_args → Option purc_atom_t) (msg : pcrdr_msg)
    (source_uri op rid : String)
    (hsrc : msg.sourceURI = some (purc_variant.string source_uri))
    (hreq : purc_atom_try_string user_atoms source_uri ≠ 0)
    (hop : msg.operation = some (purc_variant.string op))
    (hrid : msg.requestId = some (purc_variant.string rid))
    (hdata : msg.dataType = pcrdr_msg_data_type.JSON → msg.data ≠ none) :
    ∃ response moved scheduled,
      inst_request_handler d user_atoms endpoint schedule msg =
        handler_result.answered response moved scheduled ∧
      (moved = some (purc_atom_try_string user_atoms source_uri) ↔
        rid ≠ d.PCRDR_REQUESTID_NORETURN) ∧
      (rid = d.PCRDR_REQUESTID_NORETURN → moved = none) := by
  obtain ⟨response, scheduled, hd, _⟩ :=
    dispatch_response d endpoint schedule msg op hdata
  refine ⟨_, _, _, inst_request_handler_answered d user_atoms endpoint
    schedule msg source_uri op rid _ _ hsrc hreq hop hrid hd, ?_, ?_⟩
  · by_cases hr : rid = d.PCRDR_REQUESTID_NORETURN <;> simp [hr]
  · intro hr
    simp [hr]

/-- C17 at the request with the unknown operation, once with its own
identifier and once with the no-return identifier. -/
theorem request_handler_moves_unless_noreturn_witness :
    (∃ response moved scheduled,
      inst_request_handler sample_defs sample_user_atoms sample_endpoint
        schedule_ok unknown_operation_request =
        handler_result.answered response moved scheduled ∧
      (moved = some (purc_atom_try_string sample_user_atoms
          sample_requester) ↔
        "req-1" ≠ sample_defs.PCRDR_REQUESTID_NORETURN) ∧
      ("req-1" = sample_defs.PCRDR_REQUESTID_NORETURN → moved = none)) ∧
    (∃ response moved scheduled,
      inst_request_handler sample_defs sample_user_atoms sample_endpoint
        schedule_ok
        { unknown_operation_request with
          requestId := some (purc_variant.string "-") } =
        handler_result.answered response moved scheduled ∧
      (moved = some (purc_atom_try_string sample_user_atoms
          sample_requester) ↔
        "-" ≠ sample_defs.PCRDR_REQUESTID_NORETURN) ∧
      ("-" = sample_defs.PCRDR_REQUESTID_NORETURN → moved = none)) :=
  ⟨request_handler_moves_unless_noreturn sample_defs sample_user_atoms
      sample_endpoint schedule_ok unknown_operation_request sample_requester
      "frobnicate" "req-1" rfl (by decide) rfl rfl (by decide),
   request_handler_moves_unless_noreturn sample_defs sample_user_atoms
      sample_endpoint schedule_ok
      { unknown_operation_request with
        requestId := some (purc_variant.string "-") }
      sample_requester "frobnicate" "-" rfl (by decide) rfl rfl (by decide)⟩

/-- C18: every response that the handler makes has the request
identifier of its request, for a bad request as for a created coroutine;
and when a `createCoroutine` request to the instance has JSON data with a
vDOM and `purc_schedule_vdom` creates the coroutine `cor`, the response
has the code OK and the result value `cor`. -/
theorem request_handler_correlates_response (d : pcrdr_defs)
    (user_atoms : atom_table) (endpoint : String)
    (schedule : schedule_args → Option purc_atom_t) (msg : pcrdr_msg)
    (source_uri op rid : String)
    (hsrc : msg.sourceURI = some (purc_variant.string source_uri))
    (hreq : purc_atom_try_string user_atoms source_uri ≠ 0)
    (hop : msg.operation = some (purc_variant.string op))
    (hrid : msg.requestId = some (purc_variant.string rid))
    (hdata : msg.dataType = pcrdr_msg_data_type.JSON → msg.data ≠ none) :
    ∃ response moved scheduled,
      inst_request_handler d user_atoms endpoint schedule msg =
        handler_result.answered response moved scheduled ∧
      response.type = pcrdr_msg_type.RESPONSE ∧
      response.requestId = msg.requestId ∧
      (response.retCode = d.PCRDR_SC_BAD_REQUEST ∧
          response.resultValue = 0 ∨
        response.retCode = d.PCRDR_SC_OK ∧
          ∃ data cor, msg.data = some data ∧
            schedule (decoded_args data) = some cor ∧
            response.resultValue = cor) ∧
      ∀ data cor, msg.target = pcrdr_msg_target.INSTANCE →
        op = PCRUN_OPERATION_createCoroutine →
        msg.dataType = pcrdr_msg_data_type.JSON →
        msg.data = some data → decoded_vdom data ≠ 0 →
        schedule (decoded_args data) = some cor →
        response.retCode = d.PCRDR_SC_OK ∧ response.resultValue = cor := by
  obtain ⟨response, scheduled, hd, hor⟩ :=
    dispatch_response d endpoint schedule msg op hdata
  have hans := inst_request_handler_answered d user_atoms endpoint
    schedule msg source_uri op rid _ _ hsrc hreq hop hrid hd
  rcases hor with hvoid | ⟨hty, hid, hok, data, cor, ht, ho, hdat, hs, hres, _⟩
  · subst hvoid
    refine ⟨_, _, _, hans, rfl, rfl, Or.inl ⟨rfl, rfl⟩, ?_⟩
    intro data cor ht ho hj hdat hv hs
    exfalso
    simp [dispatch, create_coroutine, ht, ho, hj, hdat, hv, hs,
      pcrdr_make_void_message] at hd
  · have hnv : ¬ response.type = pcrdr_msg_type.VOID := by
      rw [hty]; decide
    rw [if_neg hnv] at hans
    refine ⟨_, _, _, hans, hty, hid, Or.inr ⟨hok, data, cor, hdat, hs, hres⟩,
      ?_⟩
    intro data2 cor2 _ _ _ hd2 _ hs2
    rw [hdat] at hd2
    cases hd2
    rw [hs] at hs2
    cases hs2
    exact ⟨hok, hres⟩

/-- C18 at the `createCoroutine` request that `purc_inst_schedule_vdom`
builds for the sample payload: the response carries `req-2`, the code OK
and the coroutine 7. -/
theorem request_handler_correlates_response_witness :
    ∃ response moved scheduled,
      inst_request_handler sample_defs sample_user_atoms sample_endpoint
        schedule_ok
        (schedule_vdom_request sample_requester "req-2" 2 sample_payload) =
        handler_result.answered response moved scheduled ∧
      response.requestId = some (purc_variant.string "req-2") ∧
      response.retCode = sample_defs.PCRDR_SC_OK ∧
      response.resultValue = 7 := by
  obtain ⟨response, moved, scheduled, h1, _, h3, _, h5⟩ :=
    request_handler_correlates_response sample_defs sample_user_atoms
      sample_endpoint schedule_ok
      (schedule_vdom_request sample_requester "req-2" 2 sample_payload)
      sample_requester PCRUN_OPERATION_createCoroutine "req-2" rfl
      (by decide) rfl rfl (by decide)
  exact ⟨response, moved, scheduled, h1, h3,
    h5 sample_payload 7 rfl rfl rfl rfl (by decide) rfl⟩

/-- C19, as the code behaves: the payload built for
`sample_extra_info`, whose page groups are `group-1`, and for a null
target group has no `pageGroups` member, so `create_coroutine` hands
`purc_schedule_vdom` null page groups; and the target group that was
null arrives as a pointer that was never assigned. -/
theorem payload_loses_page_groups :
    sample_extra_info.page_groups = some "group-1" ∧
    purc_variant_object_get_by_ckey sample_payload "pageGroups" = none ∧
    inst_request_handler sample_defs sample_user_atoms sample_endpoint
      schedule_ok
      (schedule_vdom_request sample_requester "req-2" 2 sample_payload) =
      handler_result.answered
        { pcrdr_make_void_message with
          type := pcrdr_msg_type.RESPONSE
          requestId := some (purc_variant.string "req-2")
          sourceURI := some (purc_variant.string sample_endpoint)
          retCode := 200
          resultValue := 7 }
        (some 1) (some (decoded_args sample_payload)) ∧
    (decoded_args sample_payload).extra_info.page_groups = none ∧
    (decoded_args sample_payload).target_group = c_string.indeterminate := by
  decide

theorem lookup_none_of_no_key (data : object_data) (key : String)
    (h : ∀ p ∈ data, p.1 ≠ key) :
    purc_variant_object_get_by_ckey data key = none := by
  induction data with
  | nil => rfl
  | cons p rest ih =>
    obtain ⟨k, v⟩ := p
    have hb : (key == k) = false := by
      have hk : ¬ key = k :=
        fun e => h (k, v) (List.mem_cons_self _ _) e.symm
      simp [hk]
    have hrest := ih (fun q hq => h q (List.mem_cons_of_mem _ hq))
    simp only [purc_variant_object_get_by_ckey] at hrest ⊢
    simp [List.lookup, hb, hrest]

theorem no_key_append (l1 l2 : object_data) (key : String)
    (h1 : ∀ p ∈ l1, p.1 ≠ key) (h2 : ∀ p ∈ l2, p.1 ≠ key) :
    ∀ p ∈ l1 ++ l2, p.1 ≠ key := by
  intro p hp
  rcases List.mem_append.mp hp with h | h
  · exact h1 p h
  · exact h2 p h

theorem no_key_single (k key : String) (v : purc_variant) (h : k ≠ key) :
    ∀ p ∈ [(k, v)], p.1 ≠ key := by
  intro p hp
  rw [List.mem_singleton] at hp
  rw [hp]
  exact h

theorem no_key_string_entry (k key : String) (value : Option String)
    (h : k ≠ key) : ∀ p ∈ string_entry k value, p.1 ≠ key := by
  cases value with
  | none => intro p hp; simp [string_entry] at hp
  | some s => exact no_key_single k key _ h

theorem no_key_variant_entry (k key : String) (value : Option purc_variant)
    (h : k ≠ key) : ∀ p ∈ variant_entry k value, p.1 ≠ key := by
  cases value with
  | none => intro p hp; simp [variant_entry] at hp
  | some s => exact no_key_single k key _ h

/-- Whatever `purc_inst_schedule_vdom` is given, the payload it builds
has no `pageGroups` member, and `create_coroutine` hands null page
groups to `purc_schedule_vdom`. -/
theorem payload_never_has_page_groups (vdom : Nat) (curator : purc_atom_t)
    (request : Option purc_variant) (page_type : Nat)
    (target_workspace target_group page_name : Option String)
    (info : Option purc_renderer_extra_info) (body_id : Option String) :
    purc_variant_object_get_by_ckey
      (schedule_vdom_data vdom curator request page_type target_workspace
        target_group page_name info body_id) "pageGroups" = none ∧
    (decoded_args (schedule_vdom_data vdom curator request page_type
      target_workspace target_group page_name info body_id)
      ).extra_info.page_groups = none := by
  have hinfo : ∀ p : String × purc_variant, p ∈ (match info with
      | some i =>
        string_entry "class" i.klass ++ string_entry "title" i.title ++
          string_entry "layoutStyle" i.layout_style ++
          variant_entry "toolkitStyle" i.toolkit_style
      | none => []) → p.1 ≠ "pageGroups" := by
    cases info with
    | none => intro p hp; exact absurd hp (List.not_mem_nil _)
    | some i =>
      exact no_key_append _ _ _
        (no_key_append _ _ _
          (no_key_append _ _ _
            (no_key_string_entry "class" "pageGroups" _ (by decide))
            (no_key_string_entry "title" "pageGroups" _ (by decide)))
          (no_key_string_entry "layoutStyle" "pageGroups" _ (by decide)))
        (no_key_variant_entry "toolkitStyle" "pageGroups" _ (by decide))
  have hnone : purc_variant_object_get_by_ckey
      (schedule_vdom_data vdom curator request page_type target_workspace
        target_group page_name info body_id) "pageGroups" = none := by
    apply lookup_none_of_no_key
    unfold schedule_vdom_data
    exact no_key_append _ _ _
      (no_key_append _ _ _
        (no_key_append _ _ _
          (no_key_append _ _ _
            (no_key_append _ _ _
              (no_key_append _ _ _
                (no_key_append _ _ _
                  (no_key_append [_] [_] _
                    (no_key_single "vdom" "pageGroups" _ (by decide))
                    (no_key_single "curator" "pageGroups" _ (by decide)))
                  (no_key_variant_entry "request" "pageGroups" _
                    (by decide)))
                (no_key_single "pageType" "pageGroups" _ (by decide)))
              (no_key_string_entry "targetWorkspace" "pageGroups" _
                (by decide)))
            (no_key_string_entry "targetGroup" "pageGroups" _ (by decide)))
          (no_key_string_entry "pageName" "pageGroups" _ (by decide)))
        hinfo)
      (no_key_string_entry "bodyId" "pageGroups" _ (by decide))
  refine ⟨hnone, ?_⟩
  simp only [decoded_args, nullable_member, string_member, hnone]

theorem atom_lookup_append_new (tbl : atom_table) (s : String) (n : Nat)
    (hn : 0 < n) (h : atom_lookup tbl s n = 0) :
    atom_lookup (tbl ++ [s]) s n = n + tbl.length := by
  induction tbl generalizing n with
  | nil => simp [atom_lookup]
  | cons x xs ih =>
    unfold atom_lookup at h
    by_cases hx : x = s
    · rw [if_pos hx] at h
      omega
    · rw [if_neg hx] at h
      have h1 := ih (n + 1) (Nat.succ_pos n) h
      show atom_lookup (x :: (xs ++ [s])) s n = n + (x :: xs).length
      rw [atom_lookup, if_neg hx, h1, List.length_cons]
      omega

/-- Registering a string gives it an atom other than 0, which a later
lookup in the registry finds. -/
theorem purc_atom_from_string_registered (tbl : atom_table) (s : String) :
    (purc_atom_from_string tbl s).2 ≠ 0 ∧
    purc_atom_try_string (purc_atom_from_string tbl s).1 s =
      (purc_atom_from_string tbl s).2 := by
  unfold purc_atom_from_string
  split
  · rename_i h
    exact ⟨h, rfl⟩
  · rename_i h
    have h0 : atom_lookup tbl s 1 = 0 := by
      simpa [purc_atom_try_string] using h
    have h1 : purc_atom_try_string (tbl ++ [s]) s = 1 + tbl.length :=
      atom_lookup_append_new tbl s 1 Nat.one_pos h0
    refine ⟨?_, rfl⟩
    show purc_atom_try_string (tbl ++ [s]) s ≠ 0
    rw [h1]
    exact Nat.ne_of_gt (Nat.add_pos_left Nat.one_pos _)

/-- C20: `purc_inst_create_or_get` with valid names returns the atom of
an endpoint name that is registered without starting an instance; when a
call returns an atom other than 0, the next call with the same names
returns the same atom and starts nothing, the first call having started
one instance if the name was not registered and none otherwise; with an
invalid app or runner name it returns 0, records
`PURC_ERROR_INVALID_VALUE` and starts nothing. -/
theorem inst_create_or_get_starts_once (c : inst_collab) (st : inst_state)
    (app run : String) :
    (c.purc_is_valid_app_name app = true →
      c.purc_is_valid_runner_name run = true →
      purc_atom_try_string st.user_atoms
        (c.purc_assemble_endpoint_name app run) ≠ 0 →
      purc_inst_create_or_get c st app run =
        (st, purc_atom_try_string st.user_atoms
          (c.purc_assemble_endpoint_name app run))) ∧
    (c.purc_is_valid_app_name app = true →
      c.purc_is_valid_runner_name run = true →
      (purc_inst_create_or_get c st app run).2 ≠ 0 →
      purc_inst_create_or_get c (purc_inst_create_or_get c st app run).1
          app run =
        purc_inst_create_or_get c st app run ∧
      (purc_atom_try_string st.user_atoms
          (c.purc_assemble_endpoint_name app run) = 0 →
        (purc_inst_create_or_get c st app run).1.started =
          st.started ++ [(app, run)])) ∧
    (c.purc_is_valid_app_name app = false ∨
        c.purc_is_valid_runner_name run = false →
      purc_inst_create_or_get c st app run =
        ({ st with last_error := PURC_ERROR_INVALID_VALUE }, 0)) := by
  refine ⟨?_, ?_, ?_⟩
  · intro ha hr hreg
    simp [purc_inst_create_or_get, ha, hr, hreg]
  · intro ha hr hne
    by_cases hreg : purc_atom_try_string st.user_atoms
        (c.purc_assemble_endpoint_name app run) = 0
    · have hfirst : purc_inst_create_or_get c st app run =
          start_instance c st app run := by
        simp [purc_inst_create_or_get, ha, hr, hreg]
      rw [hfirst] at hne ⊢
      obtain ⟨hreg1, hreg2⟩ := purc_atom_from_string_registered
        st.user_atoms (c.purc_assemble_endpoint_name app run)
      by_cases hsem : c.sem_open_ok = true
      · by_cases hth : c.pthread_create_ok = true
        · by_cases hinit : c.purc_init_ok = true
          · by_cases hmb : c.move_buffer_ok = true
            · have hstart : start_instance c st app run =
                  ({ st with
                      started := st.started ++ [(app, run)],
                      user_atoms := (purc_atom_from_string st.user_atoms
                        (c.purc_assemble_endpoint_name app run)).1 },
                    (purc_atom_from_string st.user_atoms
                      (c.purc_assemble_endpoint_name app run)).2) := by
                simp [start_instance, general_instance_entry, hsem, hth,
                  hinit, hmb]
              rw [hstart]
              refine ⟨?_, fun _ => rfl⟩
              simp [purc_inst_create_or_get, ha, hr, hreg1, hreg2]
            · simp [start_instance, general_instance_entry, hsem, hth,
                hinit, hmb] at hne
          · simp [start_instance, general_instance_entry, hsem, hth,
              hinit] at hne
        · simp [start_instance, hsem, hth] at hne
      · simp [start_instance, hsem] at hne
    · have hfirst : purc_inst_create_or_get c st app run =
          (st, purc_atom_try_string st.user_atoms
            (c.purc_assemble_endpoint_name app run)) := by
        simp [purc_inst_create_or_get, ha, hr, hreg]
      rw [hfirst]
      exact ⟨hfirst, fun h => absurd h hreg⟩
  · intro h
    rcases h with h | h <;> simp [purc_inst_create_or_get, h]

/-- C20 at the app `app` and the runner `worker`, not yet registered:
the first call starts the instance and returns the atom 2, and so does
the second call, without starting another. -/
theorem inst_create_or_get_starts_once_witness :
    (purc_inst_create_or_get sample_inst_collab sample_inst_state
      "app" "worker").2 = 2 ∧
    purc_inst_create_or_get sample_inst_collab
        (purc_inst_create_or_get sample_inst_collab sample_inst_state
          "app" "worker").1 "app" "worker" =
      purc_inst_create_or_get sample_inst_collab sample_inst_state
        "app" "worker" ∧
    (purc_inst_create_or_get sample_inst_collab sample_inst_state
      "app" "worker").1.started = [] ++ [("app", "worker")] :=
  ⟨by decide,
   ((inst_create_or_get_starts_once sample_inst_collab sample_inst_state
      "app" "worker").2.1 (by decide) (by decide) (by decide)).1,
   ((inst_create_or_get_starts_once sample_inst_collab sample_inst_state
      "app" "worker").2.1 (by decide) (by decide) (by decide)).2
      (by decide)⟩

end Runners

/-! ## The cached powers of ten -/

namespace Diyfp

theorem nearest_power_of_ten_rat (e : pchtml_diyfp_cpe_t)
    (h : nearest_power_of_ten e = true) :
    |(e.significand : ℚ) * (2 : ℚ) ^ e.bin_exp - (10 : ℚ) ^ e.dec_exp| ≤
      (2 : ℚ) ^ (e.bin_exp - 1) := by
  simp only [nearest_power_of_ten, Bool.and_eq_true, decide_eq_true_eq] at h
  obtain ⟨h1, h2⟩ := h
  have hb : e.bin_exp = (e.bin_exp.toNat : Int) - ((-e.bin_exp).toNat : Int) :=
    (Int.toNat_sub_toNat_neg e.bin_exp).symm
  have hd : e.dec_exp = (e.dec_exp.toNat : Int) - ((-e.dec_exp).toNat : Int) :=
    (Int.toNat_sub_toNat_neg e.dec_exp).symm
  generalize e.bin_exp.toNat = pb at h1 h2 hb
  generalize (-e.bin_exp).toNat = nb at h1 h2 hb
  generalize e.dec_exp.toNat = pd at h1 h2 hd
  generalize (-e.dec_exp).toNat = nd at h1 h2 hd
  have e1 : (2 : ℚ) ^ e.bin_exp = (2 : ℚ) ^ pb / (2 : ℚ) ^ nb := by
    rw [hb, zpow_sub₀ (by norm_num), zpow_natCast, zpow_natCast]
  have e2 : (10 : ℚ) ^ e.dec_exp = (10 : ℚ) ^ pd / (10 : ℚ) ^ nd := by
    rw [hd, zpow_sub₀ (by norm_num), zpow_natCast, zpow_natCast]
  have e3 : (2 : ℚ) ^ (e.bin_exp - 1) = (2 : ℚ) ^ pb / ((2 : ℚ) ^ nb * 2) := by
    rw [zpow_sub₀ (by norm_num), e1, zpow_one, div_div]
  have q1 : (2 * (e.significand : ℚ) * 2 ^ pb * 10 ^ nd) ≤
      2 * 2 ^ nb * 10 ^ pd + 2 ^ pb * 10 ^ nd := by exact_mod_cast h1
  have q2 : (2 * (2 : ℚ) ^ nb * 10 ^ pd) ≤
      2 * (e.significand : ℚ) * 2 ^ pb * 10 ^ nd + 2 ^ pb * 10 ^ nd := by
    exact_mod_cast h2
  have pA : (0 : ℚ) < 2 ^ pb := by positivity
  have pB : (0 : ℚ) < 2 ^ nb := by positivity
  have pC : (0 : ℚ) < 10 ^ pd := by positivity
  have pD : (0 : ℚ) < 10 ^ nd := by positivity
  rw [e1, e2, e3]
  generalize (2 : ℚ) ^ pb = A at *
  generalize (2 : ℚ) ^ nb = B at *
  generalize (10 : ℚ) ^ pd = C at *
  generalize (10 : ℚ) ^ nd = D at *
  generalize (e.significand : ℚ) = S at *
  have k1 : S * (A / B) - C / D = (2 * S * A * D - 2 * B * C) / (2 * B * D) := by
    field_simp
    ring
  have k2 : A / (B * 2) = (A * D) / (2 * B * D) := by
    field_simp
    ring
  have pBD : (0 : ℚ) < 2 * B * D := by positivity
  rw [k1, k2, abs_div, abs_of_pos pBD, div_le_div_iff_of_pos_right pBD, abs_le]
  constructor <;> linarith

theorem entries_checked_get : ∀ (l : List pchtml_diyfp_cpe_t) (i : Nat),
    entries_checked l i = true → ∀ j : Fin l.length,
      entry_checked (i + j.val) (l.get j) = true
  | [], _, _, j => absurd j.isLt (Nat.not_lt_zero _)
  | e :: rest, i, h, ⟨0, _⟩ => by
    simp only [entries_checked, Bool.and_eq_true] at h
    simpa using h.1
  | e :: rest, i, h, ⟨j + 1, hj⟩ => by
    simp only [entries_checked, Bool.and_eq_true] at h
    have := entries_checked_get rest (i + 1) h.2 ⟨j, Nat.lt_of_succ_lt_succ hj⟩
    simpa [Nat.add_assoc, Nat.add_comm 1 j] using this

set_option maxRecDepth 1000000 in
set_option exponentiation.threshold 2000 in
theorem table_checked : entries_checked pchtml_cached_powers 0 = true := by
  decide

theorem pchtml_cached_powers_length : pchtml_cached_powers.length = 87 := by
  decide

/-- C30: the table of cached powers of ten has 87 entries, and the entry
at every index `i` has the decimal exponent `-348 + 8 * i`, a significand
with `2 ^ 63 ≤ significand < 2 ^ 64`, and `significand * 2 ^ bin_exp`
within half a unit of the last place, `2 ^ (bin_exp - 1)`, of
`10 ^ dec_exp`, in exact rational arithmetic. -/
theorem cached_powers_are_nearest_powers_of_ten :
    pchtml_cached_powers.length = 87 ∧
    ∀ i : Fin pchtml_cached_powers.length,
      (pchtml_cached_powers.get i).dec_exp = -348 + 8 * (i.val : Int) ∧
      2 ^ 63 ≤ (pchtml_cached_powers.get i).significand ∧
      (pchtml_cached_powers.get i).significand < 2 ^ 64 ∧
      |((pchtml_cached_powers.get i).significand : ℚ) *
            (2 : ℚ) ^ (pchtml_cached_powers.get i).bin_exp -
          (10 : ℚ) ^ (pchtml_cached_powers.get i).dec_exp| ≤
        (2 : ℚ) ^ ((pchtml_cached_powers.get i).bin_exp - 1) := by
  refine ⟨pchtml_cached_powers_length, fun i => ?_⟩
  have h := entries_checked_get _ 0 table_checked i
  simp only [entry_checked, Bool.and_eq_true, decide_eq_true_eq,
    Nat.zero_add] at h
  exact ⟨h.1.1.1, h.1.1.2, h.1.2, nearest_power_of_ten_rat _ h.2⟩

end Diyfp

/-! ## The system object -/

namespace System

set_option maxRecDepth 100000 in
theorem initialised_eq :
    initialised =
      (keywords,
       [1, 2, 3, 4, 5, 6, 7, 8, 9, 10, 11, 12, 13, 14, 15, 16, 17, 18, 19,
        20, 21, 22, 23, 24, 25, 26, 27, 28, 29]) := by
  decide

theorem atom_of_all : purc_atom_try_string keywords "all" = 8 := by
  decide

/-- C26: with the keyword atoms initialised, the const getter asked for
the interned keyword `all` returns the constant `HVML_INTRPR_RELEASE`
and sets no error, whether silently or not. -/
theorem const_getter_all_returns_release (v : version_defs)
    (silently : Bool) :
    const_getter v initialised.1 initialised.2
        [purc_variant.string "all"] silently =
      { retv := some (purc_variant.string v.HVML_INTRPR_RELEASE),
        error := none } := by
  rw [initialised_eq]
  simp only [const_getter, purc_variant_get_string_const, atom_of_all]
  rfl

/-- C27: for every integer `s` that the cast yields, `cast_to_timeval`
leaves `tv_sec` as it was and `tv_usec` 0, and the time setter, which
starts from a zeroed time value, sets the clock to 0 seconds. -/
theorem time_setter_sets_clock_to_zero (s : Int) (tv : timeval)
    (access_denied : Nat) (st : sys_state) (silently : Bool) :
    cast_to_timeval (fun _ => some s) tv (purc_variant.longint s) =
      ({ tv_sec := tv.tv_sec, tv_usec := 0 }, none) ∧
    time_setter access_denied (fun _ => some s) (fun _ => none) st
        [purc_variant.longint s] silently =
      ({ clock := { tv_sec := 0, tv_usec := 0 },
         events := st.events ++ ["change:time"] },
       { retv := some (purc_variant.boolean true), error := none }) := by
  exact ⟨rfl, rfl⟩

theorem random_sequence_getter_of_length (g : Nat → getrandom_result)
    (n : Nat) (arg : purc_variant) (silently : Bool)
    (h1 : 1 ≤ n) (h2 : n ≤ 256) (hg : 0 ≤ (g 256).ret) :
    random_sequence_getter (fun _ => some n) g [arg] silently =
      returned (purc_variant.bsequence ((g 256).buf.take (g 256).ret.toNat)) := by
  have e1 : ¬ (n = 0 ∨ n > 256) := by omega
  simp [random_sequence_getter, e1, not_lt.mpr hg]

/-- C28: asked for 16 bytes, with a system call that fills the buffer it
is given, the random_sequence getter returns a byte sequence of 256
bytes. -/
theorem random_sequence_getter_ignores_length :
    random_sequence_getter (fun _ => some 16) getrandom_full
        [purc_variant.ulongint 16] false =
      { retv := some (purc_variant.bsequence (List.replicate 256 0)),
        error := none } := by
  rw [random_sequence_getter_of_length getrandom_full 16 _ false (by omega)
    (by omega) (Int.ofNat_nonneg 256)]
  simp only [getrandom_full, returned, Int.toNat_ofNat, List.take_replicate,
    Nat.min_self]

end System

/-! ## The headless renderer -/

namespace Headless

/-- C29: with no pending request and a timeout of 1000 milliseconds,
`my_wait_message` returns 0 without a call of a sleep function. -/
theorem my_wait_message_1000_does_not_sleep :
    my_wait_message true 1000 = (0, []) ∧
    slept_usec (my_wait_message true 1000).2 = 0 := by
  decide

end Headless

namespace Headless

theorem my_wait_message_other_timeouts (t : Int) (h0 : 0 ≤ t)
    (h : t ≠ 1000) :
    (my_wait_message true t).1 = 0 ∧
    (slept_usec (my_wait_message true t).2 : Int) = t * 1000 := by
  have hd : Int.tdiv t 1000 = t / 1000 := Int.tdiv_eq_ediv h0 (by norm_num)
  have hm : Int.tmod t 1000 = t % 1000 := Int.tmod_eq_emod h0 (by norm_num)
  refine ⟨rfl, ?_⟩
  simp only [my_wait_message, if_true, hd, hm]
  by_cases c1 : t > 1000
  · have c2 : t > 0 := by omega
    by_cases c3 : (t % 1000).toNat ≠ 0
    · simp only [c1, c2, c3, if_true, List.singleton_append, slept_usec,
        ne_eq, not_false_eq_true]
      push_cast
      omega
    · simp only [c1, c2, c3, if_true, if_false, List.append_nil, slept_usec]
      push_cast
      omega
  · by_cases c2 : t > 0
    · by_cases c3 : (t % 1000).toNat ≠ 0
      · simp only [c1, c2, c3, if_true, if_false, List.nil_append, slept_usec,
          ne_eq, not_false_eq_true]
        push_cast
        omega
      · exfalso
        omega
    · simp only [c1, c2, if_false, List.append_nil, slept_usec]
      push_cast
      omega

end Headless

/-! ## The control operations -/

namespace Runners

/-- C21, as the code behaves: a well-formed request to the instance for
`killCoroutine` is answered with the bad-request response, which is moved
to the requester; nothing is scheduled. -/
theorem kill_coroutine_answered_bad_request :
    inst_request_handler sample_defs sample_user_atoms sample_endpoint
        schedule_ok kill_coroutine_request =
      handler_result.answered
        (bad_request_response sample_defs sample_endpoint
          kill_coroutine_request pcrdr_make_void_message)
        (some (purc_atom_try_string sample_user_atoms sample_requester))
        none ∧
    (bad_request_response sample_defs sample_endpoint
      kill_coroutine_request pcrdr_make_void_message).retCode =
        sample_defs.PCRDR_SC_BAD_REQUEST := by
  decide

/-- C21, amended: of the control operations only `createCoroutine` is
served.  A request whose `sourceURI` names a registered requester and
whose request identifier is a text, sent to the instance for
`killCoroutine`, `pauseCoroutine`, `resumeCoroutine` or
`shutdownInstance`, or sent to a coroutine for `callMethod`, reaches the
branch of its name, which performs nothing; the request is answered with
the bad-request response (bad-request code, result value 0, void data,
the request identifier of the request), moved to the requester unless the
identifier is the no-return one, and nothing is scheduled. -/
theorem control_operations_not_implemented (d : pcrdr_defs)
    (user_atoms : atom_table) (endpoint : String)
    (schedule : schedule_args → Option purc_atom_t) (msg : pcrdr_msg)
    (source_uri op rid : String)
    (hsrc : msg.sourceURI = some (purc_variant.string source_uri))
    (hreq : purc_atom_try_string user_atoms source_uri ≠ 0)
    (hop : msg.operation = some (purc_variant.string op))
    (hrid : msg.requestId = some (purc_variant.string rid))
    (hctl : (msg.target = pcrdr_msg_target.INSTANCE ∧
        (op = PCRUN_OPERATION_killCoroutine ∨
          op = PCRUN_OPERATION_pauseCoroutine ∨
          op = PCRUN_OPERATION_resumeCoroutine ∨
          op = PCRUN_OPERATION_shutdownInstance)) ∨
      (msg.target = pcrdr_msg_target.COROUTINE ∧
        op = PCRDR_OPERATION_CALLMETHOD)) :
    inst_request_handler d user_atoms endpoint schedule msg =
      handler_result.answered
        (bad_request_response d endpoint msg pcrdr_make_void_message)
        (if rid ≠ d.PCRDR_REQUESTID_NORETURN then
          some (purc_atom_try_string user_atoms source_uri) else none)
        none ∧
    (bad_request_response d endpoint msg pcrdr_make_void_message).type =
      pcrdr_msg_type.RESPONSE ∧
    (bad_request_response d endpoint msg pcrdr_make_void_message).retCode =
      d.PCRDR_SC_BAD_REQUEST ∧
    (bad_request_response d endpoint msg pcrdr_make_void_message).resultValue
      = 0 ∧
    (bad_request_response d endpoint msg pcrdr_make_void_message).dataType =
      pcrdr_msg_data_type.VOID ∧
    (bad_request_response d endpoint msg pcrdr_make_void_message).requestId =
      msg.requestId := by
  have hbad : msg.target ≠ pcrdr_msg_target.INSTANCE ∨
      op ≠ PCRUN_OPERATION_createCoroutine ∨
      msg.dataType ≠ pcrdr_msg_data_type.JSON ∨
      ∃ data, msg.data = some data ∧ decoded_vdom data = 0 := by
    rcases hctl with ⟨_, h | h | h | h⟩ | ⟨ht, _⟩
    · exact Or.inr (Or.inl (by rw [h]; decide))
    · exact Or.inr (Or.inl (by rw [h]; decide))
    · exact Or.inr (Or.inl (by rw [h]; decide))
    · exact Or.inr (Or.inl (by rw [h]; decide))
    · exact Or.inl (by rw [ht]; decide)
  have hd := dispatch_unserved d endpoint schedule msg op
    pcrdr_make_void_message hbad
  refine ⟨?_, rfl, rfl, rfl, rfl, rfl⟩
  rw [inst_request_handler_answered d user_atoms endpoint schedule msg
    source_uri op rid _ _ hsrc hreq hop hrid hd]
  rfl

/-- C21, amended, at a request to a coroutine for `callMethod`. -/
theorem control_operations_not_implemented_witness :
    inst_request_handler sample_defs sample_user_atoms sample_endpoint
        schedule_ok call_method_request =
      handler_result.answered
        (bad_request_response sample_defs sample_endpoint
          call_method_request pcrdr_make_void_message)
        (if "req-1" ≠ sample_defs.PCRDR_REQUESTID_NORETURN then
          some (purc_atom_try_string sample_user_atoms sample_requester)
          else none)
        none ∧
    (bad_request_response sample_defs sample_endpoint call_method_request
      pcrdr_make_void_message).type = pcrdr_msg_type.RESPONSE ∧
    (bad_request_response sample_defs sample_endpoint call_method_request
      pcrdr_make_void_message).retCode = sample_defs.PCRDR_SC_BAD_REQUEST ∧
    (bad_request_response sample_defs sample_endpoint call_method_request
      pcrdr_make_void_message).resultValue = 0 ∧
    (bad_request_response sample_defs sample_endpoint call_method_request
      pcrdr_make_void_message).dataType = pcrdr_msg_data_type.VOID ∧
    (bad_request_response sample_defs sample_endpoint call_method_request
      pcrdr_make_void_message).requestId = call_method_request.requestId :=
  control_operations_not_implemented sample_defs sample_user_atoms
    sample_endpoint schedule_ok call_method_request sample_requester
    PCRDR_OPERATION_CALLMETHOD "req-1" rfl (by decide) rfl rfl
    (Or.inr ⟨rfl, rfl⟩)

end Runners

/-! ## Child selection after the children are exhausted -/

namespace Test

theorem test_select_loop_first_element (rest : List pcvdom_node) :
    ∀ (s : pcintr_stack ctxt_for_test) (c : ctxt_for_test) (idx : Nat),
      s.except = false → (∀ n ∈ rest, is_document n = false) →
      (select_loop s c rest idx).2 =
        select_result.ret (rest.filter pcvdom_node.is_element).head? ∧
      (select_loop s c rest idx).1.except = false ∧
      (select_loop s c rest idx).1.bottom.pos = s.bottom.pos ∧
      (rest.filter pcvdom_node.is_element = [] →
        (select_loop s c rest idx).1.bottom.ctxt =
          some { c with curr := none }) := by
  induction rest with
  | nil =>
    intro s c idx hexc _
    exact ⟨rfl, hexc, rfl, fun _ => rfl⟩
  | cons node rest ih =>
    intro s c idx hexc hdoc
    have hdoc1 : ∀ n ∈ rest, is_document n = false :=
      fun n hn => hdoc n (List.mem_cons_of_mem _ hn)
    cases node with
    | document cs =>
      have := hdoc (pcvdom_node.document cs) (List.mem_cons_self _ _)
      simp [is_document] at this
    | content t =>
      obtain ⟨h1, h2, h3, h4⟩ := ih
        { s with
          bottom := { s.bottom with ctxt := some { c with curr := some idx } },
          log := s.log ++ [intr_event.on_content idx] }
        { c with curr := some idx } (idx + 1) hexc hdoc1
      simp only [select_loop, List.filter_cons, pcvdom_node.is_element,
        Bool.false_eq_true, if_false]
      exact ⟨h1, h2, h3, h4⟩
    | comment t =>
      obtain ⟨h1, h2, h3, h4⟩ := ih
        { s with
          bottom := { s.bottom with ctxt := some { c with curr := some idx } },
          log := s.log ++ [intr_event.on_comment idx] }
        { c with curr := some idx } (idx + 1) hexc hdoc1
      simp only [select_loop, List.filter_cons, pcvdom_node.is_element,
        Bool.false_eq_true, if_false]
      exact ⟨h1, h2, h3, h4⟩
    | element tag attrs cs =>
      simp [select_loop, hexc, pcvdom_node.is_element]

theorem test_select_child_restarts (stack : pcintr_stack ctxt_for_test)
    (ctxt : ctxt_for_test) (pos : pcvdom_node)
    (hctxt : stack.bottom.ctxt = some ctxt)
    (hpos : stack.bottom.pos = some pos)
    (hexc : stack.except = false)
    (hdoc : ∀ n ∈ pos.children, is_document n = false)
    (hnull : (select_child stack).2 = select_result.ret none) :
    (select_child (select_child stack).1).2 =
      select_result.ret (pos.children.filter pcvdom_node.is_element).head? := by
  have hsc : ∀ start, (∀ n ∈ pos.children.drop start, is_document n = false) :=
    fun start n hn => hdoc n (List.mem_of_mem_drop hn)
  simp only [select_child, hctxt, frame_children, hpos] at hnull ⊢
  generalize hstart : (match ctxt.curr with
    | none => 0
    | some i => i + 1) = start at hnull ⊢
  obtain ⟨h1, h2, h3, h4⟩ := test_select_loop_first_element
    (pos.children.drop start) stack ctxt start hexc (hsc start)
  rw [h1] at hnull
  have hnil : (pos.children.drop start).filter pcvdom_node.is_element = [] := by
    cases hf : (pos.children.drop start).filter pcvdom_node.is_element with
    | nil => rfl
    | cons a l => rw [hf] at hnull; simp at hnull
  rw [h4 hnil]
  simp only [h3, hpos, List.drop_zero]
  exact (test_select_loop_first_element pos.children _ _ 0 h2 hdoc).1

end Test

namespace Catch

theorem catch_select_loop_first_element (rest : List pcvdom_node) :
    ∀ (s : pcintr_stack ctxt_for_catch) (c : ctxt_for_catch) (idx : Nat),
      s.except = false → (∀ n ∈ rest, Test.is_document n = false) →
      (select_loop s c rest idx).2 =
        select_result.ret (rest.filter pcvdom_node.is_element).head? ∧
      (select_loop s c rest idx).1.except = false ∧
      (select_loop s c rest idx).1.bottom.pos = s.bottom.pos ∧
      (rest.filter pcvdom_node.is_element = [] →
        (select_loop s c rest idx).1.bottom.ctxt =
          some { c with curr := none }) := by
  induction rest with
  | nil =>
    intro s c idx hexc _
    exact ⟨rfl, hexc, rfl, fun _ => rfl⟩
  | cons node rest ih =>
    intro s c idx hexc hdoc
    have hdoc1 : ∀ n ∈ rest, Test.is_document n = false :=
      fun n hn => hdoc n (List.mem_cons_of_mem _ hn)
    cases node with
    | document cs =>
      have := hdoc (pcvdom_node.document cs) (List.mem_cons_self _ _)
      simp [Test.is_document] at this
    | content t =>
      obtain ⟨h1, h2, h3, h4⟩ := ih
        { s with
          bottom := { s.bottom with ctxt := some { c with curr := some idx } },
          log := s.log ++ [intr_event.on_content idx] }
        { c with curr := some idx } (idx + 1) hexc hdoc1
      simp only [select_loop, List.filter_cons, pcvdom_node.is_element,
        Bool.false_eq_true, if_false]
      exact ⟨h1, h2, h3, h4⟩
    | comment t =>
      obtain ⟨h1, h2, h3, h4⟩ := ih
        { s with
          bottom := { s.bottom with ctxt := some { c with curr := some idx } },
          log := s.log ++ [intr_event.on_comment idx] }
        { c with curr := some idx } (idx + 1) hexc hdoc1
      simp only [select_loop, List.filter_cons, pcvdom_node.is_element,
        Bool.false_eq_true, if_false]
      exact ⟨h1, h2, h3, h4⟩
    | element tag attrs cs =>
      simp [select_loop, hexc, pcvdom_node.is_element]

theorem catch_select_child_restarts (stack : pcintr_stack ctxt_for_catch)
    (ctxt : ctxt_for_catch) (pos : pcvdom_node)
    (hctxt : stack.bottom.ctxt = some ctxt)
    (hmatch : ctxt.«match» = true)
    (hpos : stack.bottom.pos = some pos)
    (hexc : stack.except = false)
    (hdoc : ∀ n ∈ pos.children, Test.is_document n = false)
    (hnull : (select_child stack).2 = select_result.ret none) :
    (select_child (select_child stack).1).2 =
      select_result.ret (pos.children.filter pcvdom_node.is_element).head? := by
  have hsc : ∀ start,
      (∀ n ∈ pos.children.drop start, Test.is_document n = false) :=
    fun start n hn => hdoc n (List.mem_of_mem_drop hn)
  simp only [select_child, hctxt, hmatch, Bool.not_true, Bool.false_eq_true,
    if_false, frame_children, hpos] at hnull ⊢
  generalize hstart : (match ctxt.curr with
    | none => 0
    | some i => i + 1) = start at hnull ⊢
  obtain ⟨h1, h2, h3, h4⟩ := catch_select_loop_first_element
    (pos.children.drop start) stack ctxt start hexc (hsc start)
  rw [h1] at hnull
  have hnil : (pos.children.drop start).filter pcvdom_node.is_element = [] := by
    cases hf : (pos.children.drop start).filter pcvdom_node.is_element with
    | nil => rfl
    | cons a l => rw [hf] at hnull; simp at hnull
  rw [h4 hnil]
  simp only [hmatch, Bool.not_true, Bool.false_eq_true, if_false, h3, hpos,
    List.drop_zero]
  exact (catch_select_loop_first_element pos.children _ _ 0 h2 hdoc).1

end Catch

/-- C25, as the code behaves: on the test frame of `<test on=1>` with a
text, an element, a comment and another element, the first two calls of
`select_child` return the two elements, the third returns null, and the
fourth returns the first element again. -/
theorem test_select_child_returns_child_again :
    (Test.select_child (Test.after_calls 0)).2 =
      select_result.ret
        (some (pcvdom_node.element (pchvml_tag.OTHER 1) [] [])) ∧
    (Test.select_child (Test.after_calls 1)).2 =
      select_result.ret
        (some (pcvdom_node.element (pchvml_tag.OTHER 2) [] [])) ∧
    (Test.select_child (Test.after_calls 2)).2 = select_result.ret none ∧
    (Test.select_child (Test.after_calls 3)).2 =
      select_result.ret
        (some (pcvdom_node.element (pchvml_tag.OTHER 1) [] [])) :=
  ⟨rfl, rfl, rfl, rfl⟩

/-- C25, amended: on a test frame, and on a catch frame that matched,
without pending exception and without Document children, a `select_child`
call that returns null because the children are exhausted resets the
cursor, so the next call on the same frame starts over: it returns the
first Element child of the position again, and null only when the
position has no Element child. -/
theorem select_child_starts_over_after_null :
    (∀ (stack : pcintr_stack Test.ctxt_for_test) (ctxt : Test.ctxt_for_test)
        (pos : pcvdom_node),
      stack.bottom.ctxt = some ctxt → stack.bottom.pos = some pos →
      stack.except = false →
      (∀ n ∈ pos.children, Test.is_document n = false) →
      (Test.select_child stack).2 = select_result.ret none →
      (Test.select_child (Test.select_child stack).1).2 =
        select_result.ret
          (pos.children.filter pcvdom_node.is_element).head?) ∧
    (∀ (stack : pcintr_stack Catch.ctxt_for_catch)
        (ctxt : Catch.ctxt_for_catch) (pos : pcvdom_node),
      stack.bottom.ctxt = some ctxt → ctxt.«match» = true →
      stack.bottom.pos = some pos → stack.except = false →
      (∀ n ∈ pos.children, Test.is_document n = false) →
      (Catch.select_child stack).2 = select_result.ret none →
      (Catch.select_child (Catch.select_child stack).1).2 =
        select_result.ret
          (pos.children.filter pcvdom_node.is_element).head?) :=
  ⟨fun stack ctxt pos h1 h2 h3 h4 h5 =>
      Test.test_select_child_restarts stack ctxt pos h1 h2 h3 h4 h5,
   fun stack ctxt pos h1 h2 h3 h4 h5 h6 =>
      Catch.catch_select_child_restarts stack ctxt pos h1 h2 h3 h4 h5 h6⟩


/-- C25, amended, at the catch frame that matched on `<catch>` with a
text, an element, a comment and another element, after the two calls that
returned the elements: the third call returns null and the fourth the
first element. -/
theorem select_child_starts_over_after_null_witness :
    (Catch.select_child (Catch.after_calls 2)).2 = select_result.ret none ∧
    (Catch.select_child (Catch.select_child (Catch.after_calls 2)).1).2 =
      select_result.ret
        (Catch.catch_element_no_for.children.filter
          pcvdom_node.is_element).head? ∧
    (Catch.catch_element_no_for.children.filter
        pcvdom_node.is_element).head? =
      some (pcvdom_node.element (pchvml_tag.OTHER 1) [] []) :=
  ⟨rfl,
    select_child_starts_over_after_null.2 (Catch.after_calls 2)
      { curr := some 3, for_var := none, «match» := true }
      Catch.catch_element_no_for rfl rfl rfl rfl (by decide) rfl,
    rfl⟩


/-! ## The position of a pushed frame -/

namespace Exit

end Exit

namespace Sleep

end Sleep

namespace Match

end Match

namespace Test

end Test

namespace Catch

end Catch

namespace Frames

theorem pair_sublist_append_singleton {α : Type} (x y z : α) (l : List α)
    (h : [x, y].Sublist (l ++ [z])) :
    [x, y].Sublist l ∨ (y = z ∧ x ∈ l) := by
  rw [List.sublist_append_iff] at h
  obtain ⟨a, b, hab, ha, hb⟩ := h
  rcases List.sublist_singleton.mp hb with hb1 | hb1
  · subst hb1
    rw [List.append_nil] at hab
    subst hab
    exact Or.inl ha
  · subst hb1
    match a, hab, ha with
    | [], hab, _ => simp at hab
    | [x1], hab, ha =>
      simp only [List.singleton_append, List.cons.injEq, and_true] at hab
      obtain ⟨h1, h2⟩ := hab
      subst h1 h2
      exact Or.inr ⟨rfl, List.singleton_sublist.mp ha⟩
    | _ :: _ :: _, hab, _ => simp at hab

theorem pair_sublist_of_mem {α : Type} (x y : α) (l : List α) (h : x ∈ l) :
    [x, y].Sublist (l ++ [y]) :=
  List.Sublist.append (List.singleton_sublist.mpr h) (List.Sublist.refl [y])

theorem well_nested_empty : well_nested execution_stack.empty where
  sorted := List.Pairwise.nil
  bound := fun f hf => by simp [execution_stack.empty] at hf
  accounted := fun f hf => by simp [execution_stack.empty] at hf
  created_bound := fun f hf => by simp [execution_stack.empty] at hf
  destroyed_bound := fun f hf => by simp [execution_stack.empty] at hf
  destroyed_gone := fun f hf => by simp [execution_stack.empty] at hf
  nested := fun a b _ h => by simp [execution_stack.empty] at h
  no_use_after := fun a h => by simp [execution_stack.empty] at h

theorem well_nested_push (s : execution_stack) (h : well_nested s) :
    well_nested (push s) where
  sorted := by
    simp only [push, List.pairwise_cons]
    exact ⟨fun a ha => h.bound a ha, h.sorted⟩
  bound := fun f hf => by
    simp only [push, List.mem_cons] at hf ⊢
    rcases hf with hf | hf
    · omega
    · have := h.bound f hf
      omega
  accounted := fun f hf => by
    simp only [push, List.mem_cons, List.mem_append, List.mem_singleton,
      reduceCtorEq, List.not_mem_nil, or_false] at hf ⊢
    by_cases e : f = s.nr_created
    · exact Or.inl (Or.inl e)
    · rcases h.accounted f (by omega) with h1 | h1
      · exact Or.inl (Or.inr h1)
      · exact Or.inr h1
  created_bound := fun f hf => by
    simp only [push, List.mem_append, List.mem_singleton,
      frame_event.created.injEq] at hf ⊢
    rcases hf with hf | hf
    · have := h.created_bound f hf
      omega
    · omega
  destroyed_bound := fun f hf => by
    simp only [push, List.mem_append, List.mem_singleton, reduceCtorEq,
      or_false] at hf ⊢
    have := h.destroyed_bound f hf
    omega
  destroyed_gone := fun f hf => by
    simp only [push, List.mem_append, List.mem_singleton, reduceCtorEq,
      or_false] at hf
    simp only [push, List.mem_cons, not_or]
    have := h.destroyed_bound f hf
    exact ⟨by omega, h.destroyed_gone f hf⟩
  nested := fun a b hab hs => by
    simp only [push] at hs ⊢
    rcases pair_sublist_append_singleton _ _ _ _ hs with h1 | ⟨h1, _⟩
    · exact (h.nested a b hab h1).trans (List.sublist_append_left _ _)
    · cases h1
  no_use_after := fun a hs => by
    simp only [push] at hs
    rcases pair_sublist_append_singleton _ _ _ _ hs with h1 | ⟨h1, _⟩
    · exact h.no_use_after a h1
    · cases h1

theorem well_nested_pop (s : execution_stack) (h : well_nested s) :
    well_nested (pop s) := by
  unfold pop
  cases hfr : s.frames with
  | nil => simpa [hfr] using h
  | cons f rest =>
    have hsorted := h.sorted
    rw [hfr, List.pairwise_cons] at hsorted
    have hfmem : f ∈ s.frames := by rw [hfr]; exact List.mem_cons_self _ _
    have hrest : ∀ g ∈ rest, g ∈ s.frames := fun g hg => by
      rw [hfr]; exact List.mem_cons_of_mem _ hg
    have htrace : s.trace ++
        [frame_event.on_popping f, frame_event.destroyed f] =
        (s.trace ++ [frame_event.on_popping f]) ++
          [frame_event.destroyed f] := by simp
    have hnotrest : f ∉ rest := fun hf => by
      have := hsorted.1 f hf
      omega
    show well_nested
      { frames := rest, nr_created := s.nr_created,
        trace := s.trace ++
          [frame_event.on_popping f, frame_event.destroyed f] }
    exact
      { sorted := hsorted.2
        bound := fun g hg => h.bound g (hrest g hg)
        accounted := fun g hg => by
          simp only [List.mem_append, List.mem_cons, List.mem_singleton,
            reduceCtorEq, frame_event.destroyed.injEq, false_or,
            List.not_mem_nil, or_false]
          rcases h.accounted g hg with h1 | h1
          · rw [hfr, List.mem_cons] at h1
            rcases h1 with h1 | h1
            · exact Or.inr (Or.inr h1)
            · exact Or.inl h1
          · exact Or.inr (Or.inl h1)
        created_bound := fun g hg => by
          simp only [List.mem_append, List.mem_cons, List.mem_singleton,
            reduceCtorEq, List.not_mem_nil, or_false] at hg
          exact h.created_bound g hg
        destroyed_bound := fun g hg => by
          simp only [List.mem_append, List.mem_cons, List.mem_singleton,
            reduceCtorEq, frame_event.destroyed.injEq, false_or,
            List.not_mem_nil, or_false] at hg
          rcases hg with hg | hg
          · exact h.destroyed_bound g hg
          · rw [hg]; exact h.bound f hfmem
        destroyed_gone := fun g hg => by
          simp only [List.mem_append, List.mem_cons, List.mem_singleton,
            reduceCtorEq, frame_event.destroyed.injEq, false_or,
            List.not_mem_nil, or_false] at hg
          rcases hg with hg | hg
          · exact fun hm => h.destroyed_gone g hg (hrest g hm)
          · rw [hg]; exact hnotrest
        nested := fun a b hab hs => by
          rw [htrace] at hs ⊢
          rcases pair_sublist_append_singleton _ _ _ _ hs with h1 | ⟨h1, h2⟩
          · rcases pair_sublist_append_singleton _ _ _ _ h1 with h3 | ⟨h3, _⟩
            · exact ((h.nested a b hab h3).trans
                (List.sublist_append_left _ _)).trans
                (List.sublist_append_left _ _)
            · cases h3
          · cases h1
            simp only [List.mem_append, List.mem_singleton, reduceCtorEq,
              or_false] at h2
            have hb := h.created_bound b h2
            have hgone : frame_event.destroyed b ∈ s.trace := by
              rcases h.accounted b hb with h4 | h4
              · rw [hfr, List.mem_cons] at h4
                rcases h4 with h4 | h4
                · omega
                · have := hsorted.1 b h4
                  omega
              · exact h4
            exact pair_sublist_of_mem _ _ _
              (List.mem_append_left _ hgone)
        no_use_after := fun a hs => by
          rw [htrace] at hs
          rcases pair_sublist_append_singleton _ _ _ _ hs with h1 | ⟨h1, _⟩
          · rcases pair_sublist_append_singleton _ _ _ _ h1 with h3 | ⟨h3, h4⟩
            · exact h.no_use_after a h3
            · have e : a = f := by injection h3
              rw [e] at h4
              exact h.destroyed_gone f h4 hfmem
          · cases h1 }

theorem well_nested_run (ops : List stack_op) :
    ∀ s, well_nested s → well_nested (run s ops) := by
  induction ops with
  | nil => exact fun s h => h
  | cons op ops ih =>
    intro s h
    cases op with
    | push => exact ih _ (well_nested_push s h)
    | pop => exact ih _ (well_nested_pop s h)

end Frames

namespace Frames

theorem run_append (a b : List stack_op) :
    ∀ s, run s (a ++ b) = run (run s a) b := by
  induction a with
  | nil => exact fun _ => rfl
  | cons op a ih => exact fun s => ih (step s op)

theorem destroyed_frames_append (t u : List frame_event) :
    destroyed_frames (t ++ u) = destroyed_frames t ++ destroyed_frames u := by
  induction t with
  | nil => rfl
  | cons e t ih =>
    cases e <;> simp [destroyed_frames, ih]

theorem run_pushes (n : Nat) :
    ∀ s, (run s (List.replicate n stack_op.push)).frames.length =
        n + s.frames.length ∧
      destroyed_frames (run s (List.replicate n stack_op.push)).trace =
        destroyed_frames s.trace ∧
      ((s.frames = newest_first s.nr_created) →
        (run s (List.replicate n stack_op.push)).frames =
          newest_first (s.nr_created + n)) := by
  induction n with
  | zero => exact fun s => ⟨by simp [run], rfl, fun h => h⟩
  | succ n ih =>
    intro s
    obtain ⟨h1, h2, h3⟩ := ih (push s)
    simp only [List.replicate_succ, run, step]
    refine ⟨?_, ?_, ?_⟩
    · rw [h1]
      simp only [push, List.length_cons]
      omega
    · rw [h2]
      simp [push, destroyed_frames_append, destroyed_frames]
    · intro hs
      have := h3 (by simp only [push, newest_first, hs])
      rw [this]
      simp only [push]
      congr 1
      omega

theorem run_pops (fs : List Nat) :
    ∀ s, s.frames = fs →
      destroyed_frames (run s (List.replicate fs.length stack_op.pop)).trace =
        destroyed_frames s.trace ++ fs := by
  induction fs with
  | nil => exact fun s _ => by simp [run]
  | cons f rest ih =>
    intro s hs
    simp only [List.length_cons, List.replicate_succ, run, step]
    have hp : pop s =
        { frames := rest, nr_created := s.nr_created,
          trace := s.trace ++
            [frame_event.on_popping f, frame_event.destroyed f] } := by
      simp [pop, hs]
    rw [hp, ih _ rfl]
    simp [destroyed_frames_append, destroyed_frames]

theorem newest_first_length (n : Nat) : (newest_first n).length = n := by
  induction n with
  | zero => rfl
  | succ n ih => simp [newest_first, ih]

theorem pushes_then_pops (n : Nat) :
    destroyed_frames
        (run execution_stack.empty
          (List.replicate n stack_op.push ++
            List.replicate n stack_op.pop)).trace =
      newest_first n := by
  obtain ⟨_, h2, h3⟩ := run_pushes n execution_stack.empty
  have hfr := h3 rfl
  have e0 : execution_stack.empty.nr_created + n = n := Nat.zero_add n
  rw [e0] at hfr
  have e1 : destroyed_frames execution_stack.empty.trace = [] := rfl
  rw [run_append]
  have := run_pops (newest_first n) _ hfr
  rw [newest_first_length, h2, e1, List.nil_append] at this
  exact this

end Frames

/-- C22: in every run of pushes and pops from an execution stack without
frames, a frame created while an older frame was on the stack is
destroyed before that older frame; frames pushed one after the other and
then popped are destroyed in exactly the reverse order of their creation;
no `on_popping` of a frame comes after the destruction of that frame; and
`on_popping` of test, whenever it returns, has left the frames above the
bottom frame as they were, has kept the position of the bottom frame and
has left the bottom frame without context. -/
theorem frames_destroyed_in_reverse_order :
    (∀ (ops : List Frames.stack_op) (a b : Nat), a < b →
      [Frames.frame_event.created b, Frames.frame_event.destroyed a].Sublist
        (Frames.run Frames.execution_stack.empty ops).trace →
      [Frames.frame_event.destroyed b, Frames.frame_event.destroyed a].Sublist
        (Frames.run Frames.execution_stack.empty ops).trace) ∧
    (∀ n : Nat,
      Frames.destroyed_frames
          (Frames.run Frames.execution_stack.empty
            (List.replicate n Frames.stack_op.push ++
              List.replicate n Frames.stack_op.pop)).trace =
        Frames.newest_first n) ∧
    (∀ (ops : List Frames.stack_op) (a : Nat),
      ¬ [Frames.frame_event.destroyed a,
          Frames.frame_event.on_popping a].Sublist
        (Frames.run Frames.execution_stack.empty ops).trace) ∧
    (∀ (stack st : pcintr_stack Test.ctxt_for_test) (b : Bool),
      Test.on_popping stack = some (st, b) →
      st.parents = stack.parents ∧ st.bottom.pos = stack.bottom.pos ∧
        st.bottom.ctxt = none) := by
  refine ⟨fun ops a b hab hs => ?_, Frames.pushes_then_pops,
    fun ops a => ?_, fun stack st b h => ?_⟩
  · exact (Frames.well_nested_run ops _ Frames.well_nested_empty).nested
      a b hab hs
  · exact (Frames.well_nested_run ops _ Frames.well_nested_empty).no_use_after
      a
  · unfold Test.on_popping at h
    split at h
    · exact absurd h (by simp)
    · split at h
      · rename_i hc
        simp only [Option.some.injEq, Prod.mk.injEq] at h
        rw [← h.1]
        exact ⟨rfl, rfl, hc⟩
      · simp only [Option.some.injEq, Prod.mk.injEq] at h
        rw [← h.1]
        exact ⟨rfl, rfl, rfl⟩

/-- C22 at two frames pushed and then popped, and at the test frame of
`<test on=1>` with four children. -/
theorem frames_destroyed_in_reverse_order_witness :
    [Frames.frame_event.destroyed 1, Frames.frame_event.destroyed 0].Sublist
      (Frames.run Frames.execution_stack.empty
        [Frames.stack_op.push, Frames.stack_op.push, Frames.stack_op.pop,
          Frames.stack_op.pop]).trace ∧
    ∃ st, Test.on_popping Test.four_children_start = some (st, true) ∧
      st.parents = Test.four_children_start.parents ∧
      st.bottom.pos = Test.four_children_start.bottom.pos ∧
      st.bottom.ctxt = none :=
  ⟨frames_destroyed_in_reverse_order.1
      [Frames.stack_op.push, Frames.stack_op.push, Frames.stack_op.pop,
        Frames.stack_op.pop] 0 1 (by decide) (by decide),
    _, rfl,
    frames_destroyed_in_reverse_order.2.2.2 Test.four_children_start _ true
      rfl⟩


/-! ## The references of a test frame -/

namespace Test

theorem on_popping_releases_nothing (rc : refcounts)
    (stack : pcintr_stack ctxt_for_test) : on_popping_refs rc stack = rc := by
  unfold on_popping_refs
  split <;> rfl

/-- C24: a test frame pushed on `<test on=1 in=2 for="x">` stores the
three values in its context and takes a reference to each; popped, it
has its context destroyed and the frame is without context, but the
reference count of each of the three values is one more than before the
push. -/
theorem test_push_pop_keeps_references :
    (after_pushed collab.all_ok pcintr_stack.fresh three_attr_test).2 =
      some { curr := none, «on» := some (purc_variant.longint 1),
             «in» := some (purc_variant.longint 2),
             for_var := some (purc_variant.string "x") } ∧
    (on_popping
      (after_pushed collab.all_ok pcintr_stack.fresh
        three_attr_test).1).map (fun p => p.1.bottom.ctxt) = some none ∧
    one_reference (purc_variant.longint 1) = 1 ∧
    push_pop_refs collab.all_ok one_reference pcintr_stack.fresh
      three_attr_test (purc_variant.longint 1) = 2 ∧
    push_pop_refs collab.all_ok one_reference pcintr_stack.fresh
      three_attr_test (purc_variant.longint 2) = 2 ∧
    push_pop_refs collab.all_ok one_reference pcintr_stack.fresh
      three_attr_test (purc_variant.string "x") = 2 := by
  decide

end Test

end PurC
